import Mathlib

/-!
# servo-unity: cross-thread coordination and window lifecycle

A shallow embedding of `ServoUnityWindow.cpp` (task queue, event queue, lazy engine
boot, bounded shutdown wait) as explicit state passing over a `World`.

* The heap of `ServoUnityWindow` objects is a map from object identity (`Nat`) to
  field record; the static pointer `s_servo` is an `Option Nat`.
* The wrapped engine (simpleservo) is external. Every engine entry point that is
  called is appended to `World.engineLog`; the callbacks the engine fires while an
  entry point runs are given by the oracle `Env.react`, and are executed by the
  embedded callback bodies of the source.
* Host function pointers are identities (`Nat`); their invocations are appended to
  `World.hostLog`.
* The mutexes are not modelled: the embedding is the sequential behaviour of each
  method, with the engine interleaving only inside engine entry points. The one
  exception is `lockedDrainTasks`, which keeps track of `m_servoTasksLock` during the
  task drain.
* The two loops whose number of passes depends on the environment (the task drain of
  `requestUpdate`, the shutdown wait of `cleanupRenderer`) take a fuel argument, one
  unit per pass, and return `none` when it runs out; the statements give the fuel
  with which they return.
-/

namespace ServoUnity

/-! ## Constants of `servo_unity_c.h` -/

def ServoUnityBrowserEvent_NOP : Int := 0
def ServoUnityBrowserEvent_Shutdown : Int := 1
def ServoUnityBrowserEvent_LoadStateChanged : Int := 2
def ServoUnityBrowserEvent_FullscreenStateChanged : Int := 3
def ServoUnityBrowserEvent_IMEStateChanged : Int := 4
def ServoUnityBrowserEvent_HistoryChanged : Int := 5
def ServoUnityBrowserEvent_TitleChanged : Int := 6
def ServoUnityBrowserEvent_URLChanged : Int := 7

def ServoUnityPointerEventMouseButtonID_Left : Int := 0
def ServoUnityPointerEventMouseButtonID_Right : Int := 1
def ServoUnityPointerEventMouseButtonID_Middle : Int := 2

/-! ## Engine interface (simpleservo) -/

/-- Mouse buttons of the engine interface. -/
inductive CMouseButton where
  | Left | Right | Middle
deriving DecidableEq

/-- Key types of the engine interface that `keyEvent` produces. -/
inductive CKeyType where
  | kCharacter | kBackspace | kDelete | kTab | kEnter | kPause | kEscape
  | kUpArrow | kDownArrow | kRightArrow | kLeftArrow
  | kInsert | kHome | kEnd | kPageUp | kPageDown
  | kF1 | kF2 | kF3 | kF4 | kF5 | kF6 | kF7 | kF8 | kF9 | kF10 | kF11 | kF12
  | kNumLock | kCapsLock | kScrollLock | kShift | kControl | kOptionAlt
  | kCommandWindows | kAltGr | kHelp | kPrint
deriving DecidableEq

/-- Modelled from the spec: the log level read by `requestUpdate` when it builds the
engine arguments ("constructs startup options from current size/log-level/params").
The numeric values of `SERVO_UNITY_LOG_LEVEL_*` live in `servo_unity_log.h`, which is
not among the sources; only the case distinction of the `switch` is kept. -/
inductive LogLevel where
  | debug | info | warn | error | other
deriving DecidableEq

/-- Pixel size, `ServoUnityWindow::Size`. -/
structure Size where
  w : Int
  h : Int
deriving DecidableEq

/-- The fields of `CInitOptions` that `requestUpdate` fills in (the remaining ones are
null pointers or zero). `density` is the literal `1.0f`, kept as a rational. -/
structure CInitOptions where
  args : Option String
  width : Int
  height : Int
  density : Rat
deriving DecidableEq

/-- Engine entry points called by this layer, with their arguments. Coordinates are
kept as the integers that the source casts to `float`. -/
inductive EngineCall where
  | initRenderer (cio : CInitOptions)
  | perform_updates
  | request_shutdown
  | deinit
  | mouse_move (x y : Int)
  | mouse_down (x y : Int) (button : CMouseButton)
  | mouse_up (x y : Int) (button : CMouseButton)
  | click (x y : Int)
  | scroll (dx dy x y : Int)
  | key_down (kc : Int) (kt : CKeyType)
  | key_up (kc : Int) (kt : CKeyType)
  | refresh
  | reload
  | stop
  | go_back
  | go_forward
  | load_uri (uri : String)
deriving DecidableEq

/-- The entries of the `CHostCallbacks` table (and `wakeup`) whose bodies touch window
state. The remaining entries (clipboard, media session, prompts, devtools, context
menu, log output) only write to the log and return a default. -/
inductive Callback where
  | on_load_started
  | on_load_ended
  | on_title_changed (title : String)
  | on_allow_navigation (url : String)
  | on_url_changed (url : String)
  | on_history_changed (can_go_back can_go_forward : Bool)
  | on_animating_changed (animating : Bool)
  | on_shutdown_complete
  | on_ime_show
  | on_ime_hide
  | wakeup
deriving DecidableEq

/-! ## Data model -/

/-- The value type `BROWSEREVENTCALLBACKTASK` stored in the event queue. -/
structure BROWSEREVENTCALLBACKTASK where
  uidExt : Int
  eventType : Int
  eventData1 : Int
  eventData2 : Int
deriving DecidableEq

/-- The closures handed to `runOnServoThread`. One constructor per lambda of
`ServoUnityWindow.cpp`, with its captured values; `closure id` is any other
`std::function` identified by `id`, whose body is given by `Env.spawns`. -/
inductive ServoTask where
  | mouse_move (x y : Int)
  | mouse_down (x y : Int) (button : Int)
  | mouse_up (x y : Int) (button : Int)
  | click (x y : Int)
  | scroll (x_scroll y_scroll x y : Int)
  | key_down (kc : Int) (kt : CKeyType)
  | key_up (kc : Int) (kt : CKeyType)
  | refresh
  | reload
  | stop
  | go_back
  | go_forward
  | goHome
  | navigate (urlOrSearchString : String)
  | closure (id : Nat)
deriving DecidableEq

/-- Invocations of the three host function pointers; `fn` is the pointer called. -/
inductive HostCall where
  | windowCreated (fn : Nat) (uidExt windowIndex pixelWidth pixelHeight format : Int)
  | windowResized (fn : Nat) (uidExt pixelWidth pixelHeight : Int)
  | browserEvent (fn : Nat) (uidExt eventType eventData1 eventData2 : Int)
deriving DecidableEq

/-- Fields of one `ServoUnityWindow` object: those the constructor in
`ServoUnityWindow.cpp` initialises and the two queues its methods use (the class
declaration `ServoUnityWindow.h` is not among the sources). `size` is what the virtual
`size()` of the backend subtype returns. -/
structure ServoUnityWindow where
  m_uid : Int
  m_uidExt : Int
  m_windowCreatedCallback : Option Nat
  m_windowResizedCallback : Option Nat
  m_browserEventCallback : Option Nat
  m_updateContinuously : Bool
  m_updateOnce : Bool
  m_title : String
  m_URL : String
  m_waitingForShutdown : Bool
  m_servoTasks : List ServoTask
  m_browserEventCallbackTasks : List BROWSEREVENTCALLBACKTASK
  size : Size

/-- The constructor `ServoUnityWindow::ServoUnityWindow(uid, uidExt)`; the queues start
empty and `sz` is the size held by the backend subtype. -/
def ServoUnityWindow.new (uid uidExt : Int) (sz : Size) : ServoUnityWindow :=
  { m_uid := uid
    m_uidExt := uidExt
    m_windowCreatedCallback := none
    m_windowResizedCallback := none
    m_browserEventCallback := none
    m_updateContinuously := false
    m_updateOnce := false
    m_title := ""
    m_URL := ""
    m_waitingForShutdown := false
    m_servoTasks := []
    m_browserEventCallbackTasks := []
    size := sz }

/-- Process state: the window objects, the statics, and the traces of external calls.
`ranTasks` records each task at the moment the drain loop calls it, with the window
that ran it. `clockReads` counts the clock readings taken so far. -/
structure World where
  windows : Nat → ServoUnityWindow
  s_servo : Option Nat
  servoUnityLogLevel : LogLevel
  s_param_Homepage : String
  s_param_SearchURI : String
  engineLog : List EngineCall
  hostLog : List HostCall
  ranTasks : List (Nat × ServoTask)
  clockReads : Nat

/-- Everything outside this layer: how the engine answers each entry point (the
callbacks it fires while the call runs, given the calls made so far including this
one), the engine predicate `is_uri_valid`, the successive readings of the millisecond
clock, and the tasks that closure `id` hands to `runOnServoThread` when it runs. -/
structure Env where
  react : List EngineCall → List Callback
  is_uri_valid : String → Bool
  clock : Nat → Int
  spawns : Nat → List ServoTask

/-- Overwrite the fields of the window object `p`. -/
def World.setWindow (w : World) (p : Nat) (win : ServoUnityWindow) : World :=
  { w with windows := fun q => if q = p then win else w.windows q }

/-! ## Queues -/

/-- The method `ServoUnityWindow::runOnServoThread`: append to the tail of the task
queue. -/
def runOnServoThread (this : Nat) (task : ServoTask) (w : World) : World :=
  w.setWindow this
    { w.windows this with m_servoTasks := (w.windows this).m_servoTasks ++ [task] }

/-- The method `ServoUnityWindow::queueBrowserEventCallbackTask`: append to the tail of
the event queue. -/
def queueBrowserEventCallbackTask (this : Nat) (uidExt eventType eventData1 eventData2 : Int)
    (w : World) : World :=
  w.setWindow this
    { w.windows this with
      m_browserEventCallbackTasks :=
        (w.windows this).m_browserEventCallbackTasks ++
          [⟨uidExt, eventType, eventData1, eventData2⟩] }

/-- One pass of the loop body of `serviceWindowEvents` on a queue `task :: rest`: pop
the head under the lock, then call `m_browserEventCallback` with the four fields of
the event if the pointer is non-null. -/
def servicePass (this : Nat) (task : BROWSEREVENTCALLBACKTASK)
    (rest : List BROWSEREVENTCALLBACKTASK) (w : World) : World :=
  let w1 := w.setWindow this { w.windows this with m_browserEventCallbackTasks := rest }
  match (w1.windows this).m_browserEventCallback with
  | some fn =>
    { w1 with
      hostLog := w1.hostLog ++
        [HostCall.browserEvent fn task.uidExt task.eventType task.eventData1 task.eventData2] }
  | none => w1

/-- The loop of `ServoUnityWindow::serviceWindowEvents`, run on the queue it finds.
The host callback is a trace entry, so the queue seen by each pass is the one the
previous pass left. -/
def serviceLoop (this : Nat) : List BROWSEREVENTCALLBACKTASK → World → World
  | [], w => w
  | task :: rest, w => serviceLoop this rest (servicePass this task rest w)

/-- The method `ServoUnityWindow::serviceWindowEvents`. -/
def serviceWindowEvents (this : Nat) (w : World) : World :=
  serviceLoop this (w.windows this).m_browserEventCallbackTasks w

/-! ## Engine callbacks

Static functions: each fetches the active instance through `s_servo`. -/

/-- Callback `on_load_started`: queue `(LoadStateChanged, 1, 0)`. -/
def on_load_started (w : World) : World :=
  match w.s_servo with
  | none => w
  | some s =>
    queueBrowserEventCallbackTask s (w.windows s).m_uidExt
      ServoUnityBrowserEvent_LoadStateChanged 1 0 w

/-- Callback `on_load_ended`: queue `(LoadStateChanged, 0, 0)`. -/
def on_load_ended (w : World) : World :=
  match w.s_servo with
  | none => w
  | some s =>
    queueBrowserEventCallbackTask s (w.windows s).m_uidExt
      ServoUnityBrowserEvent_LoadStateChanged 0 0 w

/-- Callback `on_title_changed`: store the title, then queue `(TitleChanged, 0, 0)`. -/
def on_title_changed (title : String) (w : World) : World :=
  match w.s_servo with
  | none => w
  | some s =>
    let w1 := w.setWindow s { w.windows s with m_title := title }
    queueBrowserEventCallbackTask s (w1.windows s).m_uidExt
      ServoUnityBrowserEvent_TitleChanged 0 0 w1

/-- Callback `on_url_changed`: store the URL, then queue `(URLChanged, 0, 0)`. -/
def on_url_changed (url : String) (w : World) : World :=
  match w.s_servo with
  | none => w
  | some s =>
    let w1 := w.setWindow s { w.windows s with m_URL := url }
    queueBrowserEventCallbackTask s (w1.windows s).m_uidExt
      ServoUnityBrowserEvent_URLChanged 0 0 w1

/-- Callback `on_history_changed`: queue `(HistoryChanged, back, forward)` as 0 or 1. -/
def on_history_changed (can_go_back can_go_forward : Bool) (w : World) : World :=
  match w.s_servo with
  | none => w
  | some s =>
    queueBrowserEventCallbackTask s (w.windows s).m_uidExt
      ServoUnityBrowserEvent_HistoryChanged (if can_go_back then 1 else 0)
      (if can_go_forward then 1 else 0) w

/-- Callback `on_animating_changed`: write `m_updateContinuously`. -/
def on_animating_changed (animating : Bool) (w : World) : World :=
  match w.s_servo with
  | none => w
  | some s => w.setWindow s { w.windows s with m_updateContinuously := animating }

/-- Callback `on_shutdown_complete`: clear `m_waitingForShutdown` of the guard holder. -/
def on_shutdown_complete (w : World) : World :=
  match w.s_servo with
  | none => w
  | some s => w.setWindow s { w.windows s with m_waitingForShutdown := false }

/-- Callback `on_ime_show`: queue `(IMEStateChanged, 1, 0)`; its arguments are only logged. -/
def on_ime_show (w : World) : World :=
  match w.s_servo with
  | none => w
  | some s =>
    queueBrowserEventCallbackTask s (w.windows s).m_uidExt
      ServoUnityBrowserEvent_IMEStateChanged 1 0 w

/-- Callback `on_ime_hide`: queue `(IMEStateChanged, 0, 0)`. -/
def on_ime_hide (w : World) : World :=
  match w.s_servo with
  | none => w
  | some s =>
    queueBrowserEventCallbackTask s (w.windows s).m_uidExt
      ServoUnityBrowserEvent_IMEStateChanged 0 0 w

/-- Callback `wakeup`: set `m_updateOnce` of the guard holder. -/
def wakeup (w : World) : World :=
  match w.s_servo with
  | none => w
  | some s => w.setWindow s { w.windows s with m_updateOnce := true }

/-- Run the body of the callback the engine fires. `on_allow_navigation` only logs and
returns `true`. -/
def dispatch (cb : Callback) (w : World) : World :=
  match cb with
  | .on_load_started => on_load_started w
  | .on_load_ended => on_load_ended w
  | .on_title_changed title => on_title_changed title w
  | .on_allow_navigation _ => w
  | .on_url_changed url => on_url_changed url w
  | .on_history_changed b f => on_history_changed b f w
  | .on_animating_changed a => on_animating_changed a w
  | .on_shutdown_complete => on_shutdown_complete w
  | .on_ime_show => on_ime_show w
  | .on_ime_hide => on_ime_hide w
  | .wakeup => wakeup w

/-- Run a list of callbacks in order. -/
def dispatchAll : List Callback → World → World
  | [], w => w
  | cb :: cbs, w => dispatchAll cbs (dispatch cb w)

/-- Call an engine entry point: record the call, then run the callbacks the engine
fires while it executes. -/
def engineCall (env : Env) (c : EngineCall) (w : World) : World :=
  dispatchAll (env.react (w.engineLog ++ [c])) { w with engineLog := w.engineLog ++ [c] }

/-! ## Tasks -/

/-- The static helper `getServoButton`. -/
def getServoButton (button : Int) : CMouseButton :=
  if button = ServoUnityPointerEventMouseButtonID_Left then CMouseButton.Left
  else if button = ServoUnityPointerEventMouseButtonID_Right then CMouseButton.Right
  else if button = ServoUnityPointerEventMouseButtonID_Middle then CMouseButton.Middle
  else CMouseButton.Left

/-- Position of the first occurrence of `c`, as `std::string::find`; `none` is `npos`. -/
def findChar (c : Char) : List Char → Option Nat
  | [] => none
  | x :: xs => if x = c then some 0 else (findChar c xs).map (· + 1)

/-- The test `dotPos != npos && (slashPos == npos || slashPos > dotPos)` of the lambda
of `navigate`. -/
def dotBeforeSlash (dotPos slashPos : Option Nat) : Bool :=
  match dotPos, slashPos with
  | none, _ => false
  | some _, none => true
  | some d, some s => decide (s > d)

/-- The URI that the lambda of `navigate` settles on when its argument is not itself a
valid URI. -/
def navigateCandidate (env : Env) (searchURI urlOrSearchString : String) : String :=
  let dotPos := findChar '.' urlOrSearchString.toList
  let slashPos := findChar '/' urlOrSearchString.toList
  if dotBeforeSlash dotPos slashPos then
    let withMethod := "https://" ++ urlOrSearchString
    if env.is_uri_valid withMethod then withMethod else searchURI ++ urlOrSearchString
  else searchURI ++ urlOrSearchString

/-- Body of the lambda queued by `navigate`. -/
def navigateTask (env : Env) (urlOrSearchString : String) (w : World) : World :=
  if env.is_uri_valid urlOrSearchString then
    engineCall env (.load_uri urlOrSearchString) w
  else
    let uri := navigateCandidate env w.s_param_SearchURI urlOrSearchString
    if env.is_uri_valid uri then engineCall env (.load_uri uri) w else w

/-- Body of the lambda queued by `goHome`. -/
def goHomeTask (env : Env) (w : World) : World :=
  if env.is_uri_valid w.s_param_Homepage then engineCall env (.load_uri w.s_param_Homepage) w
  else w

/-- Hand a list of tasks to `runOnServoThread`, in order. -/
def enqueueAll (this : Nat) : List ServoTask → World → World
  | [], w => w
  | t :: ts, w => enqueueAll this ts (runOnServoThread this t w)

/-- Call a task popped from the queue of window `this` (the statement `task();`). -/
def runTask (env : Env) (this : Nat) (task : ServoTask) (w : World) : World :=
  let w1 := { w with ranTasks := w.ranTasks ++ [(this, task)] }
  match task with
  | .mouse_move x y => engineCall env (.mouse_move x y) w1
  | .mouse_down x y button => engineCall env (.mouse_down x y (getServoButton button)) w1
  | .mouse_up x y button => engineCall env (.mouse_up x y (getServoButton button)) w1
  | .click x y => engineCall env (.click x y) w1
  | .scroll dx dy x y => engineCall env (.scroll dx dy x y) w1
  | .key_down kc kt => engineCall env (.key_down kc kt) w1
  | .key_up kc kt => engineCall env (.key_up kc kt) w1
  | .refresh => engineCall env .refresh w1
  | .reload => engineCall env .reload w1
  | .stop => engineCall env .stop w1
  | .go_back => engineCall env .go_back w1
  | .go_forward => engineCall env .go_forward w1
  | .goHome => goHomeTask env w1
  | .navigate s => navigateTask env s w1
  | .closure id => enqueueAll this (env.spawns id) w1

/-- The task-queue loop of `requestUpdate`: pop the head (or stop when the queue is
empty), then call the popped task. One unit of `fuel` per pass; `none` when the fuel
runs out before the queue is found empty. -/
def drainTasks (env : Env) : Nat → Nat → World → Option World
  | 0, _, _ => none
  | fuel + 1, this, w =>
    match (w.windows this).m_servoTasks with
    | [] => some w
    | task :: rest =>
      let w1 := w.setWindow this { w.windows this with m_servoTasks := rest }
      drainTasks env fuel this (runTask env this task w1)

/-! ## `requestUpdate` -/

/-- The `args` string built from the log level (the text of the temporary whose
`c_str()` the source passes on). -/
def logLevelArgs : LogLevel → Option String
  | .debug => some "--vslogger-level debug"
  | .info => some "--vslogger-level info"
  | .warn => some "--vslogger-level warn"
  | .error => some "--vslogger-level error"
  | .other => none

/-- The `CInitOptions` built by `requestUpdate` for window `this`. -/
def initOptions (this : Nat) (w : World) : CInitOptions :=
  { args := logLevelArgs w.servoUnityLogLevel
    width := (w.windows this).size.w
    height := (w.windows this).size.h
    density := 1 }

/-- First block of `requestUpdate`: if `s_servo` is null, claim it and start the
engine through the virtual `initRenderer`. -/
def bootIfNeeded (env : Env) (this : Nat) (w : World) : World :=
  match w.s_servo with
  | some _ => w
  | none =>
    let w1 := { w with s_servo := some this }
    engineCall env (.initRenderer (initOptions this w1)) w1

/-- Second block of `requestUpdate` ("Updates first"): read the two flags, clear
`m_updateOnce`, and call `perform_updates` if either was set. -/
def pumpIfRequested (env : Env) (this : Nat) (w : World) : World :=
  let win := w.windows this
  if win.m_updateOnce || win.m_updateContinuously then
    engineCall env .perform_updates (w.setWindow this { win with m_updateOnce := false })
  else w

/-- The method `ServoUnityWindow::requestUpdate(timeDelta)`; `timeDelta` is only
logged. -/
def requestUpdate (env : Env) (fuel : Nat) (this : Nat) (w : World) : Option World :=
  drainTasks env fuel this (pumpIfRequested env this (bootIfNeeded env this w))

/-! ## `cleanupRenderer` -/

/-- Modelled from the spec: `getTimeNow` of `utils.h`, which is not among the sources
("record a start timestamp"). It takes a reading of the millisecond clock. -/
def getTimeNow (env : Env) (w : World) : Int × World :=
  (env.clock w.clockReads, { w with clockReads := w.clockReads + 1 })

/-- Modelled from the spec: `millisecondsElapsedSince` of `utils.h`, which is not among
the sources ("2000 ms elapse since the start timestamp"). It takes a reading of the
millisecond clock and subtracts the start. -/
def millisecondsElapsedSince (env : Env) (timeStart : Int) (w : World) : Int × World :=
  (env.clock w.clockReads - timeStart, { w with clockReads := w.clockReads + 1 })

/-- The polling loop of `cleanupRenderer`. One unit of `fuel` per evaluation of the
loop condition; `none` when the fuel runs out while the loop is still running. -/
def shutdownWait (env : Env) (this : Nat) (timeStart : Int) : Nat → World → Option World
  | 0, _ => none
  | fuel + 1, w =>
    if (w.windows this).m_waitingForShutdown = true then
      let r := millisecondsElapsedSince env timeStart w
      if r.1 > 2000 then some r.2
      else shutdownWait env this timeStart fuel (engineCall env .perform_updates r.2)
    else some w

/-- The method `ServoUnityWindow::cleanupRenderer`. -/
def cleanupRenderer (env : Env) (fuel : Nat) (this : Nat) (w : World) : Option World :=
  match w.s_servo with
  | none => some w
  | some _ =>
    let w1 := w.setWindow this { w.windows this with m_servoTasks := [] }
    let w2 := w1.setWindow this { w1.windows this with m_waitingForShutdown := true }
    let t := getTimeNow env w2
    let w3 := engineCall env .request_shutdown t.2
    match shutdownWait env this t.1 fuel w3 with
    | none => none
    | some w4 =>
      let w5 := engineCall env .deinit w4
      let w6 := { w5 with s_servo := none }
      some (queueBrowserEventCallbackTask this (w6.windows this).m_uidExt
        ServoUnityBrowserEvent_Shutdown 0 0 w6)

/-! ## Vocabulary of the statements -/

/-- The callbacks whose body writes `m_updateOnce` or `m_updateContinuously`. -/
def Callback.writesUpdateFlags : Callback → Bool
  | .wakeup => true
  | .on_animating_changed _ => true
  | _ => false

/-- The callbacks whose body calls `queueBrowserEventCallbackTask`. -/
def Callback.pushesEvent : Callback → Bool
  | .on_load_started => true
  | .on_load_ended => true
  | .on_title_changed _ => true
  | .on_url_changed _ => true
  | .on_history_changed _ _ => true
  | .on_ime_show => true
  | .on_ime_hide => true
  | _ => false

/-- The tasks a task hands to `runOnServoThread` when it is called: none for the
lambdas of `ServoUnityWindow.cpp`, `Env.spawns id` for `closure id`. -/
def ServoTask.enqueues (env : Env) : ServoTask → List ServoTask
  | .closure id => env.spawns id
  | _ => []

/-- The four engine entry points called by the lifecycle methods themselves. -/
def EngineCall.isLifecycle : EngineCall → Bool
  | .initRenderer _ => true
  | .perform_updates => true
  | .request_shutdown => true
  | .deinit => true
  | _ => false

/-- The state in which a popped task starts: the trace entry is written. -/
def markRan (this : Nat) (task : ServoTask) (w : World) : World :=
  { w with ranTasks := w.ranTasks ++ [(this, task)] }

/-- Hand a list of events to `queueBrowserEventCallbackTask`, in order. -/
def pushAll (this : Nat) : List BROWSEREVENTCALLBACKTASK → World → World
  | [], w => w
  | e :: es, w =>
    pushAll this es
      (queueBrowserEventCallbackTask this e.uidExt e.eventType e.eventData1 e.eventData2 w)

/-- The call `(*m_browserEventCallback)(uidExt, eventType, eventData1, eventData2)`. -/
def deliver (fn : Nat) (e : BROWSEREVENTCALLBACKTASK) : HostCall :=
  HostCall.browserEvent fn e.uidExt e.eventType e.eventData1 e.eventData2

/-- Whether the engine fires `on_shutdown_complete` during one of the engine calls
`calls`, made in this order after the calls `log`. -/
def firedShutdownComplete (env : Env) : List EngineCall → List EngineCall → Bool
  | _, [] => false
  | log, c :: cs =>
    decide (Callback.on_shutdown_complete ∈ env.react (log ++ [c])) ||
      firedShutdownComplete env (log ++ [c]) cs

/-- The state in which a reading of the clock leaves the process. -/
def afterReading (w : World) : World := { w with clockReads := w.clockReads + 1 }

/-- The state in which `cleanupRenderer` enters its polling loop: task queue cleared,
`m_waitingForShutdown` set, start time read, `request_shutdown` called. -/
def beginShutdown (env : Env) (this : Nat) (w : World) : World :=
  let w1 := w.setWindow this { w.windows this with m_servoTasks := [] }
  let w2 := w1.setWindow this { w1.windows this with m_waitingForShutdown := true }
  engineCall env .request_shutdown (getTimeNow env w2).2

/-- The statements of `cleanupRenderer` after its polling loop: `deinit`, clear the
guard, queue the `Shutdown` event. -/
def finishShutdown (env : Env) (this : Nat) (w4 : World) : World :=
  let w5 := engineCall env .deinit w4
  let w6 := { w5 with s_servo := none }
  queueBrowserEventCallbackTask this (w6.windows this).m_uidExt
    ServoUnityBrowserEvent_Shutdown 0 0 w6

/-- The engine calls of one shutdown sequence with `pumps` passes of the loop. -/
def shutdownCalls (pumps : Nat) : List EngineCall :=
  EngineCall.request_shutdown :: (List.replicate pumps EngineCall.perform_updates ++
    [EngineCall.deinit])

/-- The state in which `cleanupRenderer` calls `request_shutdown`. -/
def armed (this : Nat) (w : World) : World :=
  afterReading
    ((w.setWindow this { w.windows this with m_servoTasks := [] }).setWindow this
      { w.windows this with m_servoTasks := [], m_waitingForShutdown := true })

/-- Number of `Shutdown` events in an event queue. -/
def shutdownEvents (q : List BROWSEREVENTCALLBACKTASK) : Nat :=
  q.countP (fun e => decide (e.eventType = ServoUnityBrowserEvent_Shutdown))

/-- The engine call made by `initRenderer`. -/
def EngineCall.isInit : EngineCall → Bool
  | .initRenderer _ => true
  | _ => false

/-- A sequence of `requestUpdate` calls, each with its fuel and its window, with no
other operation in between. -/
def requestUpdates (env : Env) : List (Nat × Nat) → World → Option World
  | [], w => some w
  | call :: rest, w =>
    match requestUpdate env call.1 call.2 w with
    | none => none
    | some w1 => requestUpdates env rest w1

/-! ## Concrete states used to instantiate the statements -/

/-- A process with no engine running: window `i` was constructed with `uid = i`,
`uidExt = i + 7` and size 800 x 600. -/
def sampleWorld : World :=
  { windows := fun i => ServoUnityWindow.new (Int.ofNat i) (Int.ofNat i + 7) ⟨800, 600⟩
    s_servo := none
    servoUnityLogLevel := .warn
    s_param_Homepage := "https://servo.org/"
    s_param_SearchURI := "https://www.google.com/search?client=firefox-b-d&q="
    engineLog := []
    hostLog := []
    ranTasks := []
    clockReads := 0 }

/-- An engine that never calls back, with a clock that advances 1500 ms per reading. -/
def silentEnv : Env :=
  { react := fun _ => []
    is_uri_valid := fun _ => true
    clock := fun k => 1500 * k
    spawns := fun _ => [] }

/-- The sample process with the engine running for window 0. -/
def runningWorld : World := { sampleWorld with s_servo := some 0 }

/-- The sample process with the engine running for window 0 and three control
operations waiting in the task queue of window 0. -/
def busyWorld : World :=
  enqueueAll 0 [ServoTask.refresh, ServoTask.click 1 2, ServoTask.go_back] runningWorld

/-- An engine that answers every pump with `on_shutdown_complete`, with a clock that
advances 1500 ms per reading. -/
def promptEnv : Env :=
  { react := fun l =>
      if l.getLast? = some EngineCall.perform_updates then [Callback.on_shutdown_complete]
      else []
    is_uri_valid := fun _ => true
    clock := fun k => 1500 * k
    spawns := fun _ => [] }

/-- The sample process with the engine running for window 0, whose browser-event
callback is registered as pointer 5. -/
def listeningWorld : World :=
  runningWorld.setWindow 0 { runningWorld.windows 0 with m_browserEventCallback := some 5 }

def ServoUnityKeyCode_Null : Int := 0
def ServoUnityKeyCode_Character : Int := 1
def ServoUnityKeyCode_Backspace : Int := 2
def ServoUnityKeyCode_Delete : Int := 3
def ServoUnityKeyCode_Tab : Int := 4
def ServoUnityKeyCode_Clear : Int := 5
def ServoUnityKeyCode_Return : Int := 6
def ServoUnityKeyCode_Pause : Int := 7
def ServoUnityKeyCode_Escape : Int := 8
def ServoUnityKeyCode_Space : Int := 9
def ServoUnityKeyCode_UpArrow : Int := 10
def ServoUnityKeyCode_DownArrow : Int := 11
def ServoUnityKeyCode_RightArrow : Int := 12
def ServoUnityKeyCode_LeftArrow : Int := 13
def ServoUnityKeyCode_Insert : Int := 14
def ServoUnityKeyCode_Home : Int := 15
def ServoUnityKeyCode_End : Int := 16
def ServoUnityKeyCode_PageUp : Int := 17
def ServoUnityKeyCode_PageDown : Int := 18
def ServoUnityKeyCode_F1 : Int := 19
def ServoUnityKeyCode_F2 : Int := 20
def ServoUnityKeyCode_F3 : Int := 21
def ServoUnityKeyCode_F4 : Int := 22
def ServoUnityKeyCode_F5 : Int := 23
def ServoUnityKeyCode_F6 : Int := 24
def ServoUnityKeyCode_F7 : Int := 25
def ServoUnityKeyCode_F8 : Int := 26
def ServoUnityKeyCode_F9 : Int := 27
def ServoUnityKeyCode_F10 : Int := 28
def ServoUnityKeyCode_F11 : Int := 29
def ServoUnityKeyCode_F12 : Int := 30
def ServoUnityKeyCode_F13 : Int := 31
def ServoUnityKeyCode_F14 : Int := 32
def ServoUnityKeyCode_F15 : Int := 33
def ServoUnityKeyCode_F16 : Int := 34
def ServoUnityKeyCode_F17 : Int := 35
def ServoUnityKeyCode_F18 : Int := 36
def ServoUnityKeyCode_F19 : Int := 37
def ServoUnityKeyCode_Numlock : Int := 38
def ServoUnityKeyCode_CapsLock : Int := 39
def ServoUnityKeyCode_ScrollLock : Int := 40
def ServoUnityKeyCode_RightShift : Int := 41
def ServoUnityKeyCode_LeftShift : Int := 42
def ServoUnityKeyCode_RightControl : Int := 43
def ServoUnityKeyCode_LeftControl : Int := 44
def ServoUnityKeyCode_RightAlt : Int := 45
def ServoUnityKeyCode_LeftAlt : Int := 46
def ServoUnityKeyCode_LeftCommand : Int := 47
def ServoUnityKeyCode_LeftWindows : Int := 48
def ServoUnityKeyCode_RightCommand : Int := 49
def ServoUnityKeyCode_RightWindows : Int := 50
def ServoUnityKeyCode_AltGr : Int := 51
def ServoUnityKeyCode_Help : Int := 52
def ServoUnityKeyCode_Print : Int := 53
def ServoUnityKeyCode_SysReq : Int := 54
def ServoUnityKeyCode_Break : Int := 55
def ServoUnityKeyCode_Menu : Int := 56
def ServoUnityKeyCode_Keypad0 : Int := 57
def ServoUnityKeyCode_Keypad1 : Int := 58
def ServoUnityKeyCode_Keypad2 : Int := 59
def ServoUnityKeyCode_Keypad3 : Int := 60
def ServoUnityKeyCode_Keypad4 : Int := 61
def ServoUnityKeyCode_Keypad5 : Int := 62
def ServoUnityKeyCode_Keypad6 : Int := 63
def ServoUnityKeyCode_Keypad7 : Int := 64
def ServoUnityKeyCode_Keypad8 : Int := 65
def ServoUnityKeyCode_Keypad9 : Int := 66
def ServoUnityKeyCode_KeypadPeriod : Int := 67
def ServoUnityKeyCode_KeypadDivide : Int := 68
def ServoUnityKeyCode_KeypadMultiply : Int := 69
def ServoUnityKeyCode_KeypadMinus : Int := 70
def ServoUnityKeyCode_KeypadPlus : Int := 71
def ServoUnityKeyCode_KeypadEnter : Int := 72
def ServoUnityKeyCode_KeypadEquals : Int := 73

/-! ## `init` and the control operations -/

/-- The method `ServoUnityWindow::init`: bind the three host function pointers (a null
pointer is `none`) and return `true`. -/
def init (this : Nat) (windowCreatedCallback windowResizedCallback browserEventCallback :
    Option Nat) (w : World) : Bool × World :=
  (true,
    w.setWindow this
      { w.windows this with
        m_windowCreatedCallback := windowCreatedCallback
        m_windowResizedCallback := windowResizedCallback
        m_browserEventCallback := browserEventCallback })

/-- The method `pointerEnter`, which only logs. -/
def pointerEnter (_this : Nat) (w : World) : World := w

/-- The method `pointerExit`, which only logs. -/
def pointerExit (_this : Nat) (w : World) : World := w

/-- The method `pointerOver`. -/
def pointerOver (this : Nat) (x y : Int) (w : World) : World :=
  match w.s_servo with
  | none => w
  | some _ => runOnServoThread this (ServoTask.mouse_move x y) w

/-- The method `pointerPress`. -/
def pointerPress (this : Nat) (button x y : Int) (w : World) : World :=
  match w.s_servo with
  | none => w
  | some _ => runOnServoThread this (ServoTask.mouse_down x y button) w

/-- The method `pointerRelease`. -/
def pointerRelease (this : Nat) (button x y : Int) (w : World) : World :=
  match w.s_servo with
  | none => w
  | some _ => runOnServoThread this (ServoTask.mouse_up x y button) w

/-- The method `pointerClick`: only the primary button produces a click. -/
def pointerClick (this : Nat) (button x y : Int) (w : World) : World :=
  match w.s_servo with
  | none => w
  | some _ => if button ≠ 0 then w else runOnServoThread this (ServoTask.click x y) w

/-- The method `pointerScrollDiscrete`. -/
def pointerScrollDiscrete (this : Nat) (x_scroll y_scroll x y : Int) (w : World) : World :=
  match w.s_servo with
  | none => w
  | some _ => runOnServoThread this (ServoTask.scroll x_scroll y_scroll x y) w

/-- The code of a character literal of the source, as the `int` it converts to. -/
def charCode (c : Char) : Int := Int.ofNat c.toNat

/-- The `case` lines of the `switch` of `keyEvent`, in source order: key code, key
type assigned to `kt`, and the character literal assigned to `kc` if the line has one.
The cases commented out in the source (`Null`, `Clear`, `F13` to `F19`, `SysReq`,
`Break`, `Menu`) are absent. -/
def keySwitch : List (Int × CKeyType × Option Char) :=
[
  (ServoUnityKeyCode_Character, CKeyType.kCharacter, none),
  (ServoUnityKeyCode_Backspace, CKeyType.kBackspace, none),
  (ServoUnityKeyCode_Delete, CKeyType.kDelete, none),
  (ServoUnityKeyCode_Tab, CKeyType.kTab, none),
  (ServoUnityKeyCode_Return, CKeyType.kEnter, none),
  (ServoUnityKeyCode_Pause, CKeyType.kPause, none),
  (ServoUnityKeyCode_Escape, CKeyType.kEscape, none),
  (ServoUnityKeyCode_Space, CKeyType.kCharacter, some ' '),
  (ServoUnityKeyCode_UpArrow, CKeyType.kUpArrow, none),
  (ServoUnityKeyCode_DownArrow, CKeyType.kDownArrow, none),
  (ServoUnityKeyCode_RightArrow, CKeyType.kRightArrow, none),
  (ServoUnityKeyCode_LeftArrow, CKeyType.kLeftArrow, none),
  (ServoUnityKeyCode_Insert, CKeyType.kInsert, none),
  (ServoUnityKeyCode_Home, CKeyType.kHome, none),
  (ServoUnityKeyCode_End, CKeyType.kEnd, none),
  (ServoUnityKeyCode_PageUp, CKeyType.kPageUp, none),
  (ServoUnityKeyCode_PageDown, CKeyType.kPageDown, none),
  (ServoUnityKeyCode_F1, CKeyType.kF1, none),
  (ServoUnityKeyCode_F2, CKeyType.kF2, none),
  (ServoUnityKeyCode_F3, CKeyType.kF3, none),
  (ServoUnityKeyCode_F4, CKeyType.kF4, none),
  (ServoUnityKeyCode_F5, CKeyType.kF5, none),
  (ServoUnityKeyCode_F6, CKeyType.kF6, none),
  (ServoUnityKeyCode_F7, CKeyType.kF7, none),
  (ServoUnityKeyCode_F8, CKeyType.kF8, none),
  (ServoUnityKeyCode_F9, CKeyType.kF9, none),
  (ServoUnityKeyCode_F10, CKeyType.kF10, none),
  (ServoUnityKeyCode_F11, CKeyType.kF11, none),
  (ServoUnityKeyCode_F12, CKeyType.kF12, none),
  (ServoUnityKeyCode_Numlock, CKeyType.kNumLock, none),
  (ServoUnityKeyCode_CapsLock, CKeyType.kCapsLock, none),
  (ServoUnityKeyCode_ScrollLock, CKeyType.kScrollLock, none),
  (ServoUnityKeyCode_RightShift, CKeyType.kShift, none),
  (ServoUnityKeyCode_LeftShift, CKeyType.kShift, none),
  (ServoUnityKeyCode_RightControl, CKeyType.kControl, none),
  (ServoUnityKeyCode_LeftControl, CKeyType.kControl, none),
  (ServoUnityKeyCode_RightAlt, CKeyType.kOptionAlt, none),
  (ServoUnityKeyCode_LeftAlt, CKeyType.kOptionAlt, none),
  (ServoUnityKeyCode_LeftCommand, CKeyType.kCommandWindows, none),
  (ServoUnityKeyCode_LeftWindows, CKeyType.kCommandWindows, none),
  (ServoUnityKeyCode_RightCommand, CKeyType.kCommandWindows, none),
  (ServoUnityKeyCode_RightWindows, CKeyType.kCommandWindows, none),
  (ServoUnityKeyCode_AltGr, CKeyType.kAltGr, none),
  (ServoUnityKeyCode_Help, CKeyType.kHelp, none),
  (ServoUnityKeyCode_Print, CKeyType.kPrint, none),
  (ServoUnityKeyCode_Keypad0, CKeyType.kCharacter, some '0'),
  (ServoUnityKeyCode_Keypad1, CKeyType.kCharacter, some '1'),
  (ServoUnityKeyCode_Keypad2, CKeyType.kCharacter, some '2'),
  (ServoUnityKeyCode_Keypad3, CKeyType.kCharacter, some '3'),
  (ServoUnityKeyCode_Keypad4, CKeyType.kCharacter, some '4'),
  (ServoUnityKeyCode_Keypad5, CKeyType.kCharacter, some '5'),
  (ServoUnityKeyCode_Keypad6, CKeyType.kCharacter, some '6'),
  (ServoUnityKeyCode_Keypad7, CKeyType.kCharacter, some '7'),
  (ServoUnityKeyCode_Keypad8, CKeyType.kCharacter, some '8'),
  (ServoUnityKeyCode_Keypad9, CKeyType.kCharacter, some '9'),
  (ServoUnityKeyCode_KeypadPeriod, CKeyType.kCharacter, some '.'),
  (ServoUnityKeyCode_KeypadDivide, CKeyType.kCharacter, some '/'),
  (ServoUnityKeyCode_KeypadMultiply, CKeyType.kCharacter, some '*'),
  (ServoUnityKeyCode_KeypadMinus, CKeyType.kCharacter, some '-'),
  (ServoUnityKeyCode_KeypadPlus, CKeyType.kCharacter, some '+'),
  (ServoUnityKeyCode_KeypadEnter, CKeyType.kEnter, none),
  (ServoUnityKeyCode_KeypadEquals, CKeyType.kCharacter, some '=') ]

/-- The `switch` of `keyEvent`: the key type `kt` and the character code `kc` (which
starts as `character`) for a key code, or `none` in the `default: return` case. -/
def keyTypeFor (keyCode character : Int) : Option (CKeyType × Int) :=
  match keySwitch.find? (fun line => decide (line.1 = keyCode)) with
  | none => none
  | some (_, kt, none) => some (kt, character)
  | some (_, kt, some c) => some (kt, charCode c)

/-- The method `keyEvent`. -/
def keyEvent (this : Nat) (upDown keyCode character : Int) (w : World) : World :=
  match w.s_servo with
  | none => w
  | some _ =>
    match keyTypeFor keyCode character with
    | none => w
    | some (kt, kc) =>
      if upDown = 1 then runOnServoThread this (ServoTask.key_down kc kt) w
      else runOnServoThread this (ServoTask.key_up kc kt) w

/-- The method `refresh`. -/
def refresh (this : Nat) (w : World) : World :=
  match w.s_servo with
  | none => w
  | some _ => runOnServoThread this ServoTask.refresh w

/-- The method `reload`. -/
def reload (this : Nat) (w : World) : World :=
  match w.s_servo with
  | none => w
  | some _ => runOnServoThread this ServoTask.reload w

/-- The method `stop`. -/
def stop (this : Nat) (w : World) : World :=
  match w.s_servo with
  | none => w
  | some _ => runOnServoThread this ServoTask.stop w

/-- The method `goBack`. -/
def goBack (this : Nat) (w : World) : World :=
  match w.s_servo with
  | none => w
  | some _ => runOnServoThread this ServoTask.go_back w

/-- The method `goForward`. -/
def goForward (this : Nat) (w : World) : World :=
  match w.s_servo with
  | none => w
  | some _ => runOnServoThread this ServoTask.go_forward w

/-- The method `goHome`. -/
def goHome (this : Nat) (w : World) : World :=
  match w.s_servo with
  | none => w
  | some _ => runOnServoThread this ServoTask.goHome w

/-- The method `navigate`. -/
def navigate (this : Nat) (urlOrSearchString : String) (w : World) : World :=
  match w.s_servo with
  | none => w
  | some _ => runOnServoThread this (ServoTask.navigate urlOrSearchString) w

/-! ## Sequences of operations -/

/-- The control operations of a window, with their arguments. -/
inductive ControlOp where
  | pointerEnter
  | pointerExit
  | pointerOver (x y : Int)
  | pointerPress (button x y : Int)
  | pointerRelease (button x y : Int)
  | pointerClick (button x y : Int)
  | pointerScrollDiscrete (x_scroll y_scroll x y : Int)
  | keyEvent (upDown keyCode character : Int)
  | refresh
  | reload
  | stop
  | goBack
  | goForward
  | goHome
  | navigate (urlOrSearchString : String)
deriving DecidableEq

/-- Call a control operation on window `this`. -/
def ControlOp.perform (this : Nat) : ControlOp → World → World
  | .pointerEnter, w => ServoUnity.pointerEnter this w
  | .pointerExit, w => ServoUnity.pointerExit this w
  | .pointerOver x y, w => ServoUnity.pointerOver this x y w
  | .pointerPress b x y, w => ServoUnity.pointerPress this b x y w
  | .pointerRelease b x y, w => ServoUnity.pointerRelease this b x y w
  | .pointerClick b x y, w => ServoUnity.pointerClick this b x y w
  | .pointerScrollDiscrete a b x y, w => ServoUnity.pointerScrollDiscrete this a b x y w
  | .keyEvent u k c, w => ServoUnity.keyEvent this u k c w
  | .refresh, w => ServoUnity.refresh this w
  | .reload, w => ServoUnity.reload this w
  | .stop, w => ServoUnity.stop this w
  | .goBack, w => ServoUnity.goBack this w
  | .goForward, w => ServoUnity.goForward this w
  | .goHome, w => ServoUnity.goHome this w
  | .navigate s, w => ServoUnity.navigate this s w

/-- One step of the life of the process: a method called on a window by the host, or a
callback fired by an engine thread between two method calls. -/
inductive LifecycleOp where
  | init (this : Nat) (created resized browser : Option Nat)
  | requestUpdate (fuel this : Nat)
  | cleanupRenderer (fuel this : Nat)
  | control (this : Nat) (op : ControlOp)
  | callback (cb : Callback)

/-- Run one step. -/
def LifecycleOp.step (env : Env) : LifecycleOp → World → Option World
  | .init this a b c, w => some (ServoUnity.init this a b c w).2
  | .requestUpdate fuel this, w => ServoUnity.requestUpdate env fuel this w
  | .cleanupRenderer fuel this, w => ServoUnity.cleanupRenderer env fuel this w
  | .control this op, w => some (op.perform this w)
  | .callback cb, w => some (dispatch cb w)

/-- Run a sequence of steps, in order. -/
def runOps (env : Env) : List LifecycleOp → World → Option World
  | [], w => some w
  | op :: ops, w =>
    match op.step env w with
    | none => none
    | some w1 => runOps env ops w1

/-- Number of `initRenderer` calls in an engine log. -/
def initCalls (log : List EngineCall) : Nat := log.countP EngineCall.isInit

/-- Number of `deinit` calls in an engine log. -/
def deinitCalls (log : List EngineCall) : Nat := log.count EngineCall.deinit

/-- The relation between guard and call counts: with the guard null as many
`initRenderer` as `deinit` calls have been made, with the guard set one more. -/
def GuardMatchesBoots (w : World) : Prop :=
  (w.s_servo = none ∧ initCalls w.engineLog = deinitCalls w.engineLog) ∨
  (w.s_servo ≠ none ∧ initCalls w.engineLog = deinitCalls w.engineLog + 1)

/-- The key codes that the statement about `keyEvent` calls unmapped: `Null`, `Clear`,
`F13` to `F19`, `SysReq`, `Break`, `Menu`, and every value below 0 or above 73. -/
def UnmappedKeyCode (keyCode : Int) : Prop :=
  keyCode = ServoUnityKeyCode_Null ∨ keyCode = ServoUnityKeyCode_Clear ∨
  (ServoUnityKeyCode_F13 ≤ keyCode ∧ keyCode ≤ ServoUnityKeyCode_F19) ∨
  keyCode = ServoUnityKeyCode_SysReq ∨ keyCode = ServoUnityKeyCode_Break ∨
  keyCode = ServoUnityKeyCode_Menu ∨ keyCode < 0 ∨ keyCode > 73

instance : DecidablePred UnmappedKeyCode := fun keyCode => by
  unfold UnmappedKeyCode
  infer_instance

/-- The condition of the navigation heuristic in the words of its statement: the
string contains a `.` with no `/` before it (so the `.` precedes the first `/`, or
there is no `/`). -/
def DotBeforeFirstSlash (s : String) : Prop :=
  ∃ pre post, s.toList = pre ++ '.' :: post ∧ '/' ∉ pre

/-- An engine for which exactly `https://example.com` is a valid URI, and which never
calls back. -/
def exampleEnv : Env :=
  { react := fun _ => []
    is_uri_valid := fun uri => uri == "https://example.com"
    clock := fun k => 1500 * k
    spawns := fun _ => [] }

/-! ## The Direct3D 11 backend (`ServoUnityWindowDX11`) -/

def ServoUnityTextureFormat_Invalid : Int := 0
def ServoUnityTextureFormat_RGBA32 : Int := 1
def ServoUnityTextureFormat_BGRA32 : Int := 2
def ServoUnityTextureFormat_ARGB32 : Int := 3
def ServoUnityTextureFormat_ABGR32 : Int := 4
def ServoUnityTextureFormat_RGB24 : Int := 5
def ServoUnityTextureFormat_BGR24 : Int := 6
def ServoUnityTextureFormat_RGBA4444 : Int := 7
def ServoUnityTextureFormat_RGBA5551 : Int := 8
def ServoUnityTextureFormat_RGB565 : Int := 9

/-! The values of the `DXGI_FORMAT` enumeration that the backend names, as the Windows
SDK header `dxgiformat.h` defines them. A `DXGI_FORMAT` value is a `Nat`. -/

def DXGI_FORMAT_R8G8B8A8_TYPELESS : Nat := 27
def DXGI_FORMAT_R8G8B8A8_UNORM : Nat := 28
def DXGI_FORMAT_R8G8B8A8_UNORM_SRGB : Nat := 29
def DXGI_FORMAT_R8G8B8A8_UINT : Nat := 30
def DXGI_FORMAT_B5G6R5_UNORM : Nat := 85
def DXGI_FORMAT_B5G5R5A1_UNORM : Nat := 86
def DXGI_FORMAT_B8G8R8A8_UNORM : Nat := 87
def DXGI_FORMAT_B8G8R8A8_TYPELESS : Nat := 90
def DXGI_FORMAT_B8G8R8A8_UNORM_SRGB : Nat := 91
def DXGI_FORMAT_B4G4R4A4_UNORM : Nat := 115

/-- The static helper `getServoUnityTextureFormatForDXGIFormat`: the `switch` with its
fall-through groups. -/
def getServoUnityTextureFormatForDXGIFormat (format : Nat) : Int :=
  if format = DXGI_FORMAT_R8G8B8A8_TYPELESS ∨ format = DXGI_FORMAT_R8G8B8A8_UNORM ∨
      format = DXGI_FORMAT_R8G8B8A8_UNORM_SRGB ∨ format = DXGI_FORMAT_R8G8B8A8_UINT then
    ServoUnityTextureFormat_RGBA32
  else if format = DXGI_FORMAT_B8G8R8A8_UNORM ∨ format = DXGI_FORMAT_B8G8R8A8_UNORM_SRGB ∨
      format = DXGI_FORMAT_B8G8R8A8_TYPELESS then
    ServoUnityTextureFormat_BGRA32
  else if format = DXGI_FORMAT_B4G4R4A4_UNORM then ServoUnityTextureFormat_RGBA4444
  else if format = DXGI_FORMAT_B5G6R5_UNORM then ServoUnityTextureFormat_RGB565
  else if format = DXGI_FORMAT_B5G5R5A1_UNORM then ServoUnityTextureFormat_RGBA5551
  else ServoUnityTextureFormat_Invalid

/-- The fields of `D3D11_TEXTURE2D_DESC` that the backend reads; `Width` and `Height`
are `UINT`. -/
structure D3D11_TEXTURE2D_DESC where
  Width : Nat
  Height : Nat
  Format : Nat
deriving DecidableEq

/-- The conversion `(int)` of a `UINT`: reduce modulo 2^32 and read as two's
complement. -/
def toInt32 (n : Nat) : Int :=
  if n % 2 ^ 32 < 2 ^ 31 then Int.ofNat (n % 2 ^ 32) else Int.ofNat (n % 2 ^ 32) - 2 ^ 32

/-- Calls made on the Direct3D device, its immediate context and its textures;
textures and shared handles are identities (`Nat`). -/
inductive D3DCall where
  | OpenSharedResource (handle : Nat)
  | GetImmediateContext
  | GetDesc (texture : Nat)
  | CopyResource (dst src : Nat)
  | Release
deriving DecidableEq

/-- The error-level log lines of `ServoUnityWindowDX11.cpp`. -/
inductive LoggedError where
  | servoTextureHandleNull
  | cannotOpenServoTexture
  | textureSizeMismatch (unityWidth unityHeight servoWidth servoHeight : Nat)
deriving DecidableEq

/-- The private members that `ServoUnityWindowDX11.h` adds to a window. `m_size` is the
`size` field of the base record, since `size()` returns it. The last three members
have the names of the callback members of the base class and hide them inside the
subclass; no code of the backend assigns them. -/
structure ServoUnityWindowDX11 where
  m_servoTexPtr : Option Nat
  m_servoTexHandle : Option Nat
  m_format : Int
  m_unityTexPtr : Option Nat
  m_windowCreatedCallback : Option Nat
  m_windowResizedCallback : Option Nat
  m_browserEventCallback : Option Nat

/-- The constructor `ServoUnityWindowDX11(uid, uidExt, size)` as far as the added
members go. Its initialiser list leaves the three callback members of the subclass
uninitialised; the values they happen to hold are the last three arguments. -/
def ServoUnityWindowDX11.new (created resized browser : Option Nat) : ServoUnityWindowDX11 :=
  { m_servoTexPtr := none
    m_servoTexHandle := none
    m_format := ServoUnityTextureFormat_Invalid
    m_unityTexPtr := none
    m_windowCreatedCallback := created
    m_windowResizedCallback := resized
    m_browserEventCallback := browser }

/-- The Direct3D side of the environment: what `OpenSharedResource` answers for a
shared handle (`none` when the result is not `S_OK`) and the description of each
texture. The device pointer `s_D3D11Device` is taken to be set by `initDevice`. -/
structure D3DEnv where
  openSharedResource : Nat → Option Nat
  desc : Nat → D3D11_TEXTURE2D_DESC

/-- Process state with the Direct3D backend: the base state, the added members of each
window, and the traces of Direct3D calls and of error log lines. -/
structure DX11World where
  base : World
  dx : Nat → ServoUnityWindowDX11
  d3dLog : List D3DCall
  errorLog : List LoggedError

/-- Overwrite the added members of window `p`. -/
def DX11World.setDx (st : DX11World) (p : Nat) (x : ServoUnityWindowDX11) : DX11World :=
  { st with dx := fun q => if q = p then x else st.dx q }

/-- The method `ServoUnityWindowDX11::init`. The callback it tests and calls is the
member of the subclass, not the one `ServoUnityWindow::init` has just bound. When
`OpenSharedResource` fails the output pointer is null. -/
def ServoUnityWindowDX11.init (d3d : D3DEnv) (this : Nat)
    (windowCreatedCallback windowResizedCallback browserEventCallback : Option Nat)
    (st : DX11World) : Bool × DX11World :=
  let r := ServoUnity.init this windowCreatedCallback windowResizedCallback
    browserEventCallback st.base
  let st1 := { st with base := r.2 }
  if r.1 = false then (false, st1)
  else
    match (st1.dx this).m_servoTexHandle with
    | none => (false, { st1 with errorLog := st1.errorLog ++ [LoggedError.servoTextureHandleNull] })
    | some handle =>
      let st2 := { st1 with d3dLog := st1.d3dLog ++ [D3DCall.OpenSharedResource handle] }
      match d3d.openSharedResource handle with
      | none =>
        (false,
          { st2.setDx this { st2.dx this with m_servoTexPtr := none } with
            errorLog := st2.errorLog ++ [LoggedError.cannotOpenServoTexture] })
      | some tex =>
        let descServo := d3d.desc tex
        let size : Size := ⟨toInt32 descServo.Width, toInt32 descServo.Height⟩
        let format := getServoUnityTextureFormatForDXGIFormat descServo.Format
        let st3 :=
          { st2.setDx this { st2.dx this with m_servoTexPtr := some tex, m_format := format } with
            d3dLog := st2.d3dLog ++ [D3DCall.GetDesc tex]
            base := st2.base.setWindow this { st2.base.windows this with size := size } }
        match (st3.dx this).m_windowCreatedCallback with
        | none => (true, st3)
        | some fn =>
          (true,
            { st3 with
              base :=
                { st3.base with
                  hostLog := st3.base.hostLog ++
                    [HostCall.windowCreated fn (st3.base.windows this).m_uidExt
                      (st3.base.windows this).m_uid size.w size.h format] } })

/-- The method `ServoUnityWindowDX11::size`. -/
def ServoUnityWindowDX11.size (this : Nat) (st : DX11World) : Size :=
  (st.base.windows this).size

/-- The method `ServoUnityWindowDX11::format`. -/
def ServoUnityWindowDX11.format (this : Nat) (st : DX11World) : Int :=
  (st.dx this).m_format

/-- The method `ServoUnityWindowDX11::setNativePtr`. -/
def ServoUnityWindowDX11.setNativePtr (this : Nat) (texPtr : Option Nat) (st : DX11World) :
    DX11World :=
  st.setDx this { st.dx this with m_unityTexPtr := texPtr }

/-- The method `ServoUnityWindowDX11::nativePtr`. -/
def ServoUnityWindowDX11.nativePtr (this : Nat) (st : DX11World) : Option Nat :=
  (st.dx this).m_unityTexPtr

/-- The part of `ServoUnityWindowDX11::requestUpdate` after the base update: return if
either texture pointer is null; otherwise read both descriptions and either log the
size mismatch or copy the engine texture into the host texture. The second operand of
the `||` compares `descServo.Height` with `descServo.Height`, as the source does. -/
def ServoUnityWindowDX11.copyFrame (d3d : D3DEnv) (this : Nat) (st : DX11World) : DX11World :=
  match (st.dx this).m_servoTexPtr, (st.dx this).m_unityTexPtr with
  | some servoTex, some unityTex =>
    let descServo := d3d.desc servoTex
    let descUnity := d3d.desc unityTex
    let st1 :=
      { st with
        d3dLog := st.d3dLog ++
          [D3DCall.GetImmediateContext, D3DCall.GetDesc servoTex, D3DCall.GetDesc unityTex] }
    let st2 :=
      if descServo.Width ≠ descUnity.Width ∨ descServo.Height ≠ descServo.Height then
        { st1 with
          errorLog := st1.errorLog ++
            [LoggedError.textureSizeMismatch descUnity.Width descUnity.Height descServo.Width
              descServo.Height] }
      else { st1 with d3dLog := st1.d3dLog ++ [D3DCall.CopyResource unityTex servoTex] }
    { st2 with d3dLog := st2.d3dLog ++ [D3DCall.Release] }
  | _, _ => st

/-- The method `ServoUnityWindowDX11::requestUpdate`: the base update, then the frame
copy. -/
def ServoUnityWindowDX11.requestUpdate (env : Env) (d3d : D3DEnv) (fuel this : Nat)
    (st : DX11World) : Option DX11World :=
  match ServoUnity.requestUpdate env fuel this st.base with
  | none => none
  | some w' => some (ServoUnityWindowDX11.copyFrame d3d this { st with base := w' })

/-- A Direct3D environment: shared handle 9 opens as texture 1; textures 1 and 2 are
800 x 600, texture 3 is 800 x 400, texture 4 is 640 x 600, all `R8G8B8A8_UNORM`. -/
def sampleD3D : D3DEnv :=
  { openSharedResource := fun handle => if handle = 9 then some 1 else none
    desc := fun texture =>
      if texture = 1 then ⟨800, 600, DXGI_FORMAT_R8G8B8A8_UNORM⟩
      else if texture = 2 then ⟨800, 600, DXGI_FORMAT_R8G8B8A8_UNORM⟩
      else if texture = 3 then ⟨800, 400, DXGI_FORMAT_R8G8B8A8_UNORM⟩
      else if texture = 4 then ⟨640, 600, DXGI_FORMAT_R8G8B8A8_UNORM⟩
      else ⟨0, 0, 0⟩ }

/-- The running sample process with the Direct3D backend, every window holding the
given engine texture pointer, host texture pointer and shared handle, and the given
value in the window-created callback member of the subclass. -/
def dxWorld (servoTex unityTex handle created : Option Nat) : DX11World :=
  { base := runningWorld
    dx := fun _ =>
      { ServoUnityWindowDX11.new created none none with
        m_servoTexPtr := servoTex
        m_unityTexPtr := unityTex
        m_servoTexHandle := handle }
    d3dLog := []
    errorLog := [] }

/-! ## Reading the title and the URL -/

/-- The method `ServoUnityWindow::windowTitle`. -/
def windowTitle (this : Nat) (w : World) : String := (w.windows this).m_title

/-- The method `ServoUnityWindow::windowURL`. -/
def windowURL (this : Nat) (w : World) : String := (w.windows this).m_URL

/-- The event queues of the process grow from `w` to `w'` by exactly one event: `e` at
the tail of the queue of window `s`. -/
def PushesOneEvent (w w' : World) (s : Nat) (e : BROWSEREVENTCALLBACKTASK) : Prop :=
  (w'.windows s).m_browserEventCallbackTasks =
    (w.windows s).m_browserEventCallbackTasks ++ [e] ∧
  ∀ p, p ≠ s →
    (w'.windows p).m_browserEventCallbackTasks = (w.windows p).m_browserEventCallbackTasks

/-! ## Histories of the event queue -/

/-- The two operations on the event queue of a window: a call of
`queueBrowserEventCallbackTask` with an event, and a call of `serviceWindowEvents`. -/
inductive EventOp where
  | push (e : BROWSEREVENTCALLBACKTASK)
  | service
deriving DecidableEq

/-- Perform one operation on the event queue of window `this`. -/
def EventOp.step (this : Nat) : EventOp → World → World
  | .push e, w =>
    queueBrowserEventCallbackTask this e.uidExt e.eventType e.eventData1 e.eventData2 w
  | .service, w => serviceWindowEvents this w

/-- Perform a sequence of operations on the event queue of window `this`. -/
def runEventOps (this : Nat) : List EventOp → World → World
  | [], w => w
  | op :: ops, w => runEventOps this ops (op.step this w)

/-- The events pushed by a sequence of operations, in push order. -/
def pushedEvents : List EventOp → List BROWSEREVENTCALLBACKTASK
  | [] => []
  | .push e :: ops => e :: pushedEvents ops
  | .service :: ops => pushedEvents ops

/-! ## Tasks that enqueue tasks -/

/-- Generation `k` of a queue: the queue itself, then what its tasks hand to
`runOnServoThread` when called, then what those hand over, and so on. -/
def generation (env : Env) : Nat → List ServoTask → List ServoTask
  | 0, q => q
  | k + 1, q => generation env k (q.flatMap (ServoTask.enqueues env))

/-- The first `k` generations of a queue one after the other: every task of the queue
in queue order, then the tasks they enqueue in the order of enqueueing, and so on. -/
def drainSchedule (env : Env) : Nat → List ServoTask → List ServoTask
  | 0, _ => []
  | k + 1, q => q ++ drainSchedule env k (q.flatMap (ServoTask.enqueues env))

/-- How a drain of the task queue that keeps track of `m_servoTasksLock` can end. -/
inductive DrainResult where
  | finished (w : World)
  | outOfFuel
  | blocked

/-- The method `runOnServoThread` with its `lock_guard` on `m_servoTasksLock`: `held`
says whether the calling thread already holds that (non-recursive) mutex, in which
case the call cannot proceed. -/
def lockedRunOnServoThread (held : Bool) (this : Nat) (task : ServoTask) (w : World) :
    Option World :=
  if held then none else some (runOnServoThread this task w)

/-- Hand a list of tasks to `runOnServoThread` in order, with the lock state `held`. -/
def lockedEnqueueAll (held : Bool) (this : Nat) : List ServoTask → World → Option World
  | [], w => some w
  | t :: ts, w =>
    match lockedRunOnServoThread held this t w with
    | none => none
    | some w1 => lockedEnqueueAll held this ts w1

/-- Call a popped task with the lock state `held`; only a task that enqueues touches
the lock. -/
def lockedRunTask (env : Env) (held : Bool) (this : Nat) (task : ServoTask) (w : World) :
    Option World :=
  match task with
  | .closure id => lockedEnqueueAll held this (env.spawns id) (markRan this task w)
  | _ => some (runTask env this task w)

/-- The task-queue loop of `requestUpdate` with the lock made explicit: the
`lock_guard` lives in the inner block that tests and pops the queue, so the statement
`task();` after that block runs with the lock released (`held` is `false`). -/
def lockedDrainTasks (env : Env) : Nat → Nat → World → DrainResult
  | 0, _, _ => .outOfFuel
  | fuel + 1, this, w =>
    match (w.windows this).m_servoTasks with
    | [] => .finished w
    | task :: rest =>
      let w1 := w.setWindow this { w.windows this with m_servoTasks := rest }
      match lockedRunTask env false this task w1 with
      | none => .blocked
      | some w2 => lockedDrainTasks env fuel this w2

/-- An environment in which closure 0 enqueues `refresh` and closure 1, closure 1
enqueues a click, and no other closure enqueues; the engine never calls back. -/
def nestingEnv : Env :=
  { react := fun _ => []
    is_uri_valid := fun _ => true
    clock := fun k => 1500 * k
    spawns := fun id =>
      if id = 0 then [ServoTask.refresh, ServoTask.closure 1]
      else if id = 1 then [ServoTask.click 1 2]
      else [] }

/-- The running sample process with closure 0 and `go_back` queued on window 0. -/
def nestingWorld : World :=
  enqueueAll 0 [ServoTask.closure 0, ServoTask.go_back] runningWorld

/-! ## `ServoUnityWindowDX11::setSize` -/

/-- The method `ServoUnityWindowDX11::setSize`. The argument is not used (the request
to the engine is a TODO); the callback tested and called is the member of the
subclass, and the size passed to it is `m_size`. -/
def ServoUnityWindowDX11.setSize (this : Nat) (_size : Size) (st : DX11World) : DX11World :=
  match (st.dx this).m_windowResizedCallback with
  | none => st
  | some fn =>
    { st with
      base :=
        { st.base with
          hostLog := st.base.hostLog ++
            [HostCall.windowResized fn (st.base.windows this).m_uidExt
              (st.base.windows this).size.w (st.base.windows this).size.h] } }

/-- The Direct3D sample process after `ServoUnityWindowDX11::init` on window 0,
registering host pointer 6 as window-resized callback and no other callback. The
shared handle is null, as the constructor leaves it, so `init` has returned `false`
after binding the callbacks; the callback members of the subclass hold null. -/
def resizableWorld : DX11World :=
  (ServoUnityWindowDX11.init sampleD3D 0 none (some 6) none
    (dxWorld none none none none)).2

@[simp] theorem setWindow_same (w : World) (p : Nat) (x : ServoUnityWindow) :
    (w.setWindow p x).windows p = x := by
  simp [World.setWindow]

@[simp] theorem setWindow_other (w : World) (p q : Nat) (x : ServoUnityWindow) (h : q ≠ p) :
    (w.setWindow p x).windows q = w.windows q := by
  simp [World.setWindow, h]

theorem setWindow_apply (w : World) (p q : Nat) (x : ServoUnityWindow) :
    (w.setWindow p x).windows q = if q = p then x else w.windows q := rfl

@[simp] theorem setWindow_s_servo (w : World) (p : Nat) (x : ServoUnityWindow) :
    (w.setWindow p x).s_servo = w.s_servo := rfl

@[simp] theorem setWindow_engineLog (w : World) (p : Nat) (x : ServoUnityWindow) :
    (w.setWindow p x).engineLog = w.engineLog := rfl

@[simp] theorem setWindow_hostLog (w : World) (p : Nat) (x : ServoUnityWindow) :
    (w.setWindow p x).hostLog = w.hostLog := rfl

@[simp] theorem setWindow_ranTasks (w : World) (p : Nat) (x : ServoUnityWindow) :
    (w.setWindow p x).ranTasks = w.ranTasks := rfl

@[simp] theorem setWindow_clockReads (w : World) (p : Nat) (x : ServoUnityWindow) :
    (w.setWindow p x).clockReads = w.clockReads := rfl

@[simp] theorem setWindow_logLevel (w : World) (p : Nat) (x : ServoUnityWindow) :
    (w.setWindow p x).servoUnityLogLevel = w.servoUnityLogLevel := rfl

@[simp] theorem setWindow_homepage (w : World) (p : Nat) (x : ServoUnityWindow) :
    (w.setWindow p x).s_param_Homepage = w.s_param_Homepage := rfl

@[simp] theorem setWindow_searchURI (w : World) (p : Nat) (x : ServoUnityWindow) :
    (w.setWindow p x).s_param_SearchURI = w.s_param_SearchURI := rfl

/-- Writing back the fields a window already has changes nothing. -/
theorem setWindow_self (w : World) (p : Nat) : w.setWindow p (w.windows p) = w := by
  cases w with
  | mk windows s l h u e ho r c =>
    simp only [World.setWindow, World.mk.injEq, and_true]
    funext q
    by_cases hq : q = p <;> simp [hq]

/-! ## What an engine callback can and cannot change -/

/-- Relation between the fields of one window before and after engine callbacks ran:
identity, registered callbacks, task queue and size are untouched, and the event queue
only grows at the tail, by events that are not `Shutdown` events. -/
structure WinFrame (a b : ServoUnityWindow) : Prop where
  uid : b.m_uid = a.m_uid
  uidExt : b.m_uidExt = a.m_uidExt
  createdCb : b.m_windowCreatedCallback = a.m_windowCreatedCallback
  resizedCb : b.m_windowResizedCallback = a.m_windowResizedCallback
  eventCb : b.m_browserEventCallback = a.m_browserEventCallback
  tasks : b.m_servoTasks = a.m_servoTasks
  size : b.size = a.size
  events : ∃ extra, b.m_browserEventCallbackTasks = a.m_browserEventCallbackTasks ++ extra ∧
    ∀ e ∈ extra, e.eventType ≠ ServoUnityBrowserEvent_Shutdown

theorem WinFrame.wf_refl (a : ServoUnityWindow) : WinFrame a a :=
  ⟨rfl, rfl, rfl, rfl, rfl, rfl, rfl, [], by simp, by simp⟩

theorem WinFrame.wf_trans {a b c : ServoUnityWindow} (h1 : WinFrame a b) (h2 : WinFrame b c) :
    WinFrame a c := by
  obtain ⟨x1, hx1, hn1⟩ := h1.events
  obtain ⟨x2, hx2, hn2⟩ := h2.events
  refine ⟨h2.uid.trans h1.uid, h2.uidExt.trans h1.uidExt, h2.createdCb.trans h1.createdCb,
    h2.resizedCb.trans h1.resizedCb, h2.eventCb.trans h1.eventCb, h2.tasks.trans h1.tasks,
    h2.size.trans h1.size, x1 ++ x2, ?_, ?_⟩
  · rw [hx2, hx1, List.append_assoc]
  · intro e he
    rcases List.mem_append.mp he with h | h
    · exact hn1 e h
    · exact hn2 e h

/-- Relation between the process state before and after engine callbacks ran. -/
structure EngineFrame (w w' : World) : Prop where
  s_servo : w'.s_servo = w.s_servo
  hostLog : w'.hostLog = w.hostLog
  ranTasks : w'.ranTasks = w.ranTasks
  clockReads : w'.clockReads = w.clockReads
  logLevel : w'.servoUnityLogLevel = w.servoUnityLogLevel
  homepage : w'.s_param_Homepage = w.s_param_Homepage
  searchURI : w'.s_param_SearchURI = w.s_param_SearchURI
  win : ∀ p, WinFrame (w.windows p) (w'.windows p)
  other : ∀ p, w.s_servo ≠ some p → w'.windows p = w.windows p

theorem EngineFrame.ef_refl (w : World) : EngineFrame w w :=
  ⟨rfl, rfl, rfl, rfl, rfl, rfl, rfl, fun _ => WinFrame.wf_refl _, fun _ _ => rfl⟩

theorem EngineFrame.ef_trans {a b c : World} (h1 : EngineFrame a b) (h2 : EngineFrame b c) :
    EngineFrame a c :=
  ⟨h2.s_servo.trans h1.s_servo, h2.hostLog.trans h1.hostLog, h2.ranTasks.trans h1.ranTasks,
    h2.clockReads.trans h1.clockReads, h2.logLevel.trans h1.logLevel,
    h2.homepage.trans h1.homepage, h2.searchURI.trans h1.searchURI,
    fun p => (h1.win p).wf_trans (h2.win p),
    fun p hp => (h2.other p (by rw [h1.s_servo]; exact hp)).trans (h1.other p hp)⟩

/-- Overwriting the guard holder with fields that are in `WinFrame` relation. -/
theorem EngineFrame.ofSet (w : World) (s : Nat) (x : ServoUnityWindow) (hs : w.s_servo = some s)
    (hx : WinFrame (w.windows s) x) : EngineFrame w (w.setWindow s x) := by
  refine ⟨rfl, rfl, rfl, rfl, rfl, rfl, rfl, ?_, ?_⟩
  · intro p
    by_cases hp : p = s
    · subst hp; simpa using hx
    · simpa [hp] using WinFrame.wf_refl _
  · intro p hp
    have : p ≠ s := by
      intro h; subst h; exact hp hs
    simp [this]

theorem queueEvent_frame (w : World) (s : Nat) (u t d1 d2 : Int) (hs : w.s_servo = some s)
    (ht : t ≠ ServoUnityBrowserEvent_Shutdown) :
    EngineFrame w (queueBrowserEventCallbackTask s u t d1 d2 w) := by
  unfold queueBrowserEventCallbackTask
  apply EngineFrame.ofSet w s _ hs
  refine ⟨rfl, rfl, rfl, rfl, rfl, rfl, rfl, [⟨u, t, d1, d2⟩], rfl, ?_⟩
  intro e he
  simp only [List.mem_singleton] at he
  subst he
  exact ht

theorem dispatch_frame (cb : Callback) (w : World) : EngineFrame w (dispatch cb w) := by
  cases hs : w.s_servo with
  | none =>
    have : dispatch cb w = w := by
      cases cb <;> simp [dispatch, on_load_started, on_load_ended, on_title_changed,
        on_url_changed, on_history_changed, on_animating_changed, on_shutdown_complete,
        on_ime_show, on_ime_hide, wakeup, hs]
    rw [this]; exact EngineFrame.ef_refl w
  | some s =>
    cases cb with
    | on_load_started =>
      simp only [dispatch, on_load_started, hs]
      exact queueEvent_frame w s _ _ _ _ hs (by decide)
    | on_load_ended =>
      simp only [dispatch, on_load_ended, hs]
      exact queueEvent_frame w s _ _ _ _ hs (by decide)
    | on_title_changed title =>
      simp only [dispatch, on_title_changed, hs]
      refine EngineFrame.ef_trans (EngineFrame.ofSet w s _ hs ?_) (queueEvent_frame _ s _ _ _ _ hs
        (by decide))
      exact ⟨rfl, rfl, rfl, rfl, rfl, rfl, rfl, [], by simp, by simp⟩
    | on_allow_navigation url => exact EngineFrame.ef_refl w
    | on_url_changed url =>
      simp only [dispatch, on_url_changed, hs]
      refine EngineFrame.ef_trans (EngineFrame.ofSet w s _ hs ?_) (queueEvent_frame _ s _ _ _ _ hs
        (by decide))
      exact ⟨rfl, rfl, rfl, rfl, rfl, rfl, rfl, [], by simp, by simp⟩
    | on_history_changed b f =>
      simp only [dispatch, on_history_changed, hs]
      exact queueEvent_frame w s _ _ _ _ hs (by decide)
    | on_animating_changed a =>
      simp only [dispatch, on_animating_changed, hs]
      exact EngineFrame.ofSet w s _ hs ⟨rfl, rfl, rfl, rfl, rfl, rfl, rfl, [], by simp, by simp⟩
    | on_shutdown_complete =>
      simp only [dispatch, on_shutdown_complete, hs]
      exact EngineFrame.ofSet w s _ hs ⟨rfl, rfl, rfl, rfl, rfl, rfl, rfl, [], by simp, by simp⟩
    | on_ime_show =>
      simp only [dispatch, on_ime_show, hs]
      exact queueEvent_frame w s _ _ _ _ hs (by decide)
    | on_ime_hide =>
      simp only [dispatch, on_ime_hide, hs]
      exact queueEvent_frame w s _ _ _ _ hs (by decide)
    | wakeup =>
      simp only [dispatch, wakeup, hs]
      exact EngineFrame.ofSet w s _ hs ⟨rfl, rfl, rfl, rfl, rfl, rfl, rfl, [], by simp, by simp⟩

theorem dispatchAll_frame (cbs : List Callback) (w : World) :
    EngineFrame w (dispatchAll cbs w) := by
  induction cbs generalizing w with
  | nil => exact EngineFrame.ef_refl w
  | cons cb cbs ih => exact (dispatch_frame cb w).ef_trans (ih _)

@[simp] theorem dispatchAll_engineLog (cbs : List Callback) (w : World) :
    (dispatchAll cbs w).engineLog = w.engineLog := by
  induction cbs generalizing w with
  | nil => rfl
  | cons cb cbs ih =>
    rw [dispatchAll, ih]
    cases cb <;> simp only [dispatch, on_load_started, on_load_ended, on_title_changed,
      on_url_changed, on_history_changed, on_animating_changed, on_shutdown_complete,
      on_ime_show, on_ime_hide, wakeup, queueBrowserEventCallbackTask] <;>
      cases w.s_servo <;> rfl

@[simp] theorem engineCall_engineLog (env : Env) (c : EngineCall) (w : World) :
    (engineCall env c w).engineLog = w.engineLog ++ [c] := by
  simp [engineCall]

theorem engineCall_frame (env : Env) (c : EngineCall) (w : World) :
    EngineFrame w (engineCall env c w) := by
  unfold engineCall
  refine EngineFrame.ef_trans ?_ (dispatchAll_frame _ _)
  exact ⟨rfl, rfl, rfl, rfl, rfl, rfl, rfl, fun _ => WinFrame.wf_refl _, fun _ _ => rfl⟩

/-! ## Which callbacks write which fields -/

theorem dispatch_updateFlags (cb : Callback) (w : World) (h : cb.writesUpdateFlags = false)
    (p : Nat) :
    ((dispatch cb w).windows p).m_updateOnce = (w.windows p).m_updateOnce ∧
    ((dispatch cb w).windows p).m_updateContinuously = (w.windows p).m_updateContinuously := by
  cases hs : w.s_servo with
  | none =>
    cases cb <;> simp [dispatch, on_load_started, on_load_ended, on_title_changed,
      on_url_changed, on_history_changed, on_animating_changed, on_shutdown_complete,
      on_ime_show, on_ime_hide, wakeup, hs]
  | some s =>
    cases cb <;> simp [Callback.writesUpdateFlags] at h <;>
      simp only [dispatch, on_load_started, on_load_ended, on_title_changed,
        on_url_changed, on_history_changed, on_shutdown_complete,
        on_ime_show, on_ime_hide, queueBrowserEventCallbackTask, hs, setWindow_apply] <;>
      (by_cases hp : p = s <;> simp [hp])

theorem dispatchAll_updateFlags (cbs : List Callback) (w : World)
    (h : ∀ cb ∈ cbs, cb.writesUpdateFlags = false) (p : Nat) :
    ((dispatchAll cbs w).windows p).m_updateOnce = (w.windows p).m_updateOnce ∧
    ((dispatchAll cbs w).windows p).m_updateContinuously =
      (w.windows p).m_updateContinuously := by
  induction cbs generalizing w with
  | nil => exact ⟨rfl, rfl⟩
  | cons cb cbs ih =>
    have h1 := dispatch_updateFlags cb w (h cb (List.mem_cons_self _ _)) p
    have h2 := ih (dispatch cb w) (fun c hc => h c (List.mem_cons_of_mem _ hc))
    exact ⟨h2.1.trans h1.1, h2.2.trans h1.2⟩

theorem dispatch_events (cb : Callback) (w : World) (h : cb.pushesEvent = false) (p : Nat) :
    ((dispatch cb w).windows p).m_browserEventCallbackTasks =
      (w.windows p).m_browserEventCallbackTasks := by
  cases hs : w.s_servo with
  | none =>
    cases cb <;> simp [dispatch, on_load_started, on_load_ended, on_title_changed,
      on_url_changed, on_history_changed, on_animating_changed, on_shutdown_complete,
      on_ime_show, on_ime_hide, wakeup, hs]
  | some s =>
    cases cb <;> simp [Callback.pushesEvent] at h <;>
      simp only [dispatch, on_animating_changed, on_shutdown_complete, wakeup, hs,
        setWindow_apply] <;>
      (by_cases hp : p = s <;> simp [hp])

theorem dispatchAll_events (cbs : List Callback) (w : World)
    (h : ∀ cb ∈ cbs, cb.pushesEvent = false) (p : Nat) :
    ((dispatchAll cbs w).windows p).m_browserEventCallbackTasks =
      (w.windows p).m_browserEventCallbackTasks := by
  induction cbs generalizing w with
  | nil => rfl
  | cons cb cbs ih =>
    have h1 := dispatch_events cb w (h cb (List.mem_cons_self _ _)) p
    have h2 := ih (dispatch cb w) (fun c hc => h c (List.mem_cons_of_mem _ hc))
    exact h2.trans h1

/-- The shutdown flag of window `p` after a callback: it is cleared exactly by
`on_shutdown_complete` while `p` holds the guard; nothing sets it. -/
theorem dispatch_waiting (cb : Callback) (w : World) (p : Nat) :
    ((dispatch cb w).windows p).m_waitingForShutdown =
      ((w.windows p).m_waitingForShutdown &&
        !(decide (w.s_servo = some p) && decide (cb = Callback.on_shutdown_complete))) := by
  cases hs : w.s_servo with
  | none =>
    cases cb <;> simp [dispatch, on_load_started, on_load_ended, on_title_changed,
      on_url_changed, on_history_changed, on_animating_changed, on_shutdown_complete,
      on_ime_show, on_ime_hide, wakeup, hs]
  | some s =>
    cases cb <;>
      simp only [dispatch, on_load_started, on_load_ended, on_title_changed,
        on_url_changed, on_history_changed, on_animating_changed, on_shutdown_complete,
        on_ime_show, on_ime_hide, wakeup, queueBrowserEventCallbackTask, hs,
        setWindow_apply] <;>
      (by_cases hp : p = s <;> simp [hp, eq_comm])

theorem dispatchAll_waiting (cbs : List Callback) (w : World) (p : Nat) :
    ((dispatchAll cbs w).windows p).m_waitingForShutdown =
      ((w.windows p).m_waitingForShutdown &&
        !(decide (w.s_servo = some p) && decide (Callback.on_shutdown_complete ∈ cbs))) := by
  induction cbs generalizing w with
  | nil => simp [dispatchAll]
  | cons cb cbs ih =>
    rw [dispatchAll, ih, dispatch_waiting, (dispatch_frame cb w).s_servo]
    by_cases h1 : w.s_servo = some p <;> by_cases h2 : cb = Callback.on_shutdown_complete <;>
      by_cases h3 : Callback.on_shutdown_complete ∈ cbs <;>
      simp [h1, h2, h3, eq_comm]

theorem engineCall_waiting (env : Env) (c : EngineCall) (w : World) (p : Nat) :
    ((engineCall env c w).windows p).m_waitingForShutdown =
      ((w.windows p).m_waitingForShutdown &&
        !(decide (w.s_servo = some p) &&
          decide (Callback.on_shutdown_complete ∈ env.react (w.engineLog ++ [c])))) := by
  unfold engineCall
  rw [dispatchAll_waiting]

theorem engineCall_updateFlags (env : Env) (c : EngineCall) (w : World)
    (h : ∀ cb ∈ env.react (w.engineLog ++ [c]), cb.writesUpdateFlags = false) (p : Nat) :
    ((engineCall env c w).windows p).m_updateOnce = (w.windows p).m_updateOnce ∧
    ((engineCall env c w).windows p).m_updateContinuously =
      (w.windows p).m_updateContinuously := by
  unfold engineCall
  exact dispatchAll_updateFlags _ _ h p

theorem engineCall_events (env : Env) (c : EngineCall) (w : World)
    (h : ∀ cb ∈ env.react (w.engineLog ++ [c]), cb.pushesEvent = false) (p : Nat) :
    ((engineCall env c w).windows p).m_browserEventCallbackTasks =
      (w.windows p).m_browserEventCallbackTasks := by
  unfold engineCall
  exact dispatchAll_events _ _ h p

/-! ## Running one task -/

theorem enqueueAll_s_servo (this : Nat) (ts : List ServoTask) (w : World) :
    (enqueueAll this ts w).s_servo = w.s_servo ∧
    (enqueueAll this ts w).engineLog = w.engineLog ∧
    (enqueueAll this ts w).ranTasks = w.ranTasks ∧
    (enqueueAll this ts w).hostLog = w.hostLog ∧
    (enqueueAll this ts w).clockReads = w.clockReads := by
  induction ts generalizing w with
  | nil => simp [enqueueAll]
  | cons t ts ih =>
    rw [enqueueAll]
    have := ih (runOnServoThread this t w)
    simpa [runOnServoThread] using this

theorem enqueueAll_windows (this : Nat) (ts : List ServoTask) (w : World) (p : Nat) :
    (enqueueAll this ts w).windows p =
      if p = this then
        { w.windows this with m_servoTasks := (w.windows this).m_servoTasks ++ ts }
      else w.windows p := by
  induction ts generalizing w with
  | nil => by_cases hp : p = this <;> simp [enqueueAll, hp]
  | cons t ts ih =>
    rw [enqueueAll, ih]
    by_cases hp : p = this <;> simp [hp, runOnServoThread]

theorem enqueueAll_tasks (this : Nat) (ts : List ServoTask) (w : World) :
    ((enqueueAll this ts w).windows this).m_servoTasks = (w.windows this).m_servoTasks ++ ts := by
  simp [enqueueAll_windows]

/-- What calling a task amounts to: at most one engine call that is not a lifecycle
call, or nothing, or (for a closure) a run of `runOnServoThread`. -/
theorem runTask_cases (env : Env) (this : Nat) (t : ServoTask) (w : World) :
    (∃ c, c.isLifecycle = false ∧ t.enqueues env = [] ∧
        runTask env this t w = engineCall env c (markRan this t w)) ∨
    (t.enqueues env = [] ∧ runTask env this t w = markRan this t w) ∨
    (∃ id, t = ServoTask.closure id ∧
        runTask env this t w = enqueueAll this (env.spawns id) (markRan this t w)) := by
  cases t with
  | mouse_move x y => exact Or.inl ⟨.mouse_move x y, rfl, rfl, rfl⟩
  | mouse_down x y b => exact Or.inl ⟨.mouse_down x y (getServoButton b), rfl, rfl, rfl⟩
  | mouse_up x y b => exact Or.inl ⟨.mouse_up x y (getServoButton b), rfl, rfl, rfl⟩
  | click x y => exact Or.inl ⟨.click x y, rfl, rfl, rfl⟩
  | scroll a b x y => exact Or.inl ⟨.scroll a b x y, rfl, rfl, rfl⟩
  | key_down kc kt => exact Or.inl ⟨.key_down kc kt, rfl, rfl, rfl⟩
  | key_up kc kt => exact Or.inl ⟨.key_up kc kt, rfl, rfl, rfl⟩
  | refresh => exact Or.inl ⟨.refresh, rfl, rfl, rfl⟩
  | reload => exact Or.inl ⟨.reload, rfl, rfl, rfl⟩
  | stop => exact Or.inl ⟨.stop, rfl, rfl, rfl⟩
  | go_back => exact Or.inl ⟨.go_back, rfl, rfl, rfl⟩
  | go_forward => exact Or.inl ⟨.go_forward, rfl, rfl, rfl⟩
  | goHome =>
    by_cases h : env.is_uri_valid w.s_param_Homepage = true
    · exact Or.inl ⟨.load_uri w.s_param_Homepage, rfl, rfl, by
        simp [runTask, goHomeTask, markRan, h]⟩
    · exact Or.inr (Or.inl ⟨rfl, by simp [runTask, goHomeTask, markRan, h]⟩)
  | navigate s =>
    by_cases h : env.is_uri_valid s = true
    · exact Or.inl ⟨.load_uri s, rfl, rfl, by simp [runTask, navigateTask, markRan, h]⟩
    · by_cases h2 : env.is_uri_valid (navigateCandidate env w.s_param_SearchURI s) = true
      · exact Or.inl ⟨.load_uri (navigateCandidate env w.s_param_SearchURI s), rfl, rfl, by
          simp [runTask, navigateTask, markRan, h, h2]⟩
      · exact Or.inr (Or.inl ⟨rfl, by simp [runTask, navigateTask, markRan, h, h2]⟩)
  | closure id => exact Or.inr (Or.inr ⟨id, rfl, rfl⟩)

/-- Effect of calling one task on everything but the flags, title, URL and event
queues: the guard, the host trace and the clock are untouched, the task is recorded,
the engine log grows by calls that are not lifecycle calls, and the task queue of
each window grows exactly by what the task enqueues on its own window. -/
structure TaskFrame (env : Env) (this : Nat) (t : ServoTask) (w w' : World) : Prop where
  s_servo : w'.s_servo = w.s_servo
  hostLog : w'.hostLog = w.hostLog
  clockReads : w'.clockReads = w.clockReads
  ranTasks : w'.ranTasks = w.ranTasks ++ [(this, t)]
  engineLog : ∃ calls, w'.engineLog = w.engineLog ++ calls ∧
    ∀ c ∈ calls, EngineCall.isLifecycle c = false
  tasksThis : (w'.windows this).m_servoTasks = (w.windows this).m_servoTasks ++ t.enqueues env
  tasksOther : ∀ p, p ≠ this → (w'.windows p).m_servoTasks = (w.windows p).m_servoTasks
  eventCb : ∀ p, (w'.windows p).m_browserEventCallback = (w.windows p).m_browserEventCallback
  uidExt : ∀ p, (w'.windows p).m_uidExt = (w.windows p).m_uidExt

theorem runTask_frame (env : Env) (this : Nat) (t : ServoTask) (w : World) :
    TaskFrame env this t w (runTask env this t w) := by
  rcases runTask_cases env this t w with ⟨c, hc, hq, h⟩ | ⟨hq, h⟩ | ⟨id, ht, h⟩
  · rw [h]
    have hf := engineCall_frame env c (markRan this t w)
    refine ⟨hf.s_servo, hf.hostLog, hf.clockReads, hf.ranTasks, ⟨[c], by simp [markRan], ?_⟩,
      ?_, ?_, ?_, ?_⟩
    · intro c' hc'
      simp only [List.mem_singleton] at hc'
      rw [hc']; exact hc
    · rw [hq, List.append_nil]; exact (hf.win this).tasks
    · intro p _; exact (hf.win p).tasks
    · intro p; exact (hf.win p).eventCb
    · intro p; exact (hf.win p).uidExt
  · rw [h]
    refine ⟨rfl, rfl, rfl, rfl, ⟨[], by simp [markRan], by simp⟩, ?_, ?_, ?_, ?_⟩
    · rw [hq, List.append_nil]; rfl
    · intro p _; rfl
    · intro p; rfl
    · intro p; rfl
  · rw [h]
    have h1 := enqueueAll_s_servo this (env.spawns id) (markRan this t w)
    refine ⟨h1.1, h1.2.2.2.1, h1.2.2.2.2, h1.2.2.1, ⟨[], by rw [h1.2.1, List.append_nil]; rfl, by simp⟩,
      ?_, ?_, ?_, ?_⟩
    · rw [enqueueAll_tasks, ht]; rfl
    · intro p hp; rw [enqueueAll_windows]; simp [hp, markRan]
    · intro p; rw [enqueueAll_windows]; by_cases hp : p = this <;> simp [hp, markRan]
    · intro p; rw [enqueueAll_windows]; by_cases hp : p = this <;> simp [hp, markRan]

/-! ## The first two blocks of `requestUpdate` -/

/-- What the boot and pump blocks of `requestUpdate` leave alone: traces of tasks and
host calls, the clock, and per window the task queue, identity, event callback, size. -/
structure QueueFrame (w w' : World) : Prop where
  hostLog : w'.hostLog = w.hostLog
  ranTasks : w'.ranTasks = w.ranTasks
  clockReads : w'.clockReads = w.clockReads
  tasks : ∀ p, (w'.windows p).m_servoTasks = (w.windows p).m_servoTasks
  uidExt : ∀ p, (w'.windows p).m_uidExt = (w.windows p).m_uidExt
  eventCb : ∀ p, (w'.windows p).m_browserEventCallback = (w.windows p).m_browserEventCallback
  size : ∀ p, (w'.windows p).size = (w.windows p).size

theorem QueueFrame.qf_refl (w : World) : QueueFrame w w :=
  ⟨rfl, rfl, rfl, fun _ => rfl, fun _ => rfl, fun _ => rfl, fun _ => rfl⟩

theorem QueueFrame.qf_trans {a b c : World} (h1 : QueueFrame a b) (h2 : QueueFrame b c) :
    QueueFrame a c :=
  ⟨h2.hostLog.trans h1.hostLog, h2.ranTasks.trans h1.ranTasks,
    h2.clockReads.trans h1.clockReads, fun p => (h2.tasks p).trans (h1.tasks p),
    fun p => (h2.uidExt p).trans (h1.uidExt p), fun p => (h2.eventCb p).trans (h1.eventCb p),
    fun p => (h2.size p).trans (h1.size p)⟩

theorem EngineFrame.toQueueFrame {w w' : World} (h : EngineFrame w w') : QueueFrame w w' :=
  ⟨h.hostLog, h.ranTasks, h.clockReads, fun p => (h.win p).tasks, fun p => (h.win p).uidExt,
    fun p => (h.win p).eventCb, fun p => (h.win p).size⟩

theorem bootIfNeeded_queueFrame (env : Env) (this : Nat) (w : World) :
    QueueFrame w (bootIfNeeded env this w) := by
  unfold bootIfNeeded
  cases hs : w.s_servo with
  | some s => exact QueueFrame.qf_refl w
  | none =>
    refine QueueFrame.qf_trans ?_ (engineCall_frame env _ _).toQueueFrame
    exact ⟨rfl, rfl, rfl, fun _ => rfl, fun _ => rfl, fun _ => rfl, fun _ => rfl⟩

theorem pumpIfRequested_queueFrame (env : Env) (this : Nat) (w : World) :
    QueueFrame w (pumpIfRequested env this w) := by
  unfold pumpIfRequested
  simp only
  split
  · refine QueueFrame.qf_trans ?_ (engineCall_frame env _ _).toQueueFrame
    refine ⟨rfl, rfl, rfl, ?_, ?_, ?_, ?_⟩ <;>
      (intro p; by_cases hp : p = this <;> simp [hp])
  · exact QueueFrame.qf_refl w

theorem bootIfNeeded_s_servo (env : Env) (this : Nat) (w : World) :
    (bootIfNeeded env this w).s_servo = some (w.s_servo.getD this) := by
  unfold bootIfNeeded
  cases hs : w.s_servo with
  | some s => simp [hs]
  | none => simp [(engineCall_frame env _ _).s_servo]

theorem pumpIfRequested_s_servo (env : Env) (this : Nat) (w : World) :
    (pumpIfRequested env this w).s_servo = w.s_servo := by
  unfold pumpIfRequested
  simp only
  split
  · simp [(engineCall_frame env _ _).s_servo]
  · rfl

/-! ## The drain loop -/

/-- Draining a queue of tasks none of which enqueues: with more fuel than queued
tasks the loop returns, having called exactly the queued tasks in queue order. -/
theorem drainTasks_fifo (env : Env) (this : Nat) (ts : List ServoTask) :
    ∀ (w : World) (fuel : Nat), (w.windows this).m_servoTasks = ts →
      (∀ t ∈ ts, t.enqueues env = []) → ts.length < fuel →
      ∃ w', drainTasks env fuel this w = some w' ∧
        w'.ranTasks = w.ranTasks ++ ts.map (fun t => (this, t)) ∧
        (w'.windows this).m_servoTasks = [] ∧
        w'.s_servo = w.s_servo ∧ w'.hostLog = w.hostLog ∧
        (∀ p, p ≠ this → (w'.windows p).m_servoTasks = (w.windows p).m_servoTasks) := by
  induction ts with
  | nil =>
    intro w fuel hq _ hf
    obtain ⟨f, rfl⟩ : ∃ f, fuel = f + 1 := ⟨fuel - 1, by simp at hf; omega⟩
    exact ⟨w, by simp [drainTasks, hq], by simp, hq, rfl, rfl, fun _ _ => rfl⟩
  | cons t ts ih =>
    intro w fuel hq hne hf
    obtain ⟨f, rfl⟩ : ∃ f, fuel = f + 1 := ⟨fuel - 1, by simp at hf; omega⟩
    have hfr := runTask_frame env this t
      (w.setWindow this { w.windows this with m_servoTasks := ts })
    have hq' : ((runTask env this t
        (w.setWindow this { w.windows this with m_servoTasks := ts })).windows this).m_servoTasks
        = ts := by
      rw [hfr.tasksThis, hne t (List.mem_cons_self _ _)]; simp
    obtain ⟨w', hw', hran, hempty, hs, hh, hother⟩ := ih _ f hq'
      (fun t' ht' => hne t' (List.mem_cons_of_mem _ ht')) (by simp at hf; omega)
    refine ⟨w', ?_, ?_, hempty, ?_, ?_, ?_⟩
    · simp only [drainTasks, hq]; exact hw'
    · rw [hran, hfr.ranTasks]; simp
    · rw [hs, hfr.s_servo]; rfl
    · rw [hh, hfr.hostLog]; rfl
    · intro p hp
      rw [hother p hp, hfr.tasksOther p hp]; simp [hp]

/-! ## The event queue -/

theorem pushAll_windows (this : Nat) (es : List BROWSEREVENTCALLBACKTASK) (w : World) (p : Nat) :
    (pushAll this es w).windows p =
      if p = this then
        { w.windows this with
          m_browserEventCallbackTasks := (w.windows this).m_browserEventCallbackTasks ++ es }
      else w.windows p := by
  induction es generalizing w with
  | nil => by_cases hp : p = this <;> simp [pushAll, hp]
  | cons e es ih =>
    rw [pushAll, ih]
    by_cases hp : p = this <;> simp [hp, queueBrowserEventCallbackTask]

theorem pushAll_hostLog (this : Nat) (es : List BROWSEREVENTCALLBACKTASK) (w : World) :
    (pushAll this es w).hostLog = w.hostLog := by
  induction es generalizing w with
  | nil => rfl
  | cons e es ih => rw [pushAll, ih]; rfl

theorem servicePass_registered (this fn : Nat) (e : BROWSEREVENTCALLBACKTASK)
    (es : List BROWSEREVENTCALLBACKTASK) (w : World)
    (hcb : (w.windows this).m_browserEventCallback = some fn) :
    (servicePass this e es w).hostLog = w.hostLog ++ [deliver fn e] ∧
    ((servicePass this e es w).windows this).m_browserEventCallbackTasks = es ∧
    ((servicePass this e es w).windows this).m_browserEventCallback = some fn := by
  unfold servicePass
  simp only [setWindow_same, hcb]
  exact ⟨rfl, by simp, by simp [hcb]⟩

/-- The servicing loop with a registered callback `fn`: every queued event is handed
to `fn` once, in queue order, and the queue is left empty. -/
theorem serviceLoop_registered (this fn : Nat) (es : List BROWSEREVENTCALLBACKTASK) :
    ∀ w : World, (w.windows this).m_browserEventCallback = some fn →
      (w.windows this).m_browserEventCallbackTasks = es →
      (serviceLoop this es w).hostLog = w.hostLog ++ es.map (deliver fn) ∧
      ((serviceLoop this es w).windows this).m_browserEventCallbackTasks = [] ∧
      ((serviceLoop this es w).windows this).m_browserEventCallback = some fn := by
  induction es with
  | nil => intro w hcb hq; exact ⟨by simp [serviceLoop], hq, hcb⟩
  | cons e es ih =>
    intro w hcb hq
    obtain ⟨p1, p2, p3⟩ := servicePass_registered this fn e es w hcb
    obtain ⟨h1, h2, h3⟩ := ih (servicePass this e es w) p3 p2
    refine ⟨?_, h2, h3⟩
    rw [serviceLoop, h1, p1]
    simp

/-! ## The shutdown wait -/

theorem firedShutdownComplete_append (env : Env) (log a b : List EngineCall) :
    firedShutdownComplete env log (a ++ b) =
      (firedShutdownComplete env log a || firedShutdownComplete env (log ++ a) b) := by
  induction a generalizing log with
  | nil => simp [firedShutdownComplete]
  | cons c cs ih =>
    have e : log ++ c :: cs = (log ++ [c]) ++ cs := by simp
    show (_ || firedShutdownComplete env (log ++ [c]) (cs ++ b)) = _
    rw [ih, e]
    simp [firedShutdownComplete, Bool.or_assoc]

theorem bool_and_not_merge (f a x y : Bool) :
    ((f && !(a && x)) && !(a && y)) = (f && !(a && (x || y))) := by
  cases f <;> cases a <;> cases x <;> cases y <;> rfl

/-- The polling loop. If reading number `clockReads + k` of the clock is more than
2000 ms after `timeStart`, then with more than `k` units of fuel the loop returns
after at most `k` pumps; each pump follows a reading of at most 2000 ms; the engine
log grows by the pumps only; apart from the clock count the state changes as engine
callbacks may change it. -/
theorem shutdownWait_spec (env : Env) (this : Nat) (timeStart : Int) :
    ∀ (k : Nat) (w : World), 2000 < env.clock (w.clockReads + k) - timeStart →
      ∀ fuel, k < fuel →
      ∃ w' pumps, shutdownWait env this timeStart fuel w = some w' ∧ pumps ≤ k ∧
        w'.engineLog = w.engineLog ++ List.replicate pumps EngineCall.perform_updates ∧
        EngineFrame { w with clockReads := w'.clockReads } w' ∧
        w'.clockReads ≤ w.clockReads + pumps + 1 ∧
        (∀ i, i < pumps → env.clock (w.clockReads + i) - timeStart ≤ 2000) ∧
        (∀ p, (w'.windows p).m_waitingForShutdown =
          ((w.windows p).m_waitingForShutdown &&
            !(decide (w.s_servo = some p) &&
              firedShutdownComplete env w.engineLog
                (List.replicate pumps EngineCall.perform_updates)))) ∧
        ((∀ calls, ∀ cb ∈ env.react (w.engineLog ++ calls), Callback.pushesEvent cb = false) →
          ∀ p, (w'.windows p).m_browserEventCallbackTasks =
            (w.windows p).m_browserEventCallbackTasks) := by
  intro k
  induction k with
  | zero =>
    intro w hk fuel hf
    obtain ⟨f, rfl⟩ : ∃ f, fuel = f + 1 := ⟨fuel - 1, by omega⟩
    by_cases hflag : (w.windows this).m_waitingForShutdown = true
    · refine ⟨afterReading w, 0, ?_, le_refl _, by simp [afterReading], ?_, ?_, ?_, ?_, ?_⟩
      · have : 2000 < env.clock w.clockReads - timeStart := by simpa using hk
        simp [shutdownWait, hflag, millisecondsElapsedSince, this, afterReading]
      · exact EngineFrame.ef_refl _
      · simp [afterReading]
      · intro i hi; omega
      · intro p; simp [afterReading, firedShutdownComplete]
      · intro _ p; rfl
    · refine ⟨w, 0, ?_, le_refl _, by simp, EngineFrame.ef_refl _, by omega, ?_, ?_, ?_⟩
      · simp [shutdownWait, hflag]
      · intro i hi; omega
      · intro p; simp [firedShutdownComplete]
      · intro _ p; rfl
  | succ k ih =>
    intro w hk fuel hf
    obtain ⟨f, rfl⟩ : ∃ f, fuel = f + 1 := ⟨fuel - 1, by omega⟩
    by_cases hflag : (w.windows this).m_waitingForShutdown = true
    · by_cases hto : 2000 < env.clock w.clockReads - timeStart
      · refine ⟨afterReading w, 0, ?_, Nat.zero_le _, by simp [afterReading], ?_, ?_, ?_, ?_, ?_⟩
        · simp [shutdownWait, hflag, millisecondsElapsedSince, hto, afterReading]
        · exact EngineFrame.ef_refl _
        · simp [afterReading]
        · intro i hi; omega
        · intro p; simp [afterReading, firedShutdownComplete]
        · intro _ p; rfl
      · have hfr := engineCall_frame env EngineCall.perform_updates (afterReading w)
        have hk' : 2000 < env.clock
            ((engineCall env EngineCall.perform_updates (afterReading w)).clockReads + k)
            - timeStart := by
          rw [hfr.clockReads]
          have : (afterReading w).clockReads + k = w.clockReads + (k + 1) := by
            simp [afterReading]; omega
          rw [this]; exact hk
        obtain ⟨w', n, hw', hn, hlog, hframe, hclk, hpump, hwait, hev⟩ :=
          ih (engineCall env EngineCall.perform_updates (afterReading w)) hk' f (by omega)
        refine ⟨w', n + 1, ?_, by omega, ?_, ?_, ?_, ?_, ?_, ?_⟩
        · simp only [shutdownWait, hflag, millisecondsElapsedSince, if_true]
          rw [if_neg (by simpa using hto)]
          exact hw'
        · rw [hlog, engineCall_engineLog, List.replicate_succ]
          simp [afterReading]
        · refine EngineFrame.ef_trans ?_ hframe
          have h2 : EngineFrame { w with clockReads := w'.clockReads }
              { afterReading w with clockReads := w'.clockReads } :=
            ⟨rfl, rfl, rfl, rfl, rfl, rfl, rfl, fun _ => WinFrame.wf_refl _, fun _ _ => rfl⟩
          refine EngineFrame.ef_trans h2 ?_
          exact ⟨hfr.s_servo, hfr.hostLog, hfr.ranTasks, rfl, hfr.logLevel, hfr.homepage,
            hfr.searchURI, hfr.win, hfr.other⟩
        · rw [hfr.clockReads] at hclk
          simp only [afterReading] at hclk
          omega
        · intro i hi
          cases i with
          | zero => simpa using not_lt.mp hto
          | succ j =>
            have := hpump j (by omega)
            rw [hfr.clockReads] at this
            have e : (afterReading w).clockReads + j = w.clockReads + (j + 1) := by
              simp [afterReading]; omega
            rw [e] at this; exact this
        · intro p
          rw [hwait p, engineCall_waiting, hfr.s_servo, engineCall_engineLog,
            List.replicate_succ, firedShutdownComplete]
          simp only [afterReading]
          exact bool_and_not_merge _ _ _ _
        · intro hq p
          rw [hev ?_ p, engineCall_events env _ _ ?_ p]
          · rfl
          · intro cb hcb; exact hq [EngineCall.perform_updates] cb hcb
          · intro calls cb hcb
            rw [engineCall_engineLog, List.append_assoc] at hcb
            exact hq _ cb hcb
    · refine ⟨w, 0, ?_, Nat.zero_le _, by simp, EngineFrame.ef_refl _, by omega, ?_, ?_, ?_⟩
      · simp [shutdownWait, hflag]
      · intro i hi; omega
      · intro p; simp [firedShutdownComplete]
      · intro _ p; rfl

/-! ## `cleanupRenderer` as a whole -/

theorem cleanupRenderer_eq (env : Env) (fuel this : Nat) (w : World) (s : Nat)
    (hs : w.s_servo = some s) :
    cleanupRenderer env fuel this w =
      (shutdownWait env this (env.clock w.clockReads) fuel (beginShutdown env this w)).map
        (finishShutdown env this) := by
  simp only [cleanupRenderer, hs]
  have e1 : (getTimeNow env ((w.setWindow this { w.windows this with m_servoTasks := [] }).setWindow
      this { (w.setWindow this { w.windows this with m_servoTasks := [] }).windows this with
        m_waitingForShutdown := true })).1 = env.clock w.clockReads := rfl
  rw [e1]
  show (match shutdownWait env this (env.clock w.clockReads) fuel (beginShutdown env this w) with
    | none => none
    | some w4 => some (finishShutdown env this w4)) = _
  cases shutdownWait env this (env.clock w.clockReads) fuel (beginShutdown env this w) <;> rfl

theorem EngineFrame.setClock {a b : World} (h : EngineFrame a b) (c : Nat) :
    EngineFrame { a with clockReads := c } { b with clockReads := c } :=
  ⟨h.s_servo, h.hostLog, h.ranTasks, rfl, h.logLevel, h.homepage, h.searchURI, h.win, h.other⟩

/-- Everything `cleanupRenderer` guarantees about the state `w'` it returns from a
state `w` with the guard set, after `pumps` passes of the polling loop. -/
structure CleanupOutcome (env : Env) (this : Nat) (w w' : World) (pumps : Nat) : Prop where
  s_servo : w'.s_servo = none
  engineLog : w'.engineLog = w.engineLog ++ shutdownCalls pumps
  ranTasks : w'.ranTasks = w.ranTasks
  hostLog : w'.hostLog = w.hostLog
  tasksThis : (w'.windows this).m_servoTasks = []
  tasksOther : ∀ p, p ≠ this → (w'.windows p).m_servoTasks = (w.windows p).m_servoTasks
  eventCb : ∀ p, (w'.windows p).m_browserEventCallback = (w.windows p).m_browserEventCallback
  uidExt : ∀ p, (w'.windows p).m_uidExt = (w.windows p).m_uidExt
  readings : ∀ i, i < pumps → env.clock (w.clockReads + 1 + i) - env.clock w.clockReads ≤ 2000
  waiting : (w'.windows this).m_waitingForShutdown =
    !(decide (w.s_servo = some this) &&
      firedShutdownComplete env w.engineLog (shutdownCalls pumps))
  eventsThis : ∃ extra, (w'.windows this).m_browserEventCallbackTasks =
      (w.windows this).m_browserEventCallbackTasks ++ extra ++
        [⟨(w.windows this).m_uidExt, ServoUnityBrowserEvent_Shutdown, 0, 0⟩] ∧
    ∀ e ∈ extra, e.eventType ≠ ServoUnityBrowserEvent_Shutdown
  eventsOther : ∀ p, p ≠ this → ∃ extra, (w'.windows p).m_browserEventCallbackTasks =
      (w.windows p).m_browserEventCallbackTasks ++ extra ∧
    ∀ e ∈ extra, e.eventType ≠ ServoUnityBrowserEvent_Shutdown
  eventsQuiet :
    (∀ calls, ∀ cb ∈ env.react (w.engineLog ++ calls), Callback.pushesEvent cb = false) →
      (w'.windows this).m_browserEventCallbackTasks =
        (w.windows this).m_browserEventCallbackTasks ++
          [⟨(w.windows this).m_uidExt, ServoUnityBrowserEvent_Shutdown, 0, 0⟩]

theorem beginShutdown_eq (env : Env) (this : Nat) (w : World) :
    beginShutdown env this w = engineCall env EngineCall.request_shutdown (armed this w) := by
  simp [beginShutdown, armed, getTimeNow, afterReading]

theorem armed_windows (this : Nat) (w : World) (p : Nat) :
    (armed this w).windows p =
      if p = this then
        { w.windows this with m_servoTasks := [], m_waitingForShutdown := true }
      else w.windows p := by
  by_cases hp : p = this <;> simp [armed, afterReading, hp]

theorem finishShutdown_windows (env : Env) (this : Nat) (w4 : World) (p : Nat) :
    (finishShutdown env this w4).windows p =
      if p = this then
        { (engineCall env EngineCall.deinit w4).windows this with
          m_browserEventCallbackTasks :=
            ((engineCall env EngineCall.deinit w4).windows this).m_browserEventCallbackTasks ++
              [⟨((engineCall env EngineCall.deinit w4).windows this).m_uidExt,
                ServoUnityBrowserEvent_Shutdown, 0, 0⟩] }
      else (engineCall env EngineCall.deinit w4).windows p := by
  by_cases hp : p = this <;> simp [finishShutdown, queueBrowserEventCallbackTask, hp]

theorem bool_not_merge3 (a x y z : Bool) :
    (((true && !(a && x)) && !(a && y)) && !(a && z)) = !(a && (x || (y || (z || false)))) := by
  cases a <;> cases x <;> cases y <;> cases z <;> rfl

/-- The method `cleanupRenderer` with the guard set: if reading number `clockReads + 1 + k` of
the clock is more than 2000 ms after the start reading, the call returns for every
fuel above `k`, after at most `k` pumps, in a state described by `CleanupOutcome`. -/
theorem cleanupRenderer_spec (env : Env) (this : Nat) (w : World) (k : Nat)
    (hs : w.s_servo ≠ none)
    (hk : 2000 < env.clock (w.clockReads + 1 + k) - env.clock w.clockReads)
    (fuel : Nat) (hf : k < fuel) :
    ∃ w' pumps, cleanupRenderer env fuel this w = some w' ∧ pumps ≤ k ∧
      CleanupOutcome env this w w' pumps := by
  obtain ⟨s, hs⟩ := Option.ne_none_iff_exists'.mp hs
  have hb := beginShutdown_eq env this w
  have hbf := engineCall_frame env EngineCall.request_shutdown (armed this w)
  rw [← hb] at hbf
  have hblog : (beginShutdown env this w).engineLog =
      w.engineLog ++ [EngineCall.request_shutdown] := by
    rw [hb, engineCall_engineLog]; rfl
  have hbclk : (beginShutdown env this w).clockReads = w.clockReads + 1 := hbf.clockReads
  have hbs : (beginShutdown env this w).s_servo = w.s_servo := hbf.s_servo
  obtain ⟨w4, pumps, hw4, hpk, hlog4, hfr4, -, hread, hwait4, hev4⟩ :=
    shutdownWait_spec env this (env.clock w.clockReads) k (beginShutdown env this w)
      (by rw [hbclk]; exact hk) fuel hf
  have hfr5 := engineCall_frame env EngineCall.deinit w4
  have hlog5 : (engineCall env EngineCall.deinit w4).engineLog =
      w.engineLog ++ shutdownCalls pumps := by
    rw [engineCall_engineLog, hlog4, hblog]; simp [shutdownCalls]
  -- the frame from the armed state to the state after `deinit`
  have F : EngineFrame { armed this w with clockReads := w4.clockReads }
      (engineCall env EngineCall.deinit w4) :=
    ((hbf.setClock w4.clockReads).ef_trans hfr4).ef_trans hfr5
  refine ⟨finishShutdown env this w4, pumps, ?_, hpk, ?_⟩
  · rw [cleanupRenderer_eq env fuel this w s hs, hw4]; rfl
  · refine
      { s_servo := by simp [finishShutdown, queueBrowserEventCallbackTask]
        engineLog := by
          rw [← hlog5]; simp [finishShutdown, queueBrowserEventCallbackTask]
        ranTasks := by
          have h0 := F.ranTasks
          simpa [finishShutdown, queueBrowserEventCallbackTask, armed, afterReading] using h0
        hostLog := by
          have h0 := F.hostLog
          simpa [finishShutdown, queueBrowserEventCallbackTask, armed, afterReading] using h0
        tasksThis := ?_
        tasksOther := ?_
        eventCb := ?_
        uidExt := ?_
        readings := ?_
        waiting := ?_
        eventsThis := ?_
        eventsOther := ?_
        eventsQuiet := ?_ }
    · have h0 := (F.win this).tasks
      rw [finishShutdown_windows]
      simpa [armed_windows] using h0
    · intro p hp
      have h0 := (F.win p).tasks
      rw [finishShutdown_windows]
      simpa [armed_windows, hp] using h0
    · intro p
      have h0 := (F.win p).eventCb
      rw [finishShutdown_windows]
      by_cases hp : p = this
      · subst hp; simpa [armed_windows] using h0
      · simpa [armed_windows, hp] using h0
    · intro p
      have h0 := (F.win p).uidExt
      rw [finishShutdown_windows]
      by_cases hp : p = this
      · subst hp; simpa [armed_windows] using h0
      · simpa [armed_windows, hp] using h0
    · intro i hi
      have h0 := hread i hi
      rw [hbclk] at h0
      exact h0
    · rw [finishShutdown_windows]
      simp only [if_true]
      rw [engineCall_waiting, hwait4 this, hb, engineCall_waiting, hfr4.s_servo]
      simp only [hbs, ← hb, hblog, hlog4]
      have e1 : ((armed this w).windows this).m_waitingForShutdown = true := by
        simp [armed_windows]
      have e2 : (armed this w).s_servo = w.s_servo := rfl
      have e3 : (armed this w).engineLog = w.engineLog := rfl
      rw [e1, e2, e3]
      have e4 : firedShutdownComplete env w.engineLog (shutdownCalls pumps) =
          (decide (Callback.on_shutdown_complete ∈
              env.react (w.engineLog ++ [EngineCall.request_shutdown])) ||
            (firedShutdownComplete env (w.engineLog ++ [EngineCall.request_shutdown])
                (List.replicate pumps EngineCall.perform_updates) ||
              (decide (Callback.on_shutdown_complete ∈
                env.react (w.engineLog ++ [EngineCall.request_shutdown] ++
                  List.replicate pumps EngineCall.perform_updates ++ [EngineCall.deinit])) ||
                false))) := by
        simp only [shutdownCalls, firedShutdownComplete, firedShutdownComplete_append]
      rw [e4]
      exact bool_not_merge3 _ _ _ _
    · obtain ⟨extra, hex, hne⟩ := (F.win this).events
      refine ⟨extra, ?_, hne⟩
      rw [finishShutdown_windows]
      simp only [if_true]
      rw [hex, (F.win this).uidExt]
      simp [armed_windows]
    · intro p hp
      obtain ⟨extra, hex, hne⟩ := (F.win p).events
      refine ⟨extra, ?_, hne⟩
      rw [finishShutdown_windows]
      simpa [armed_windows, hp] using hex
    · intro hq
      rw [finishShutdown_windows]
      simp only [if_true]
      rw [(F.win this).uidExt]
      have h5 := engineCall_events env EngineCall.deinit w4 (by
        intro cb hcb
        rw [hlog4, hblog, List.append_assoc, List.append_assoc] at hcb
        exact hq _ cb hcb) this
      have h4 := hev4 (by
        intro calls cb hcb
        rw [hblog, List.append_assoc] at hcb
        exact hq _ cb hcb) this
      have h3 : ((beginShutdown env this w).windows this).m_browserEventCallbackTasks =
          ((armed this w).windows this).m_browserEventCallbackTasks := by
        rw [hb]
        exact engineCall_events env _ _ (by
          intro cb hcb
          exact hq [EngineCall.request_shutdown] cb hcb) this
      rw [h5, h4, h3]
      simp [armed_windows]

/-! ## The drain loop for arbitrary tasks -/

theorem isInit_of_not_lifecycle (c : EngineCall) (h : c.isLifecycle = false) :
    c.isInit = false := by
  cases c <;> simp_all [EngineCall.isLifecycle, EngineCall.isInit]

theorem runTask_updateFlags (env : Env) (this : Nat) (t : ServoTask) (w : World)
    (hq : ∀ calls, ∀ cb ∈ env.react (w.engineLog ++ calls), Callback.writesUpdateFlags cb = false)
    (p : Nat) :
    ((runTask env this t w).windows p).m_updateOnce = (w.windows p).m_updateOnce ∧
    ((runTask env this t w).windows p).m_updateContinuously =
      (w.windows p).m_updateContinuously := by
  rcases runTask_cases env this t w with ⟨c, -, -, h⟩ | ⟨-, h⟩ | ⟨id, -, h⟩
  · rw [h]
    exact engineCall_updateFlags env c (markRan this t w) (fun cb hcb => hq [c] cb hcb) p
  · rw [h]; exact ⟨rfl, rfl⟩
  · rw [h, enqueueAll_windows]
    by_cases hp : p = this <;> simp [hp, markRan]

/-- Whatever the queued tasks are, a drain that returns has left the guard alone, has
made only engine calls that are not lifecycle calls, and has left the update flags to
the engine callbacks. -/
theorem drainTasks_inv (env : Env) (this : Nat) :
    ∀ (fuel : Nat) (w w' : World), drainTasks env fuel this w = some w' →
      w'.s_servo = w.s_servo ∧
      (∃ tail, w'.engineLog = w.engineLog ++ tail ∧
        ∀ c ∈ tail, EngineCall.isLifecycle c = false) ∧
      ((∀ calls, ∀ cb ∈ env.react (w.engineLog ++ calls),
          Callback.writesUpdateFlags cb = false) →
        ∀ p, (w'.windows p).m_updateOnce = (w.windows p).m_updateOnce ∧
          (w'.windows p).m_updateContinuously = (w.windows p).m_updateContinuously) := by
  intro fuel
  induction fuel with
  | zero => intro w w' h; simp [drainTasks] at h
  | succ f ih =>
    intro w w' h
    cases hq : (w.windows this).m_servoTasks with
    | nil =>
      simp only [drainTasks, hq, Option.some.injEq] at h
      subst h
      exact ⟨rfl, ⟨[], by simp, by simp⟩, fun _ _ => ⟨rfl, rfl⟩⟩
    | cons t rest =>
      simp only [drainTasks, hq] at h
      have hfr := runTask_frame env this t
        (w.setWindow this { w.windows this with m_servoTasks := rest })
      obtain ⟨hs, ⟨tail, htail, hnl⟩, hflags⟩ := ih _ _ h
      obtain ⟨calls, hcalls, hcl⟩ := hfr.engineLog
      refine ⟨by rw [hs, hfr.s_servo]; rfl, ⟨calls ++ tail, ?_, ?_⟩, ?_⟩
      · rw [htail, hcalls]; simp
      · intro c hc
        rcases List.mem_append.mp hc with h1 | h1
        · exact hcl c h1
        · exact hnl c h1
      · intro hquiet p
        have h1 := runTask_updateFlags env this t
          (w.setWindow this { w.windows this with m_servoTasks := rest })
          (by simpa using hquiet) p
        have h2 := hflags (by
          intro calls2 cb hcb
          rw [hcalls, List.append_assoc] at hcb
          exact hquiet _ cb (by simpa using hcb)) p
        have h3 : ((w.setWindow this { w.windows this with m_servoTasks := rest }).windows
            p).m_updateOnce = (w.windows p).m_updateOnce ∧
            ((w.setWindow this { w.windows this with m_servoTasks := rest }).windows
              p).m_updateContinuously = (w.windows p).m_updateContinuously := by
          by_cases hp : p = this <;> simp [hp]
        exact ⟨h2.1.trans (h1.1.trans h3.1), h2.2.trans (h1.2.trans h3.2)⟩

theorem bootIfNeeded_engineLog (env : Env) (this : Nat) (w : World) :
    (bootIfNeeded env this w).engineLog =
      w.engineLog ++
        (if w.s_servo = none then
          [EngineCall.initRenderer
            ⟨logLevelArgs w.servoUnityLogLevel, (w.windows this).size.w,
              (w.windows this).size.h, 1⟩]
        else []) := by
  unfold bootIfNeeded
  cases hs : w.s_servo with
  | some s => simp
  | none => simp [initOptions]

theorem pumpIfRequested_engineLog (env : Env) (this : Nat) (w : World) :
    (pumpIfRequested env this w).engineLog =
      w.engineLog ++
        (if ((w.windows this).m_updateOnce || (w.windows this).m_updateContinuously) = true
          then [EngineCall.perform_updates] else []) := by
  unfold pumpIfRequested
  simp only
  by_cases hf : ((w.windows this).m_updateOnce || (w.windows this).m_updateContinuously) = true
  · rw [if_pos hf, if_pos hf]; simp
  · rw [if_neg hf, if_neg hf]; simp

/-- Guard and engine log after a `requestUpdate` that returns: the guard is the one
found, or the calling window if none was set; the engine log grows by the boot call
(only if no guard was set) followed by calls that are not `initRenderer`. -/
theorem requestUpdate_guard_log (env : Env) (fuel this : Nat) (w w' : World)
    (h : requestUpdate env fuel this w = some w') :
    w'.s_servo = some (w.s_servo.getD this) ∧
    ∃ rest, w'.engineLog = w.engineLog ++
        (if w.s_servo = none then
          [EngineCall.initRenderer
            ⟨logLevelArgs w.servoUnityLogLevel, (w.windows this).size.w,
              (w.windows this).size.h, 1⟩]
        else []) ++ rest ∧
      ∀ c ∈ rest, EngineCall.isInit c = false := by
  obtain ⟨hs, ⟨tail, htail, hnl⟩, -⟩ := drainTasks_inv env this fuel _ w' h
  refine ⟨?_, ?_⟩
  · rw [hs, pumpIfRequested_s_servo, bootIfNeeded_s_servo]
  · refine ⟨(if (((bootIfNeeded env this w).windows this).m_updateOnce ||
        ((bootIfNeeded env this w).windows this).m_updateContinuously) = true
        then [EngineCall.perform_updates] else []) ++ tail, ?_, ?_⟩
    · rw [htail, pumpIfRequested_engineLog, bootIfNeeded_engineLog]
      simp only [List.append_assoc]
    · intro c hc
      rcases List.mem_append.mp hc with h1 | h1
      · split at h1
        · simp only [List.mem_singleton] at h1
          rw [h1]; rfl
        · simp at h1
      · exact isInit_of_not_lifecycle c (hnl c h1)

theorem countP_isInit_zero (l : List EngineCall) (h : ∀ c ∈ l, EngineCall.isInit c = false) :
    l.countP EngineCall.isInit = 0 := by
  rw [List.countP_eq_zero]
  intro c hc
  simp [h c hc]

/-- A run of `requestUpdate` calls started with the guard set never boots. -/
theorem requestUpdates_running (env : Env) :
    ∀ (calls : List (Nat × Nat)) (w w' : World), w.s_servo ≠ none →
      requestUpdates env calls w = some w' →
      w'.s_servo ≠ none ∧
      ∃ added, w'.engineLog = w.engineLog ++ added ∧ added.countP EngineCall.isInit = 0 := by
  intro calls
  induction calls with
  | nil =>
    intro w w' hs h
    simp only [requestUpdates, Option.some.injEq] at h
    subst h
    exact ⟨hs, [], by simp, rfl⟩
  | cons call rest ih =>
    intro w w' hs h
    simp only [requestUpdates] at h
    cases h1 : requestUpdate env call.1 call.2 w with
    | none => rw [h1] at h; simp at h
    | some w1 =>
      rw [h1] at h
      obtain ⟨hg, r, hr, hr0⟩ := requestUpdate_guard_log env call.1 call.2 w w1 h1
      rw [if_neg hs, List.append_nil] at hr
      obtain ⟨hg', added, hadd, hadd0⟩ := ih w1 w' (by rw [hg]; simp) h
      refine ⟨hg', r ++ added, by rw [hadd, hr, List.append_assoc], ?_⟩
      rw [List.countP_append, hadd0, countP_isInit_zero r hr0]

/-- Appending events that are not `Shutdown` events does not change the count. -/
theorem shutdownEvents_append_other (q extra : List BROWSEREVENTCALLBACKTASK)
    (h : ∀ e ∈ extra, e.eventType ≠ ServoUnityBrowserEvent_Shutdown) :
    shutdownEvents (q ++ extra) = shutdownEvents q := by
  unfold shutdownEvents
  rw [List.countP_append]
  have : List.countP (fun e => decide (e.eventType = ServoUnityBrowserEvent_Shutdown)) extra
      = 0 := by
    rw [List.countP_eq_zero]
    intro e he
    simpa using h e he
  omega

/-! ## Guard and boot count -/

theorem initCalls_append (a b : List EngineCall) :
    initCalls (a ++ b) = initCalls a + initCalls b := by
  simp [initCalls, List.countP_append]

theorem deinitCalls_append (a b : List EngineCall) :
    deinitCalls (a ++ b) = deinitCalls a + deinitCalls b := by
  simp [deinitCalls, List.count_append]

theorem initCalls_replicate_pump (n : Nat) :
    initCalls (List.replicate n EngineCall.perform_updates) = 0 := by
  unfold initCalls
  rw [List.countP_eq_zero]
  intro c hc
  rw [List.eq_of_mem_replicate hc]
  simp [EngineCall.isInit]

theorem deinitCalls_replicate_pump (n : Nat) :
    deinitCalls (List.replicate n EngineCall.perform_updates) = 0 := by
  unfold deinitCalls
  rw [List.count_eq_zero]
  intro hc
  have h := List.eq_of_mem_replicate hc
  simp at h

theorem calls_of_tasks (tail : List EngineCall)
    (h : ∀ c ∈ tail, EngineCall.isLifecycle c = false) :
    initCalls tail = 0 ∧ deinitCalls tail = 0 := by
  constructor
  · unfold initCalls
    rw [List.countP_eq_zero]
    intro c hc
    simp [isInit_of_not_lifecycle c (h c hc)]
  · unfold deinitCalls
    rw [List.count_eq_zero]
    intro hc
    have h0 := h _ hc
    simp [EngineCall.isLifecycle] at h0

/-- Guard and call counts after a `requestUpdate` that returns. -/
theorem requestUpdate_counts (env : Env) (fuel this : Nat) (w w' : World)
    (h : requestUpdate env fuel this w = some w') :
    w'.s_servo = some (w.s_servo.getD this) ∧
    initCalls w'.engineLog = initCalls w.engineLog + (if w.s_servo = none then 1 else 0) ∧
    deinitCalls w'.engineLog = deinitCalls w.engineLog := by
  obtain ⟨hs, ⟨tail, htail, hnl⟩, -⟩ := drainTasks_inv env this fuel _ w' h
  obtain ⟨ht1, ht2⟩ := calls_of_tasks tail hnl
  refine ⟨by rw [hs, pumpIfRequested_s_servo, bootIfNeeded_s_servo], ?_, ?_⟩
  · rw [htail, pumpIfRequested_engineLog, bootIfNeeded_engineLog]
    simp only [initCalls_append, ht1]
    have hp : ∀ (b : Prop) [Decidable b],
        initCalls (if b then [EngineCall.perform_updates] else []) = 0 := by
      intro b _; split <;> simp [initCalls, EngineCall.isInit]
    rw [hp]
    split <;> simp [initCalls, EngineCall.isInit]
  · rw [htail, pumpIfRequested_engineLog, bootIfNeeded_engineLog]
    simp only [deinitCalls_append, ht2]
    have hp : ∀ (b : Prop) [Decidable b],
        deinitCalls (if b then [EngineCall.perform_updates] else []) = 0 := by
      intro b _; split <;> simp [deinitCalls]
    rw [hp]
    split <;> simp [deinitCalls]

/-- The polling loop, whenever it returns, has only pumped. -/
theorem shutdownWait_safe (env : Env) (this : Nat) (timeStart : Int) :
    ∀ (fuel : Nat) (w w4 : World), shutdownWait env this timeStart fuel w = some w4 →
      w4.s_servo = w.s_servo ∧
      ∃ n, w4.engineLog = w.engineLog ++ List.replicate n EngineCall.perform_updates := by
  intro fuel
  induction fuel with
  | zero => intro w w4 h; simp [shutdownWait] at h
  | succ f ih =>
    intro w w4 h
    by_cases hflag : (w.windows this).m_waitingForShutdown = true
    · by_cases hto : 2000 < env.clock w.clockReads - timeStart
      · simp [shutdownWait, hflag, millisecondsElapsedSince, hto] at h
        subst h
        exact ⟨rfl, 0, by simp⟩
      · simp only [shutdownWait, hflag, millisecondsElapsedSince, if_true] at h
        rw [if_neg (by simpa using hto)] at h
        obtain ⟨hs, n, hn⟩ := ih _ _ h
        refine ⟨by rw [hs, (engineCall_frame env _ _).s_servo], n + 1, ?_⟩
        rw [hn, engineCall_engineLog, List.replicate_succ]
        simp
    · simp [shutdownWait, hflag] at h
      subst h
      exact ⟨rfl, 0, by simp⟩

/-- Guard and call counts after a `cleanupRenderer` that returns. -/
theorem cleanupRenderer_counts (env : Env) (fuel this : Nat) (w w' : World)
    (h : cleanupRenderer env fuel this w = some w') :
    w'.s_servo = none ∧
    initCalls w'.engineLog = initCalls w.engineLog ∧
    deinitCalls w'.engineLog = deinitCalls w.engineLog + (if w.s_servo = none then 0 else 1) := by
  cases hs : w.s_servo with
  | none =>
    simp only [cleanupRenderer, hs, Option.some.injEq] at h
    subst h
    exact ⟨hs, rfl, by simp⟩
  | some s =>
    rw [cleanupRenderer_eq env fuel this w s hs] at h
    cases h4 : shutdownWait env this (env.clock w.clockReads) fuel (beginShutdown env this w) with
    | none => rw [h4] at h; simp at h
    | some w4 =>
      rw [h4] at h
      simp only [Option.map_some', Option.some.injEq] at h
      subst h
      obtain ⟨-, n, hn⟩ := shutdownWait_safe env this _ fuel _ w4 h4
      have hb : (beginShutdown env this w).engineLog =
          w.engineLog ++ [EngineCall.request_shutdown] := by
        rw [beginShutdown_eq, engineCall_engineLog]; rfl
      have hlog : (finishShutdown env this w4).engineLog =
          w.engineLog ++ [EngineCall.request_shutdown] ++
            List.replicate n EngineCall.perform_updates ++ [EngineCall.deinit] := by
        simp [finishShutdown, queueBrowserEventCallbackTask, hn, hb]
      refine ⟨by simp [finishShutdown, queueBrowserEventCallbackTask], ?_, ?_⟩
      · rw [hlog]
        simp only [initCalls_append, initCalls_replicate_pump]
        simp [initCalls, EngineCall.isInit]
      · rw [hlog]
        simp only [deinitCalls_append, deinitCalls_replicate_pump]
        simp [deinitCalls]

theorem perform_s_servo_engineLog (this : Nat) (op : ControlOp) (w : World) :
    (op.perform this w).s_servo = w.s_servo ∧ (op.perform this w).engineLog = w.engineLog := by
  cases hs : w.s_servo with
  | none =>
    have : op.perform this w = w := by
      cases op <;> simp [ControlOp.perform, pointerEnter, pointerExit, pointerOver,
        pointerPress, pointerRelease, pointerClick, pointerScrollDiscrete, keyEvent, refresh,
        reload, stop, goBack, goForward, goHome, navigate, hs]
    rw [this]; exact ⟨hs, rfl⟩
  | some s =>
    cases op <;>
      simp only [ControlOp.perform, pointerEnter, pointerExit, pointerOver,
        pointerPress, pointerRelease, pointerClick, pointerScrollDiscrete, keyEvent, refresh,
        reload, stop, goBack, goForward, goHome, navigate, hs] <;>
      (try split) <;> (try split) <;> simp [runOnServoThread, hs]

theorem dispatch_s_servo_engineLog (cb : Callback) (w : World) :
    (dispatch cb w).s_servo = w.s_servo ∧ (dispatch cb w).engineLog = w.engineLog :=
  ⟨(dispatch_frame cb w).s_servo, dispatchAll_engineLog [cb] w⟩

/-- Every step keeps the relation between guard and call counts. -/
theorem step_keeps_guardMatchesBoots (env : Env) (op : LifecycleOp) (w w1 : World)
    (hinv : GuardMatchesBoots w) (h : op.step env w = some w1) : GuardMatchesBoots w1 := by
  cases op with
  | init this a b c =>
    simp only [LifecycleOp.step, Option.some.injEq] at h
    subst h
    exact hinv
  | requestUpdate fuel this =>
    obtain ⟨hs, hi, hd⟩ := requestUpdate_counts env fuel this w w1 h
    right
    refine ⟨by rw [hs]; simp, ?_⟩
    rcases hinv with ⟨h0, hc⟩ | ⟨h0, hc⟩
    · rw [hi, hd, if_pos h0]; omega
    · rw [hi, hd, if_neg h0]; omega
  | cleanupRenderer fuel this =>
    obtain ⟨hs, hi, hd⟩ := cleanupRenderer_counts env fuel this w w1 h
    left
    refine ⟨hs, ?_⟩
    rcases hinv with ⟨h0, hc⟩ | ⟨h0, hc⟩
    · rw [hi, hd, if_pos h0]; omega
    · rw [hi, hd, if_neg h0]; omega
  | control this op =>
    simp only [LifecycleOp.step, Option.some.injEq] at h
    subst h
    obtain ⟨h1, h2⟩ := perform_s_servo_engineLog this op w
    unfold GuardMatchesBoots
    rw [h1, h2]
    exact hinv
  | callback cb =>
    simp only [LifecycleOp.step, Option.some.injEq] at h
    subst h
    obtain ⟨h1, h2⟩ := dispatch_s_servo_engineLog cb w
    unfold GuardMatchesBoots
    rw [h1, h2]
    exact hinv

theorem runOps_keeps_guardMatchesBoots (env : Env) :
    ∀ (ops : List LifecycleOp) (w w' : World), GuardMatchesBoots w →
      runOps env ops w = some w' → GuardMatchesBoots w' := by
  intro ops
  induction ops with
  | nil =>
    intro w w' hinv h
    simp only [runOps, Option.some.injEq] at h
    subst h
    exact hinv
  | cons op ops ih =>
    intro w w' hinv h
    simp only [runOps] at h
    cases h1 : op.step env w with
    | none => rw [h1] at h; simp at h
    | some w1 =>
      rw [h1] at h
      exact ih w1 w' (step_keeps_guardMatchesBoots env op w w1 hinv h1) h

/-! ## Control operations -/

theorem runOnServoThread_tasks (this : Nat) (task : ServoTask) (w : World) :
    ((runOnServoThread this task w).windows this).m_servoTasks =
      (w.windows this).m_servoTasks ++ [task] := by
  simp [runOnServoThread]

theorem navigateTask_engineLog (env : Env) (s : String) (v : World) :
    (navigateTask env s v).engineLog =
      v.engineLog ++
        (if env.is_uri_valid s = true then [EngineCall.load_uri s]
        else if env.is_uri_valid (navigateCandidate env v.s_param_SearchURI s) = true then
          [EngineCall.load_uri (navigateCandidate env v.s_param_SearchURI s)]
        else []) := by
  unfold navigateTask
  by_cases h1 : env.is_uri_valid s = true
  · simp [h1]
  · by_cases h2 : env.is_uri_valid (navigateCandidate env v.s_param_SearchURI s) = true
    · simp [h1, h2]
    · simp [h1, h2]

theorem keySwitch_codes_are_mapped :
    ∀ line ∈ keySwitch, ¬ UnmappedKeyCode line.1 := by
  decide

theorem mapped_code_in_keySwitch (keyCode : Int) (h : ¬ UnmappedKeyCode keyCode) :
    ∃ line ∈ keySwitch, line.1 = keyCode := by
  have h0 : 0 ≤ keyCode := by
    by_contra hc
    exact h (by unfold UnmappedKeyCode; omega)
  have h1 : keyCode ≤ 73 := by
    by_contra hc
    exact h (by unfold UnmappedKeyCode; omega)
  interval_cases keyCode <;> first | decide | (exact absurd (by decide) h)

theorem keyTypeFor_unmapped (keyCode character : Int) (h : UnmappedKeyCode keyCode) :
    keyTypeFor keyCode character = none := by
  have hfind : keySwitch.find? (fun line => decide (line.1 = keyCode)) = none := by
    rw [List.find?_eq_none]
    intro line hl hp
    simp only [decide_eq_true_eq] at hp
    exact keySwitch_codes_are_mapped line hl (hp ▸ h)
  unfold keyTypeFor
  rw [hfind]

theorem keyTypeFor_mapped (keyCode character : Int) (h : ¬ UnmappedKeyCode keyCode) :
    ∃ kt kc, keyTypeFor keyCode character = some (kt, kc) := by
  obtain ⟨line, hl, hc⟩ := mapped_code_in_keySwitch keyCode h
  unfold keyTypeFor
  cases hfind : keySwitch.find? (fun line => decide (line.1 = keyCode)) with
  | none =>
    rw [List.find?_eq_none] at hfind
    exact absurd (by simpa using hc) (hfind line hl)
  | some found =>
    obtain ⟨code, kt, ch⟩ := found
    cases ch with
    | none => exact ⟨kt, character, rfl⟩
    | some c => exact ⟨kt, charCode c, rfl⟩

/-! ## The navigation heuristic -/

theorem dotBeforeSlash_shift (a b : Option Nat) :
    dotBeforeSlash (a.map (· + 1)) (b.map (· + 1)) = dotBeforeSlash a b := by
  cases a <;> cases b <;> simp [dotBeforeSlash]

/-- The test of the lambda, on first positions, says that some `.` has no `/` before
it. -/
theorem dotBeforeSlash_iff (l : List Char) :
    dotBeforeSlash (findChar '.' l) (findChar '/' l) = true ↔
      ∃ pre post, l = pre ++ '.' :: post ∧ '/' ∉ pre := by
  induction l with
  | nil =>
    simp [findChar, dotBeforeSlash]
  | cons x xs ih =>
    by_cases hd : x = '.'
    · subst hd
      have hs : ('.' : Char) ≠ '/' := by decide
      constructor
      · intro _
        exact ⟨[], xs, rfl, by simp⟩
      · intro _
        simp only [findChar, if_true, if_neg hs]
        cases findChar '/' xs <;> simp [dotBeforeSlash]
    · by_cases hsl : x = '/'
      · subst hsl
        constructor
        · intro h
          simp only [findChar, if_true, if_neg hd] at h
          cases hf : findChar '.' xs with
          | none => rw [hf] at h; simp [dotBeforeSlash] at h
          | some d => rw [hf] at h; simp [dotBeforeSlash] at h
        · rintro ⟨pre, post, hl, hn⟩
          cases pre with
          | nil =>
            simp only [List.nil_append, List.cons.injEq] at hl
            exact absurd hl.1 hd
          | cons p ps =>
            simp only [List.cons_append, List.cons.injEq] at hl
            exact absurd (by rw [← hl.1]; simp) hn
      · simp only [findChar, if_neg hd, if_neg hsl]
        rw [dotBeforeSlash_shift, ih]
        constructor
        · rintro ⟨pre, post, hl, hn⟩
          refine ⟨x :: pre, post, by rw [hl]; rfl, ?_⟩
          simp only [List.mem_cons, not_or]
          exact ⟨fun h => hsl h.symm, hn⟩
        · rintro ⟨pre, post, hl, hn⟩
          cases pre with
          | nil =>
            simp only [List.nil_append, List.cons.injEq] at hl
            exact absurd hl.1 hd
          | cons p ps =>
            simp only [List.cons_append, List.cons.injEq] at hl
            refine ⟨ps, post, hl.2, ?_⟩
            intro hmem
            exact hn (List.mem_cons_of_mem _ hmem)

/-- The candidate of the lambda of `navigate`, in the terms of the statement. -/
theorem navigateCandidate_eq (env : Env) (searchURI s : String) :
    (DotBeforeFirstSlash s ∧ env.is_uri_valid ("https://" ++ s) = true →
      navigateCandidate env searchURI s = "https://" ++ s) ∧
    (¬ (DotBeforeFirstSlash s ∧ env.is_uri_valid ("https://" ++ s) = true) →
      navigateCandidate env searchURI s = searchURI ++ s) := by
  have hiff := dotBeforeSlash_iff s.toList
  unfold navigateCandidate
  simp only
  constructor
  · rintro ⟨hd, hv⟩
    rw [if_pos (hiff.mpr hd), if_pos hv]
  · intro hn
    by_cases hd : dotBeforeSlash (findChar '.' s.toList) (findChar '/' s.toList) = true
    · rw [if_pos hd]
      have hv : ¬ env.is_uri_valid ("https://" ++ s) = true := fun hv => hn ⟨hiff.mp hd, hv⟩
      rw [if_neg hv]
    · rw [if_neg hd]

/-! ## The Direct3D 11 backend -/

theorem servicePass_unregistered (this : Nat) (e : BROWSEREVENTCALLBACKTASK)
    (es : List BROWSEREVENTCALLBACKTASK) (w : World)
    (hcb : (w.windows this).m_browserEventCallback = none) :
    (servicePass this e es w).hostLog = w.hostLog ∧
    ((servicePass this e es w).windows this).m_browserEventCallbackTasks = es ∧
    ((servicePass this e es w).windows this).m_browserEventCallback = none := by
  unfold servicePass
  simp only [setWindow_same, hcb]
  exact ⟨rfl, by simp, by simp [hcb]⟩

/-- The servicing loop with no callback registered: every queued event is popped and
nothing is called. -/
theorem serviceLoop_unregistered (this : Nat) (es : List BROWSEREVENTCALLBACKTASK) :
    ∀ w : World, (w.windows this).m_browserEventCallback = none →
      (w.windows this).m_browserEventCallbackTasks = es →
      (serviceLoop this es w).hostLog = w.hostLog ∧
      ((serviceLoop this es w).windows this).m_browserEventCallbackTasks = [] ∧
      ((serviceLoop this es w).windows this).m_browserEventCallback = none := by
  induction es with
  | nil => intro w hcb hq; exact ⟨by simp [serviceLoop], hq, hcb⟩
  | cons e es ih =>
    intro w hcb hq
    obtain ⟨p1, p2, p3⟩ := servicePass_unregistered this e es w hcb
    obtain ⟨h1, h2, h3⟩ := ih (servicePass this e es w) p3 p2
    refine ⟨?_, h2, h3⟩
    rw [serviceLoop, h1, p1]

/-- With the callback `fn` registered, a history of pushes and servicings hands to
`fn`, in order, a prefix of the events queued and pushed, and leaves the rest queued. -/
theorem runEventOps_registered (this fn : Nat) (ops : List EventOp) :
    ∀ w : World, (w.windows this).m_browserEventCallback = some fn →
      ∃ delivered : List BROWSEREVENTCALLBACKTASK,
        (runEventOps this ops w).hostLog = w.hostLog ++ delivered.map (deliver fn) ∧
        delivered ++ ((runEventOps this ops w).windows this).m_browserEventCallbackTasks =
          (w.windows this).m_browserEventCallbackTasks ++ pushedEvents ops ∧
        ((runEventOps this ops w).windows this).m_browserEventCallback = some fn := by
  induction ops with
  | nil => intro w hcb; exact ⟨[], by simp [runEventOps], by simp [runEventOps, pushedEvents], hcb⟩
  | cons op ops ih =>
    intro w hcb
    cases op with
    | push e =>
      have hcb1 : ((EventOp.step this (EventOp.push e) w).windows this).m_browserEventCallback
          = some fn := by
        simp [EventOp.step, queueBrowserEventCallbackTask, hcb]
      obtain ⟨d, hd1, hd2, hd3⟩ := ih _ hcb1
      refine ⟨d, ?_, ?_, hd3⟩
      · rw [runEventOps, hd1]; rfl
      · rw [runEventOps, hd2]
        simp [EventOp.step, queueBrowserEventCallbackTask, pushedEvents]
    | service =>
      obtain ⟨s1, s2, s3⟩ := serviceLoop_registered this fn _ w hcb rfl
      have hcb1 : ((EventOp.step this EventOp.service w).windows this).m_browserEventCallback
          = some fn := s3
      obtain ⟨d, hd1, hd2, hd3⟩ := ih _ hcb1
      refine ⟨(w.windows this).m_browserEventCallbackTasks ++ d, ?_, ?_, hd3⟩
      · rw [runEventOps, hd1]
        show (serviceLoop this _ w).hostLog ++ _ = _
        rw [s1]; simp
      · rw [runEventOps, List.append_assoc, hd2]
        show _ ++ (((serviceLoop this _ w).windows this).m_browserEventCallbackTasks ++ _) = _
        rw [s2]; simp [pushedEvents]

/-! ## Draining a queue whose tasks enqueue -/

/-- One generation of the drain: if draining a queue whose generation `k` is empty
runs `drainSchedule env k` of it, then draining `a ++ b`, where `b` is what earlier
tasks have enqueued, runs `a` and then the schedule of `b` followed by what the tasks
of `a` enqueue. -/
theorem drainTasks_generation_step (env : Env) (this k : Nat)
    (base : ∀ (b : List ServoTask) (w : World) (fuel : Nat),
      (w.windows this).m_servoTasks = b → generation env k b = [] →
      (drainSchedule env k b).length < fuel →
      ∃ w', drainTasks env fuel this w = some w' ∧
        w'.ranTasks = w.ranTasks ++ (drainSchedule env k b).map (fun t => (this, t)) ∧
        (w'.windows this).m_servoTasks = []) :
    ∀ (a b : List ServoTask) (w : World) (fuel : Nat),
      (w.windows this).m_servoTasks = a ++ b →
      generation env k (b ++ a.flatMap (ServoTask.enqueues env)) = [] →
      a.length + (drainSchedule env k (b ++ a.flatMap (ServoTask.enqueues env))).length < fuel →
      ∃ w', drainTasks env fuel this w = some w' ∧
        w'.ranTasks = w.ranTasks ++
          (a ++ drainSchedule env k (b ++ a.flatMap (ServoTask.enqueues env))).map
            (fun t => (this, t)) ∧
        (w'.windows this).m_servoTasks = [] := by
  intro a
  induction a with
  | nil =>
    intro b w fuel hq hg hf
    simp only [List.flatMap_nil, List.append_nil, List.nil_append, List.length_nil,
      Nat.zero_add] at hq hg hf ⊢
    exact base b w fuel hq hg hf
  | cons t a ih =>
    intro b w fuel hq hg hf
    obtain ⟨f, rfl⟩ : ∃ f, fuel = f + 1 :=
      ⟨fuel - 1, by simp only [List.length_cons] at hf; omega⟩
    have hfr := runTask_frame env this t
      (w.setWindow this { w.windows this with m_servoTasks := a ++ b })
    have e : b ++ (t :: a).flatMap (ServoTask.enqueues env) =
        (b ++ t.enqueues env) ++ a.flatMap (ServoTask.enqueues env) := by
      simp [List.flatMap_cons]
    rw [e] at hg hf ⊢
    have hq' : ((runTask env this t
        (w.setWindow this { w.windows this with m_servoTasks := a ++ b })).windows
          this).m_servoTasks = a ++ (b ++ t.enqueues env) := by
      rw [hfr.tasksThis]; simp
    obtain ⟨w', hw', hran, hempty⟩ := ih (b ++ t.enqueues env) _ f hq' hg
      (by simp only [List.length_cons] at hf; omega)
    refine ⟨w', ?_, ?_, hempty⟩
    · have hq2 : (w.windows this).m_servoTasks = t :: (a ++ b) := by simpa using hq
      simp only [drainTasks, hq2]; exact hw'
    · rw [hran, hfr.ranTasks]; simp

/-- Draining a queue whose generation `k` is empty: with more fuel than the schedule
is long, the loop returns with the queue empty, having called the tasks of the first
`k` generations, generation by generation. -/
theorem drainTasks_schedule (env : Env) (this : Nat) :
    ∀ (k : Nat) (b : List ServoTask) (w : World) (fuel : Nat),
      (w.windows this).m_servoTasks = b → generation env k b = [] →
      (drainSchedule env k b).length < fuel →
      ∃ w', drainTasks env fuel this w = some w' ∧
        w'.ranTasks = w.ranTasks ++ (drainSchedule env k b).map (fun t => (this, t)) ∧
        (w'.windows this).m_servoTasks = [] := by
  intro k
  induction k with
  | zero =>
    intro b w fuel hq hg hf
    obtain ⟨f, rfl⟩ : ∃ f, fuel = f + 1 := ⟨fuel - 1, by omega⟩
    have hb : b = [] := hg
    subst hb
    exact ⟨w, by simp [drainTasks, hq], by simp [drainSchedule], hq⟩
  | succ k ih =>
    intro b w fuel hq hg hf
    have h := drainTasks_generation_step env this k ih b [] w fuel (by simpa using hq)
      (by simpa [generation] using hg) (by simpa [drainSchedule] using hf)
    simpa [drainSchedule] using h

/-- What the schedule starts with, once some generation of the queue is empty: the
queue, then what its tasks enqueue. -/
theorem drainSchedule_starts (env : Env) (k : Nat) (q : List ServoTask)
    (hg : generation env k q = []) :
    ∃ later, drainSchedule env k q = q ++ q.flatMap (ServoTask.enqueues env) ++ later := by
  cases k with
  | zero =>
    have hq : q = [] := hg
    subst hq
    exact ⟨[], rfl⟩
  | succ k =>
    cases k with
    | zero =>
      have hq : q.flatMap (ServoTask.enqueues env) = [] := hg
      exact ⟨[], by simp [drainSchedule, hq]⟩
    | succ k =>
      exact ⟨drainSchedule env k
        ((q.flatMap (ServoTask.enqueues env)).flatMap (ServoTask.enqueues env)), by
        simp [drainSchedule]⟩

theorem lockedEnqueueAll_released (this : Nat) (ts : List ServoTask) (w : World) :
    lockedEnqueueAll false this ts w = some (enqueueAll this ts w) := by
  induction ts generalizing w with
  | nil => rfl
  | cons t ts ih => simp [lockedEnqueueAll, lockedRunOnServoThread, enqueueAll, ih]

theorem lockedRunTask_released (env : Env) (this : Nat) (t : ServoTask) (w : World) :
    lockedRunTask env false this t w = some (runTask env this t w) := by
  cases t <;> first | rfl | exact lockedEnqueueAll_released this _ _

/-- The drain with the lock made explicit never blocks: it ends as the drain does. -/
theorem lockedDrainTasks_eq (env : Env) (this : Nat) :
    ∀ (fuel : Nat) (w : World),
      lockedDrainTasks env fuel this w =
        match drainTasks env fuel this w with
        | some w' => DrainResult.finished w'
        | none => DrainResult.outOfFuel := by
  intro fuel
  induction fuel with
  | zero => intro w; rfl
  | succ f ih =>
    intro w
    cases hq : (w.windows this).m_servoTasks with
    | nil => simp [lockedDrainTasks, drainTasks, hq]
    | cons t rest =>
      simp only [lockedDrainTasks, drainTasks, hq, lockedRunTask_released]
      exact ih _

/-! ## Shutdown requested on a window that does not hold the guard -/

/-- The polling loop on a window `this` that does not hold the guard and whose flag is
set: no engine callback reaches the window, so the loop pumps until the first reading
of the clock that is more than 2000 ms after `timeStart`, and leaves after it. -/
theorem shutdownWait_foreign (env : Env) (this : Nat) (timeStart : Int) :
    ∀ (k : Nat) (w : World), (w.windows this).m_waitingForShutdown = true →
      w.s_servo ≠ some this →
      (∀ i, i < k → env.clock (w.clockReads + i) - timeStart ≤ 2000) →
      2000 < env.clock (w.clockReads + k) - timeStart →
      ∀ fuel, k < fuel →
      ∃ w', shutdownWait env this timeStart fuel w = some w' ∧
        w'.engineLog = w.engineLog ++ List.replicate k EngineCall.perform_updates ∧
        w'.clockReads = w.clockReads + k + 1 ∧
        w'.s_servo = w.s_servo ∧
        w'.windows this = w.windows this := by
  intro k
  induction k with
  | zero =>
    intro w hflag _ _ hk fuel hf
    obtain ⟨f, rfl⟩ : ∃ f, fuel = f + 1 := ⟨fuel - 1, by omega⟩
    have hk0 : 2000 < env.clock w.clockReads - timeStart := by simpa using hk
    exact ⟨afterReading w,
      by simp [shutdownWait, hflag, millisecondsElapsedSince, hk0, afterReading],
      by simp [afterReading], rfl, rfl, rfl⟩
  | succ k ih =>
    intro w hflag hs hbelow hk fuel hf
    obtain ⟨f, rfl⟩ : ∃ f, fuel = f + 1 := ⟨fuel - 1, by omega⟩
    have h0 : env.clock w.clockReads - timeStart ≤ 2000 := by
      simpa using hbelow 0 (by omega)
    have hfr := engineCall_frame env EngineCall.perform_updates (afterReading w)
    have hwin : (engineCall env EngineCall.perform_updates (afterReading w)).windows this =
        w.windows this := hfr.other this hs
    have hclk : (engineCall env EngineCall.perform_updates (afterReading w)).clockReads =
        w.clockReads + 1 := hfr.clockReads
    obtain ⟨w', hw', hlog, hc, hg, hw⟩ :=
      ih (engineCall env EngineCall.perform_updates (afterReading w))
        (by rw [hwin]; exact hflag)
        (by rw [hfr.s_servo]; exact hs)
        (by
          intro i hi
          rw [hclk]
          have h1 := hbelow (i + 1) (by omega)
          have e : w.clockReads + 1 + i = w.clockReads + (i + 1) := by omega
          rw [e]; exact h1)
        (by
          rw [hclk]
          have e : w.clockReads + 1 + k = w.clockReads + (k + 1) := by omega
          rw [e]; exact hk)
        f (by omega)
    refine ⟨w', ?_, ?_, ?_, ?_, ?_⟩
    · simp only [shutdownWait, hflag, millisecondsElapsedSince, if_true]
      rw [if_neg (by simpa using h0)]
      exact hw'
    · rw [hlog, engineCall_engineLog, List.replicate_succ]
      simp [afterReading]
    · rw [hc, hclk]; omega
    · rw [hg, hfr.s_servo]; rfl
    · rw [hw, hwin]

/-- The method `cleanupRenderer` called on a window `this` while the guard points to
another window: the loop ends at the first reading past 2000 ms, after `k` pumps, and
the fields of `this` change only by the statements of `cleanupRenderer` itself. -/
theorem cleanupRenderer_foreign (env : Env) (this s : Nat) (w : World) (k fuel : Nat)
    (hs : w.s_servo = some s) (hne : s ≠ this)
    (hbelow : ∀ i, i < k → env.clock (w.clockReads + 1 + i) - env.clock w.clockReads ≤ 2000)
    (hk : 2000 < env.clock (w.clockReads + 1 + k) - env.clock w.clockReads)
    (hf : k < fuel) :
    ∃ w', cleanupRenderer env fuel this w = some w' ∧
      w'.engineLog = w.engineLog ++ shutdownCalls k ∧
      w'.clockReads = w.clockReads + k + 2 ∧
      w'.windows this =
        { w.windows this with
          m_servoTasks := []
          m_waitingForShutdown := true
          m_browserEventCallbackTasks :=
            (w.windows this).m_browserEventCallbackTasks ++
              [⟨(w.windows this).m_uidExt, ServoUnityBrowserEvent_Shutdown, 0, 0⟩] } := by
  have hguard : w.s_servo ≠ some this := by
    rw [hs]; intro h; exact hne (Option.some.inj h)
  have hb := beginShutdown_eq env this w
  have hbf := engineCall_frame env EngineCall.request_shutdown (armed this w)
  rw [← hb] at hbf
  have hbwin : (beginShutdown env this w).windows this =
      { w.windows this with m_servoTasks := [], m_waitingForShutdown := true } := by
    rw [hbf.other this hguard, armed_windows]; simp
  have hbclk : (beginShutdown env this w).clockReads = w.clockReads + 1 := hbf.clockReads
  have hbs : (beginShutdown env this w).s_servo = w.s_servo := hbf.s_servo
  have hblog : (beginShutdown env this w).engineLog =
      w.engineLog ++ [EngineCall.request_shutdown] := by
    rw [hb, engineCall_engineLog]; rfl
  obtain ⟨w4, hw4, hlog4, hclk4, hs4, hwin4⟩ :=
    shutdownWait_foreign env this (env.clock w.clockReads) k (beginShutdown env this w)
      (by rw [hbwin]) (by rw [hbs]; exact hguard)
      (by intro i hi; rw [hbclk]; exact hbelow i hi) (by rw [hbclk]; exact hk) fuel hf
  have hfr5 := engineCall_frame env EngineCall.deinit w4
  have hwin5 : (engineCall env EngineCall.deinit w4).windows this = w4.windows this :=
    hfr5.other this (by rw [hs4, hbs]; exact hguard)
  refine ⟨finishShutdown env this w4, ?_, ?_, ?_, ?_⟩
  · rw [cleanupRenderer_eq env fuel this w s hs, hw4]; rfl
  · have h1 : (finishShutdown env this w4).engineLog = w4.engineLog ++ [EngineCall.deinit] := by
      simp [finishShutdown, queueBrowserEventCallbackTask]
    rw [h1, hlog4, hblog]; simp [shutdownCalls]
  · have h1 : (finishShutdown env this w4).clockReads = w4.clockReads := by
      have h0 := hfr5.clockReads
      simpa [finishShutdown, queueBrowserEventCallbackTask] using h0
    rw [h1, hclk4, hbclk]; omega
  · rw [finishShutdown_windows]
    simp only [if_true]
    rw [hwin5, hwin4, hbwin]

/-- What `ServoUnityWindowDX11::setSize` does for every requested size: `size()`,
`format()` and the added members are as before, and the host trace grows by one call
of the window-resized callback member of the subclass, with the size held before the
call, if that member is non-null, and by nothing otherwise. -/
theorem dx11_setSize_frame (this : Nat) (size : Size) (st : DX11World) :
    ServoUnityWindowDX11.size this (ServoUnityWindowDX11.setSize this size st) =
      ServoUnityWindowDX11.size this st ∧
    ServoUnityWindowDX11.format this (ServoUnityWindowDX11.setSize this size st) =
      ServoUnityWindowDX11.format this st ∧
    (ServoUnityWindowDX11.setSize this size st).dx = st.dx ∧
    (ServoUnityWindowDX11.setSize this size st).base.windows = st.base.windows ∧
    (ServoUnityWindowDX11.setSize this size st).d3dLog = st.d3dLog ∧
    (ServoUnityWindowDX11.setSize this size st).base.hostLog =
      st.base.hostLog ++
        (match (st.dx this).m_windowResizedCallback with
          | none => []
          | some fn =>
            [HostCall.windowResized fn (st.base.windows this).m_uidExt
              (ServoUnityWindowDX11.size this st).w (ServoUnityWindowDX11.size this st).h]) := by
  cases hc : (st.dx this).m_windowResizedCallback <;>
    simp [ServoUnityWindowDX11.setSize, ServoUnityWindowDX11.size, ServoUnityWindowDX11.format, hc]

/-! ## Claims -/

/-- C1. TaskQueue FIFO, exactly once. Let the task queue of window `this` hold any
tasks, let `ts` be appended by `runOnServoThread` in order, and let no queued task
enqueue when called. Then a single `requestUpdate` (with more fuel than queued tasks)
returns, the tasks it called are exactly the queued ones, each once and in queue
order, and the task queue is empty on return. -/
theorem requestUpdate_drains_fifo_exactly_once (env : Env) (this : Nat) (w : World)
    (ts : List ServoTask) (fuel : Nat)
    (hleaf : ∀ t ∈ (w.windows this).m_servoTasks ++ ts, t.enqueues env = [])
    (hfuel : ((w.windows this).m_servoTasks ++ ts).length < fuel) :
    ∃ w', requestUpdate env fuel this (enqueueAll this ts w) = some w' ∧
      w'.ranTasks =
        w.ranTasks ++ ((w.windows this).m_servoTasks ++ ts).map (fun t => (this, t)) ∧
      (w'.windows this).m_servoTasks = [] := by
  have hb := bootIfNeeded_queueFrame env this (enqueueAll this ts w)
  have hp := pumpIfRequested_queueFrame env this (bootIfNeeded env this (enqueueAll this ts w))
  have hf := hb.qf_trans hp
  have hq : ((pumpIfRequested env this
      (bootIfNeeded env this (enqueueAll this ts w))).windows this).m_servoTasks =
      (w.windows this).m_servoTasks ++ ts := by
    rw [hf.tasks, enqueueAll_tasks]
  obtain ⟨w', hw', hran, hempty, -⟩ := drainTasks_fifo env this _ _ fuel hq hleaf hfuel
  refine ⟨w', hw', ?_, hempty⟩
  rw [hran, hf.ranTasks, (enqueueAll_s_servo this ts w).2.2.1]

/-- Instance of C1: `refresh`, `click` and `go_back` queued on window 0 of the sample
process. -/
theorem requestUpdate_drains_fifo_exactly_once_witness :
    (∀ t ∈ (sampleWorld.windows 0).m_servoTasks ++
        [ServoTask.refresh, ServoTask.click 1 2, ServoTask.go_back],
      t.enqueues silentEnv = []) ∧
    ((sampleWorld.windows 0).m_servoTasks ++
        [ServoTask.refresh, ServoTask.click 1 2, ServoTask.go_back]).length < 4 ∧
    ∃ w', requestUpdate silentEnv 4 0
        (enqueueAll 0 [ServoTask.refresh, ServoTask.click 1 2, ServoTask.go_back] sampleWorld)
          = some w' ∧
      w'.ranTasks = sampleWorld.ranTasks ++
        ((sampleWorld.windows 0).m_servoTasks ++
          [ServoTask.refresh, ServoTask.click 1 2, ServoTask.go_back]).map (fun t => (0, t)) ∧
      (w'.windows 0).m_servoTasks = [] :=
  ⟨by decide, by decide,
    requestUpdate_drains_fifo_exactly_once silentEnv 0 sampleWorld
      [ServoTask.refresh, ServoTask.click 1 2, ServoTask.go_back] 4 (by decide) (by decide)⟩

/-- C2. EventQueue FIFO, exactly once. On a window whose browser-event callback is
the registered pointer `fn`, after the events `es` are appended by
`queueBrowserEventCallbackTask`, `serviceWindowEvents` calls `fn` exactly once per
queued event, in push order, with the four fields of the event unchanged, and leaves
the event queue empty; a second `serviceWindowEvents` right after changes nothing. -/
theorem serviceWindowEvents_delivers_fifo_exactly_once (this fn : Nat) (w : World)
    (es : List BROWSEREVENTCALLBACKTASK)
    (hcb : (w.windows this).m_browserEventCallback = some fn) :
    (serviceWindowEvents this (pushAll this es w)).hostLog =
      w.hostLog ++ ((w.windows this).m_browserEventCallbackTasks ++ es).map
        (fun e => HostCall.browserEvent fn e.uidExt e.eventType e.eventData1 e.eventData2) ∧
    ((serviceWindowEvents this (pushAll this es w)).windows this).m_browserEventCallbackTasks
      = [] ∧
    serviceWindowEvents this (serviceWindowEvents this (pushAll this es w)) =
      serviceWindowEvents this (pushAll this es w) := by
  have hcb' : ((pushAll this es w).windows this).m_browserEventCallback = some fn := by
    rw [pushAll_windows]; simpa using hcb
  have hq : ((pushAll this es w).windows this).m_browserEventCallbackTasks =
      (w.windows this).m_browserEventCallbackTasks ++ es := by
    rw [pushAll_windows]; simp
  obtain ⟨h1, h2, -⟩ := serviceLoop_registered this fn _ (pushAll this es w) hcb' rfl
  refine ⟨?_, h2, ?_⟩
  · unfold serviceWindowEvents
    rw [h1, pushAll_hostLog, hq]; rfl
  · conv_lhs => unfold serviceWindowEvents
    rw [h2]; rfl

/-- Instance of C2: two events pushed on window 0 with callback pointer 5. -/
theorem serviceWindowEvents_delivers_fifo_exactly_once_witness :
    ((sampleWorld.setWindow 0
        { sampleWorld.windows 0 with m_browserEventCallback := some 5 }).windows 0
      ).m_browserEventCallback = some 5 ∧
    (serviceWindowEvents 0 (pushAll 0 [⟨7, 2, 1, 0⟩, ⟨7, 6, 0, 0⟩]
      (sampleWorld.setWindow 0
        { sampleWorld.windows 0 with m_browserEventCallback := some 5 }))).hostLog =
      [HostCall.browserEvent 5 7 2 1 0, HostCall.browserEvent 5 7 6 0 0] :=
  ⟨by decide,
    (serviceWindowEvents_delivers_fifo_exactly_once 0 5
      (sampleWorld.setWindow 0 { sampleWorld.windows 0 with m_browserEventCallback := some 5 })
      [⟨7, 2, 1, 0⟩, ⟨7, 6, 0, 0⟩] (by decide)).1⟩

/-- C3. Shutdown cancels queued tasks. With the guard non-null and any tasks in the
queue of window `this`, `cleanupRenderer` returns (for every fuel above `k`, where
reading `k` of the clock after the start reading is more than 2000 ms past it) with
the task queue empty and without having called any task, and the `requestUpdate` that
follows returns without calling any task either. -/
theorem cleanupRenderer_cancels_queued_tasks (env : Env) (this : Nat) (w : World) (k fuel : Nat)
    (hguard : w.s_servo ≠ none)
    (hclock : 2000 < env.clock (w.clockReads + 1 + k) - env.clock w.clockReads)
    (hfuel : k < fuel) :
    ∃ w', cleanupRenderer env fuel this w = some w' ∧
      (w'.windows this).m_servoTasks = [] ∧
      w'.ranTasks = w.ranTasks ∧
      ∀ fuel2, 0 < fuel2 →
        ∃ w'', requestUpdate env fuel2 this w' = some w'' ∧ w''.ranTasks = w.ranTasks := by
  obtain ⟨w', pumps, hw', -, ho⟩ := cleanupRenderer_spec env this w k hguard hclock fuel hfuel
  refine ⟨w', hw', ho.tasksThis, ho.ranTasks, ?_⟩
  intro fuel2 hf2
  have hf := (bootIfNeeded_queueFrame env this w').qf_trans
    (pumpIfRequested_queueFrame env this (bootIfNeeded env this w'))
  have hq : ((pumpIfRequested env this (bootIfNeeded env this w')).windows this).m_servoTasks
      = [] := by
    rw [hf.tasks, ho.tasksThis]
  obtain ⟨w'', hw'', hran, -⟩ :=
    drainTasks_fifo env this [] _ fuel2 hq (by simp) (by simpa using hf2)
  refine ⟨w'', hw'', ?_⟩
  rw [hran, hf.ranTasks, ho.ranTasks]; simp

/-- Instance of C3: three queued control operations, an engine that never answers. -/
theorem cleanupRenderer_cancels_queued_tasks_witness :
    busyWorld.s_servo ≠ none ∧
    (busyWorld.windows 0).m_servoTasks =
      [ServoTask.refresh, ServoTask.click 1 2, ServoTask.go_back] ∧
    ∃ w', cleanupRenderer silentEnv 2 0 busyWorld = some w' ∧
      (w'.windows 0).m_servoTasks = [] ∧
      w'.ranTasks = busyWorld.ranTasks ∧
      ∀ fuel2, 0 < fuel2 →
        ∃ w'', requestUpdate silentEnv fuel2 0 w' = some w'' ∧
          w''.ranTasks = busyWorld.ranTasks :=
  ⟨by decide, by decide,
    cleanupRenderer_cancels_queued_tasks silentEnv 0 busyWorld 1 2 (by decide) (by decide)
      (by decide)⟩

/-- C4. Transition to Closed. Called with the guard non-null, `cleanupRenderer`
returns with `s_servo` null, and the engine calls it made are, in this order:
`request_shutdown` once, some number of `perform_updates`, `deinit` once. This holds
for every behaviour of the engine, so both when `on_shutdown_complete` arrives and
when the wait times out. -/
theorem cleanupRenderer_shuts_down_and_clears_guard (env : Env) (this : Nat) (w : World)
    (k fuel : Nat) (hguard : w.s_servo ≠ none)
    (hclock : 2000 < env.clock (w.clockReads + 1 + k) - env.clock w.clockReads)
    (hfuel : k < fuel) :
    ∃ w' pumps, cleanupRenderer env fuel this w = some w' ∧
      w'.s_servo = none ∧
      w'.engineLog = w.engineLog ++
        (EngineCall.request_shutdown ::
          (List.replicate pumps EngineCall.perform_updates ++ [EngineCall.deinit])) ∧
      (w'.engineLog.count EngineCall.request_shutdown =
        w.engineLog.count EngineCall.request_shutdown + 1) ∧
      (w'.engineLog.count EngineCall.deinit = w.engineLog.count EngineCall.deinit + 1) := by
  obtain ⟨w', pumps, hw', -, ho⟩ := cleanupRenderer_spec env this w k hguard hclock fuel hfuel
  refine ⟨w', pumps, hw', ho.s_servo, ho.engineLog, ?_, ?_⟩
  · rw [ho.engineLog, shutdownCalls, List.count_append, List.count_cons_self,
      List.count_append, List.count_replicate]
    simp
  · rw [ho.engineLog, shutdownCalls, List.count_append, List.count_cons_of_ne (by decide),
      List.count_append, List.count_replicate]
    simp

/-- Instance of C4 in which the wait times out: the engine never calls back. -/
theorem cleanupRenderer_shuts_down_and_clears_guard_witness :
    runningWorld.s_servo ≠ none ∧
    ∃ w' pumps, cleanupRenderer silentEnv 2 0 runningWorld = some w' ∧
      w'.s_servo = none ∧
      w'.engineLog = runningWorld.engineLog ++
        (EngineCall.request_shutdown ::
          (List.replicate pumps EngineCall.perform_updates ++ [EngineCall.deinit])) ∧
      (w'.engineLog.count EngineCall.request_shutdown =
        runningWorld.engineLog.count EngineCall.request_shutdown + 1) ∧
      (w'.engineLog.count EngineCall.deinit =
        runningWorld.engineLog.count EngineCall.deinit + 1) :=
  ⟨by decide,
    cleanupRenderer_shuts_down_and_clears_guard silentEnv 0 runningWorld 1 2 (by decide)
      (by decide) (by decide)⟩

/-- C6. `cleanupRenderer` with no active singleton is a no-op: with `s_servo` null it
returns the state it was given, so no engine call is made, no event is pushed and no
queue or flag changes. Hence after a `cleanupRenderer` that ran with the guard set,
a second `cleanupRenderer` (on any window) changes nothing, and the two calls
together add exactly one `Shutdown` event to the event queue of the window. -/
theorem cleanupRenderer_without_guard_is_noop (env : Env) (this : Nat) (w : World)
    (k fuel : Nat) (hguard : w.s_servo ≠ none)
    (hclock : 2000 < env.clock (w.clockReads + 1 + k) - env.clock w.clockReads)
    (hfuel : k < fuel) :
    (∀ (fuel0 this0 : Nat) (v : World), v.s_servo = none →
      cleanupRenderer env fuel0 this0 v = some v) ∧
    ∃ w1, cleanupRenderer env fuel this w = some w1 ∧
      (∀ fuel2 this2, cleanupRenderer env fuel2 this2 w1 = some w1) ∧
      shutdownEvents (w1.windows this).m_browserEventCallbackTasks =
        shutdownEvents (w.windows this).m_browserEventCallbackTasks + 1 := by
  have hnoop : ∀ (fuel0 this0 : Nat) (v : World), v.s_servo = none →
      cleanupRenderer env fuel0 this0 v = some v := by
    intro fuel0 this0 v hv
    simp [cleanupRenderer, hv]
  refine ⟨hnoop, ?_⟩
  obtain ⟨w1, pumps, hw1, -, ho⟩ := cleanupRenderer_spec env this w k hguard hclock fuel hfuel
  refine ⟨w1, hw1, fun fuel2 this2 => hnoop fuel2 this2 w1 ho.s_servo, ?_⟩
  obtain ⟨extra, hex, hne⟩ := ho.eventsThis
  rw [hex, shutdownEvents, List.countP_append, ← shutdownEvents,
    shutdownEvents_append_other _ _ hne]
  simp [ServoUnityBrowserEvent_Shutdown]

/-- Instance of C6: the running sample process, cleaned up twice. -/
theorem cleanupRenderer_without_guard_is_noop_witness :
    runningWorld.s_servo ≠ none ∧
    cleanupRenderer silentEnv 2 0 sampleWorld = some sampleWorld ∧
    ∃ w1, cleanupRenderer silentEnv 2 0 runningWorld = some w1 ∧
      (∀ fuel2 this2, cleanupRenderer silentEnv fuel2 this2 w1 = some w1) ∧
      shutdownEvents (w1.windows 0).m_browserEventCallbackTasks =
        shutdownEvents (runningWorld.windows 0).m_browserEventCallbackTasks + 1 :=
  ⟨by decide,
    (cleanupRenderer_without_guard_is_noop silentEnv 0 runningWorld 1 2 (by decide)
      (by decide) (by decide)).1 2 0 sampleWorld rfl,
    (cleanupRenderer_without_guard_is_noop silentEnv 0 runningWorld 1 2 (by decide)
      (by decide) (by decide)).2⟩

/-- C7. Bounded shutdown wait. For every behaviour of the engine (also one that never
calls `on_shutdown_complete`): if reading `k` of the clock after the start reading is
more than 2000 ms past it, `cleanupRenderer` returns for every fuel above `k`, after
at most `k` pumps, each pump following a reading of at most 2000 ms, and teardown has
proceeded: `deinit` is the last engine call, the guard is null and the `Shutdown`
event is the last event queued. A pass of the loop pumps only when
`m_waitingForShutdown` is true and the elapsed time is at most 2000 ms: with the flag
false it leaves without reading the clock, with more than 2000 ms elapsed it leaves
after the reading, and only otherwise it calls `perform_updates` and goes on. -/
theorem cleanupRenderer_wait_is_bounded (env : Env) (this : Nat) (w : World) (k fuel : Nat)
    (hguard : w.s_servo ≠ none)
    (hclock : 2000 < env.clock (w.clockReads + 1 + k) - env.clock w.clockReads)
    (hfuel : k < fuel) :
    (∃ w' pumps, cleanupRenderer env fuel this w = some w' ∧ pumps ≤ k ∧
      (∀ i, i < pumps → env.clock (w.clockReads + 1 + i) - env.clock w.clockReads ≤ 2000) ∧
      w'.engineLog = w.engineLog ++
        (EngineCall.request_shutdown ::
          (List.replicate pumps EngineCall.perform_updates ++ [EngineCall.deinit])) ∧
      w'.s_servo = none ∧
      ∃ earlier, (w'.windows this).m_browserEventCallbackTasks =
        earlier ++ [⟨(w.windows this).m_uidExt, ServoUnityBrowserEvent_Shutdown, 0, 0⟩]) ∧
    (∀ (timeStart : Int) (f : Nat) (v : World),
      (v.windows this).m_waitingForShutdown = false →
        shutdownWait env this timeStart (f + 1) v = some v) ∧
    (∀ (timeStart : Int) (f : Nat) (v : World),
      (v.windows this).m_waitingForShutdown = true →
      2000 < env.clock v.clockReads - timeStart →
        shutdownWait env this timeStart (f + 1) v = some (afterReading v)) ∧
    (∀ (timeStart : Int) (f : Nat) (v : World),
      (v.windows this).m_waitingForShutdown = true →
      env.clock v.clockReads - timeStart ≤ 2000 →
        shutdownWait env this timeStart (f + 1) v =
          shutdownWait env this timeStart f
            (engineCall env EngineCall.perform_updates (afterReading v))) := by
  refine ⟨?_, ?_, ?_, ?_⟩
  · obtain ⟨w', pumps, hw', hp, ho⟩ :=
      cleanupRenderer_spec env this w k hguard hclock fuel hfuel
    obtain ⟨extra, hex, -⟩ := ho.eventsThis
    exact ⟨w', pumps, hw', hp, ho.readings, ho.engineLog, ho.s_servo,
      (w.windows this).m_browserEventCallbackTasks ++ extra, hex⟩
  · intro timeStart f v hflag
    simp [shutdownWait, hflag]
  · intro timeStart f v hflag hto
    simp [shutdownWait, hflag, millisecondsElapsedSince, hto, afterReading]
  · intro timeStart f v hflag hle
    simp only [shutdownWait, hflag, millisecondsElapsedSince, if_true]
    rw [if_neg (by simpa using hle)]
    rfl

/-- Instance of C7: the engine never calls `on_shutdown_complete`; the third reading
of the clock is 3000 ms after the first. -/
theorem cleanupRenderer_wait_is_bounded_witness :
    runningWorld.s_servo ≠ none ∧
    (∀ l, Callback.on_shutdown_complete ∉ silentEnv.react l) ∧
    ∃ w' pumps, cleanupRenderer silentEnv 2 0 runningWorld = some w' ∧ pumps ≤ 1 ∧
      (∀ i, i < pumps →
        silentEnv.clock (runningWorld.clockReads + 1 + i) -
          silentEnv.clock runningWorld.clockReads ≤ 2000) ∧
      w'.engineLog = runningWorld.engineLog ++
        (EngineCall.request_shutdown ::
          (List.replicate pumps EngineCall.perform_updates ++ [EngineCall.deinit])) ∧
      w'.s_servo = none ∧
      ∃ earlier, (w'.windows 0).m_browserEventCallbackTasks =
        earlier ++ [⟨(runningWorld.windows 0).m_uidExt, ServoUnityBrowserEvent_Shutdown, 0, 0⟩] :=
  ⟨by decide, by intro l h; simp [silentEnv] at h,
    (cleanupRenderer_wait_is_bounded silentEnv 0 runningWorld 1 2 (by decide) (by decide)
      (by decide)).1⟩

/-- C8 fails as stated when the wait times out: with an engine that never calls
`on_shutdown_complete`, `cleanupRenderer` returns after the timeout with
`m_waitingForShutdown` still true (the `break` of the loop does not clear it). -/
theorem waitingForShutdown_still_set_after_timeout :
    runningWorld.s_servo ≠ none ∧
    (cleanupRenderer silentEnv 2 0 runningWorld).map
      (fun w' => ((w'.windows 0).m_waitingForShutdown, w'.s_servo, w'.engineLog)) =
      some (true, none,
        [EngineCall.request_shutdown, EngineCall.perform_updates, EngineCall.deinit]) :=
  ⟨by decide, by decide⟩

/-- C8, amended. After `cleanupRenderer` (called with the guard non-null) returns,
`m_waitingForShutdown` of the window is false exactly when the guard pointed to this
window and the engine called `on_shutdown_complete` during one of the engine calls of
the shutdown sequence (`request_shutdown`, a pump, or `deinit`); in particular, when
the wait ends by the 2000 ms timeout without such a call, the flag is still true. -/
theorem waitingForShutdown_cleared_only_by_callback (env : Env) (this : Nat) (w : World)
    (k fuel : Nat) (hguard : w.s_servo ≠ none)
    (hclock : 2000 < env.clock (w.clockReads + 1 + k) - env.clock w.clockReads)
    (hfuel : k < fuel) :
    ∃ w' pumps, cleanupRenderer env fuel this w = some w' ∧
      w'.engineLog = w.engineLog ++ shutdownCalls pumps ∧
      ((w'.windows this).m_waitingForShutdown = false ↔
        (w.s_servo = some this ∧
          firedShutdownComplete env w.engineLog (shutdownCalls pumps) = true)) ∧
      ((∀ l, Callback.on_shutdown_complete ∉ env.react l) →
        (w'.windows this).m_waitingForShutdown = true) := by
  obtain ⟨w', pumps, hw', -, ho⟩ := cleanupRenderer_spec env this w k hguard hclock fuel hfuel
  have hiff : (w'.windows this).m_waitingForShutdown = false ↔
      (w.s_servo = some this ∧
        firedShutdownComplete env w.engineLog (shutdownCalls pumps) = true) := by
    rw [ho.waiting]
    by_cases h1 : w.s_servo = some this <;>
      cases h2 : firedShutdownComplete env w.engineLog (shutdownCalls pumps) <;>
      simp [h1]
  refine ⟨w', pumps, hw', ho.engineLog, hiff, ?_⟩
  intro hnever
  have hnot : ∀ log calls, firedShutdownComplete env log calls = false := by
    intro log calls
    induction calls generalizing log with
    | nil => rfl
    | cons c cs ih => simp [firedShutdownComplete, hnever, ih]
  rw [ho.waiting, hnot]
  simp

/-- Instance of amended C8: the engine answers the first pump with
`on_shutdown_complete`, and the flag of window 0, which holds the guard, is cleared. -/
theorem waitingForShutdown_cleared_only_by_callback_witness :
    runningWorld.s_servo ≠ none ∧
    (cleanupRenderer promptEnv 2 0 runningWorld).map
      (fun w' => (w'.windows 0).m_waitingForShutdown) = some false ∧
    ∃ w' pumps, cleanupRenderer promptEnv 2 0 runningWorld = some w' ∧
      w'.engineLog = runningWorld.engineLog ++ shutdownCalls pumps ∧
      ((w'.windows 0).m_waitingForShutdown = false ↔
        (runningWorld.s_servo = some 0 ∧
          firedShutdownComplete promptEnv runningWorld.engineLog (shutdownCalls pumps) = true)) ∧
      ((∀ l, Callback.on_shutdown_complete ∉ promptEnv.react l) →
        (w'.windows 0).m_waitingForShutdown = true) :=
  ⟨by decide, by decide,
    waitingForShutdown_cleared_only_by_callback promptEnv 0 runningWorld 1 2 (by decide)
      (by decide) (by decide)⟩

/-- C10. Lazy single-shot boot. A `requestUpdate` that finds `s_servo` null sets it to
the calling window and calls `initRenderer` exactly once, first, with the width and
height of the window's `size()` and density 1.0; a `requestUpdate` that finds
`s_servo` non-null leaves it unchanged and does not call `initRenderer`. So any run of
`requestUpdate` calls (on any windows, nothing else in between) contains at most one
`initRenderer` call, and none if the guard was set at the start. A `requestUpdate`
returns whenever no queued task enqueues and the fuel exceeds the queue length. -/
theorem requestUpdate_boots_engine_at_most_once (env : Env) :
    (∀ (fuel this : Nat) (w w' : World), w.s_servo = none →
      requestUpdate env fuel this w = some w' →
      w'.s_servo = some this ∧
      ∃ rest, w'.engineLog = w.engineLog ++
          EngineCall.initRenderer
            ⟨logLevelArgs w.servoUnityLogLevel, (w.windows this).size.w,
              (w.windows this).size.h, 1⟩ :: rest ∧
        ∀ c ∈ rest, EngineCall.isInit c = false) ∧
    (∀ (fuel this : Nat) (w w' : World), w.s_servo ≠ none →
      requestUpdate env fuel this w = some w' →
      w'.s_servo = w.s_servo ∧
      ∃ rest, w'.engineLog = w.engineLog ++ rest ∧
        ∀ c ∈ rest, EngineCall.isInit c = false) ∧
    (∀ (calls : List (Nat × Nat)) (w w' : World), requestUpdates env calls w = some w' →
      ∃ added, w'.engineLog = w.engineLog ++ added ∧
        added.countP EngineCall.isInit ≤ 1 ∧
        (w.s_servo ≠ none → added.countP EngineCall.isInit = 0)) ∧
    (∀ (fuel this : Nat) (w : World),
      (∀ t ∈ (w.windows this).m_servoTasks, t.enqueues env = []) →
      (w.windows this).m_servoTasks.length < fuel →
      ∃ w', requestUpdate env fuel this w = some w') := by
  refine ⟨?_, ?_, ?_, ?_⟩
  · intro fuel this w w' hs h
    obtain ⟨hg, rest, hr, hr0⟩ := requestUpdate_guard_log env fuel this w w' h
    refine ⟨by rw [hg, hs]; rfl, rest, ?_, hr0⟩
    rw [hr, if_pos hs]; simp
  · intro fuel this w w' hs h
    obtain ⟨hg, rest, hr, hr0⟩ := requestUpdate_guard_log env fuel this w w' h
    obtain ⟨s, hs'⟩ := Option.ne_none_iff_exists'.mp hs
    refine ⟨by rw [hg, hs']; rfl, rest, ?_, hr0⟩
    rw [hr, if_neg hs]; simp
  · intro calls w w' h
    cases calls with
    | nil =>
      simp only [requestUpdates, Option.some.injEq] at h
      subst h
      exact ⟨[], by simp, by simp, fun _ => rfl⟩
    | cons call rest =>
      simp only [requestUpdates] at h
      cases h1 : requestUpdate env call.1 call.2 w with
      | none => rw [h1] at h; simp at h
      | some w1 =>
        rw [h1] at h
        obtain ⟨hg, r, hr, hr0⟩ := requestUpdate_guard_log env call.1 call.2 w w1 h1
        obtain ⟨-, added, hadd, hadd0⟩ :=
          requestUpdates_running env rest w1 w' (by rw [hg]; simp) h
        refine ⟨(if w.s_servo = none then
            [EngineCall.initRenderer
              ⟨logLevelArgs w.servoUnityLogLevel, (w.windows call.2).size.w,
                (w.windows call.2).size.h, 1⟩]
            else []) ++ (r ++ added), by rw [hadd, hr]; simp only [List.append_assoc], ?_, ?_⟩
        · rw [List.countP_append, List.countP_append, hadd0, countP_isInit_zero r hr0]
          split <;> simp [EngineCall.isInit]
        · intro hs
          rw [List.countP_append, List.countP_append, hadd0, countP_isInit_zero r hr0,
            if_neg hs]
          simp
  · intro fuel this w hne hlen
    have hqf := (bootIfNeeded_queueFrame env this w).qf_trans
      (pumpIfRequested_queueFrame env this (bootIfNeeded env this w))
    obtain ⟨w', hw', -⟩ := drainTasks_fifo env this _
      (pumpIfRequested env this (bootIfNeeded env this w)) fuel (hqf.tasks this) hne hlen
    exact ⟨w', hw'⟩

/-- Instance of C10: the first `requestUpdate` of the sample process, on window 0. -/
theorem requestUpdate_boots_engine_at_most_once_witness :
    sampleWorld.s_servo = none ∧
    requestUpdate silentEnv 1 0 sampleWorld = some (bootIfNeeded silentEnv 0 sampleWorld) ∧
    (bootIfNeeded silentEnv 0 sampleWorld).s_servo = some 0 ∧
    ∃ rest, (bootIfNeeded silentEnv 0 sampleWorld).engineLog = sampleWorld.engineLog ++
        EngineCall.initRenderer
          ⟨logLevelArgs sampleWorld.servoUnityLogLevel, (sampleWorld.windows 0).size.w,
            (sampleWorld.windows 0).size.h, 1⟩ :: rest ∧
      ∀ c ∈ rest, EngineCall.isInit c = false :=
  ⟨rfl, rfl,
    (requestUpdate_boots_engine_at_most_once silentEnv).1 1 0 sampleWorld
      (bootIfNeeded silentEnv 0 sampleWorld) rfl rfl⟩

/-- C11 fails as stated: `init` only binds the callbacks. After `init` on a window of
a process in which no window holds the guard, `s_servo` is still null and no engine
call has been made. -/
theorem init_does_not_boot_the_engine :
    sampleWorld.s_servo = none ∧
    (init 0 (some 1) (some 2) (some 3) sampleWorld).1 = true ∧
    (init 0 (some 1) (some 2) (some 3) sampleWorld).2.s_servo = none ∧
    (init 0 (some 1) (some 2) (some 3) sampleWorld).2.engineLog = [] :=
  ⟨by decide, by decide, by decide, by decide⟩

/-- C11, amended. After `init` returns on a window while no window holds the guard,
the three callbacks are bound to that window and `init` has returned `true`; the guard
is still null and `init` has made no engine call. The engine is booted and the guard
set to that window by the first `requestUpdate` on it: if that call returns, the guard
points to the window and the first new engine call is `initRenderer` with the size of
the window; it returns whenever no queued task enqueues and the fuel exceeds the queue
length. -/
theorem init_binds_callbacks_and_boot_is_lazy (env : Env) (this : Nat)
    (created resized browser : Option Nat) (w : World) (hguard : w.s_servo = none) :
    (init this created resized browser w).1 = true ∧
    (((init this created resized browser w).2.windows this).m_windowCreatedCallback = created ∧
      ((init this created resized browser w).2.windows this).m_windowResizedCallback = resized ∧
      ((init this created resized browser w).2.windows this).m_browserEventCallback = browser) ∧
    (init this created resized browser w).2.s_servo = none ∧
    (init this created resized browser w).2.engineLog = w.engineLog ∧
    (∀ fuel w2, requestUpdate env fuel this (init this created resized browser w).2 = some w2 →
      w2.s_servo = some this ∧
      ∃ rest, w2.engineLog = w.engineLog ++
          EngineCall.initRenderer
            ⟨logLevelArgs w.servoUnityLogLevel, (w.windows this).size.w,
              (w.windows this).size.h, 1⟩ :: rest ∧
        ∀ c ∈ rest, EngineCall.isInit c = false) ∧
    (∀ fuel, (∀ t ∈ (w.windows this).m_servoTasks, t.enqueues env = []) →
      (w.windows this).m_servoTasks.length < fuel →
      ∃ w2, requestUpdate env fuel this (init this created resized browser w).2 = some w2) := by
  refine ⟨rfl, ⟨by simp [init], by simp [init], by simp [init]⟩, hguard, rfl, ?_, ?_⟩
  · intro fuel w2 h
    obtain ⟨hg, rest, hr, hr0⟩ := requestUpdate_guard_log env fuel this _ w2 h
    have hs : (init this created resized browser w).2.s_servo = none := hguard
    refine ⟨by rw [hg, hs]; rfl, rest, ?_, hr0⟩
    rw [hr, if_pos hs]
    simp [init]
  · intro fuel hleaf hlen
    have hqf := (bootIfNeeded_queueFrame env this (init this created resized browser w).2).qf_trans
      (pumpIfRequested_queueFrame env this
        (bootIfNeeded env this (init this created resized browser w).2))
    have hq : ((pumpIfRequested env this
        (bootIfNeeded env this (init this created resized browser w).2)).windows
          this).m_servoTasks = (w.windows this).m_servoTasks := by
      rw [hqf.tasks]; simp [init]
    obtain ⟨w2, hw2, -⟩ := drainTasks_fifo env this _ _ fuel hq hleaf hlen
    exact ⟨w2, hw2⟩

/-- Instance of amended C11: `init` on window 0 of the sample process. -/
theorem init_binds_callbacks_and_boot_is_lazy_witness :
    sampleWorld.s_servo = none ∧
    (init 0 (some 1) (some 2) (some 3) sampleWorld).2.s_servo = none ∧
    ∃ w2, requestUpdate silentEnv 1 0 (init 0 (some 1) (some 2) (some 3) sampleWorld).2 =
      some w2 :=
  ⟨rfl,
    (init_binds_callbacks_and_boot_is_lazy silentEnv 0 (some 1) (some 2) (some 3) sampleWorld
      rfl).2.2.1,
    (init_binds_callbacks_and_boot_is_lazy silentEnv 0 (some 1) (some 2) (some 3) sampleWorld
      rfl).2.2.2.2.2 1 (by decide) (by decide)⟩

/-- C13. No-op without an active engine. With `s_servo` null, each state-touching
engine callback and each control operation returns the state it was given: no event is
pushed, no task is enqueued, no engine call is made and no field of any window
changes. -/
theorem callbacks_and_controls_are_noops_without_guard (w : World) (hguard : w.s_servo = none) :
    (on_load_started w = w ∧ on_load_ended w = w ∧ (∀ title, on_title_changed title w = w) ∧
      (∀ url, on_url_changed url w = w) ∧ (∀ b f, on_history_changed b f w = w) ∧
      (∀ a, on_animating_changed a w = w) ∧ on_shutdown_complete w = w ∧
      on_ime_show w = w ∧ on_ime_hide w = w ∧ wakeup w = w) ∧
    (∀ this : Nat,
      (∀ x y, pointerOver this x y w = w) ∧
      (∀ button x y, pointerPress this button x y w = w) ∧
      (∀ button x y, pointerRelease this button x y w = w) ∧
      (∀ button x y, pointerClick this button x y w = w) ∧
      (∀ xs ys x y, pointerScrollDiscrete this xs ys x y w = w) ∧
      (∀ upDown keyCode character, keyEvent this upDown keyCode character w = w) ∧
      refresh this w = w ∧ reload this w = w ∧ stop this w = w ∧
      goBack this w = w ∧ goForward this w = w ∧ goHome this w = w ∧
      (∀ s, navigate this s w = w)) ∧
    (∀ cb : Callback, dispatch cb w = w) ∧
    (∀ (this : Nat) (op : ControlOp), op.perform this w = w) := by
  have hcb : ∀ cb : Callback, dispatch cb w = w := by
    intro cb
    cases cb <;> simp [dispatch, on_load_started, on_load_ended, on_title_changed,
      on_url_changed, on_history_changed, on_animating_changed, on_shutdown_complete,
      on_ime_show, on_ime_hide, wakeup, hguard]
  have hop : ∀ (this : Nat) (op : ControlOp), op.perform this w = w := by
    intro this op
    cases op <;> simp [ControlOp.perform, pointerEnter, pointerExit, pointerOver, pointerPress,
      pointerRelease, pointerClick, pointerScrollDiscrete, keyEvent, refresh, reload, stop,
      goBack, goForward, goHome, navigate, hguard]
  refine ⟨⟨hcb .on_load_started, hcb .on_load_ended, fun t => hcb (.on_title_changed t),
    fun u => hcb (.on_url_changed u), fun b f => hcb (.on_history_changed b f),
    fun a => hcb (.on_animating_changed a), hcb .on_shutdown_complete, hcb .on_ime_show,
    hcb .on_ime_hide, hcb .wakeup⟩, ?_, hcb, hop⟩
  intro this
  exact ⟨fun x y => hop this (.pointerOver x y), fun b x y => hop this (.pointerPress b x y),
    fun b x y => hop this (.pointerRelease b x y), fun b x y => hop this (.pointerClick b x y),
    fun a b x y => hop this (.pointerScrollDiscrete a b x y),
    fun u k c => hop this (.keyEvent u k c), hop this .refresh, hop this .reload,
    hop this .stop, hop this .goBack, hop this .goForward, hop this .goHome,
    fun s => hop this (.navigate s)⟩

/-- Instance of C13: the sample process, in which no engine runs. -/
theorem callbacks_and_controls_are_noops_without_guard_witness :
    sampleWorld.s_servo = none ∧ wakeup sampleWorld = sampleWorld ∧
    keyEvent 0 1 1 97 sampleWorld = sampleWorld :=
  ⟨rfl,
    (callbacks_and_controls_are_noops_without_guard sampleWorld rfl).1.2.2.2.2.2.2.2.2.2,
    ((callbacks_and_controls_are_noops_without_guard sampleWorld rfl).2.1 0).2.2.2.2.2.1
      1 1 97⟩

/-- C12. Guard invariant over the lifecycle. From a state with the guard null and as
many `initRenderer` as `deinit` calls made (in particular the initial state, with no
engine call made), every state reached by a sequence of `init`, `requestUpdate`,
`cleanupRenderer`, control operations and engine callbacks on any windows has the guard
non-null exactly when the `initRenderer` calls made so far exceed the `deinit` calls by
one, and the two counts equal when the guard is null. Hence in every such state the
`deinit` calls never exceed the `initRenderer` calls, which exceed them by at most
one. -/
theorem guard_is_set_exactly_while_booted (env : Env) (ops : List LifecycleOp) (w w' : World)
    (hguard : w.s_servo = none)
    (hcounts : initCalls w.engineLog = deinitCalls w.engineLog)
    (hrun : runOps env ops w = some w') :
    (w'.s_servo ≠ none ↔ initCalls w'.engineLog = deinitCalls w'.engineLog + 1) ∧
    (w'.s_servo = none → initCalls w'.engineLog = deinitCalls w'.engineLog) ∧
    deinitCalls w'.engineLog ≤ initCalls w'.engineLog ∧
    initCalls w'.engineLog ≤ deinitCalls w'.engineLog + 1 := by
  have hinv := runOps_keeps_guardMatchesBoots env ops w w' (Or.inl ⟨hguard, hcounts⟩) hrun
  rcases hinv with ⟨h0, hc⟩ | ⟨h0, hc⟩
  · refine ⟨⟨fun h => absurd h0 h, fun h => by omega⟩, fun _ => hc, by omega, by omega⟩
  · refine ⟨⟨fun _ => hc, fun _ => h0⟩, fun h => absurd h h0, by omega, by omega⟩

/-- Instance of C12: bind callbacks, boot on window 0, click, update window 1, shut
down from window 1, a late callback, boot again on window 1. -/
theorem guard_is_set_exactly_while_booted_witness :
    sampleWorld.s_servo = none ∧
    initCalls sampleWorld.engineLog = deinitCalls sampleWorld.engineLog ∧
    (runOps silentEnv
      [LifecycleOp.init 0 (some 1) (some 2) (some 3), LifecycleOp.requestUpdate 1 0,
        LifecycleOp.control 0 (ControlOp.pointerClick 0 10 20),
        LifecycleOp.requestUpdate 2 1, LifecycleOp.requestUpdate 2 0,
        LifecycleOp.cleanupRenderer 2 1, LifecycleOp.callback Callback.on_shutdown_complete,
        LifecycleOp.requestUpdate 1 1] sampleWorld).map
      (fun w' => (w'.s_servo, initCalls w'.engineLog, deinitCalls w'.engineLog)) =
      some (some 1, 2, 1) ∧
    ∀ w', runOps silentEnv
      [LifecycleOp.init 0 (some 1) (some 2) (some 3), LifecycleOp.requestUpdate 1 0,
        LifecycleOp.control 0 (ControlOp.pointerClick 0 10 20),
        LifecycleOp.requestUpdate 2 1, LifecycleOp.requestUpdate 2 0,
        LifecycleOp.cleanupRenderer 2 1, LifecycleOp.callback Callback.on_shutdown_complete,
        LifecycleOp.requestUpdate 1 1] sampleWorld = some w' →
      (w'.s_servo ≠ none ↔ initCalls w'.engineLog = deinitCalls w'.engineLog + 1) ∧
      (w'.s_servo = none → initCalls w'.engineLog = deinitCalls w'.engineLog) ∧
      deinitCalls w'.engineLog ≤ initCalls w'.engineLog ∧
      initCalls w'.engineLog ≤ deinitCalls w'.engineLog + 1 :=
  ⟨rfl, by decide, by decide,
    fun w' h => guard_is_set_exactly_while_booted silentEnv _ sampleWorld w' rfl (by decide) h⟩

/-- C15 fails as stated while no engine runs: `ServoUnityKeyCode_Character` is in the
mapped set, and with `s_servo` null `keyEvent` returns at its guard without enqueuing
a task. -/
theorem mapped_key_is_dropped_without_guard :
    sampleWorld.s_servo = none ∧
    ¬ UnmappedKeyCode ServoUnityKeyCode_Character ∧
    keyTypeFor ServoUnityKeyCode_Character 97 = some (CKeyType.kCharacter, 97) ∧
    ((keyEvent 0 1 ServoUnityKeyCode_Character 97 sampleWorld).windows 0).m_servoTasks = [] :=
  ⟨by decide, by decide, by decide, by decide⟩

/-- C15, amended. For every key code outside the mapped set (`Null`, `Clear`, `F13` to
`F19`, `SysReq`, `Break`, `Menu`, and every value below 0 or above 73), `keyEvent`
returns the state it was given: no task is enqueued and nothing changes. For every key
code in the mapped set, with the guard non-null, it appends exactly one task to the
task queue and changes nothing else; when called, that task makes the engine call
`key_down` if `upDown` is 1 and `key_up` for every other value of `upDown`. -/
theorem keyEvent_ignores_unmapped_codes (env : Env) (this : Nat) (w : World)
    (upDown keyCode character : Int) :
    (UnmappedKeyCode keyCode → keyEvent this upDown keyCode character w = w) ∧
    (¬ UnmappedKeyCode keyCode → w.s_servo ≠ none →
      ∃ kt kc task,
        task = (if upDown = 1 then ServoTask.key_down kc kt else ServoTask.key_up kc kt) ∧
        keyEvent this upDown keyCode character w = runOnServoThread this task w ∧
        ((keyEvent this upDown keyCode character w).windows this).m_servoTasks =
          (w.windows this).m_servoTasks ++ [task] ∧
        ∀ v, (runTask env this task v).engineLog =
          v.engineLog ++
            [if upDown = 1 then EngineCall.key_down kc kt else EngineCall.key_up kc kt]) := by
  refine ⟨?_, ?_⟩
  · intro h
    unfold keyEvent
    rw [keyTypeFor_unmapped keyCode character h]
    cases w.s_servo <;> rfl
  · intro h hguard
    obtain ⟨g, hg⟩ := Option.ne_none_iff_exists'.mp hguard
    obtain ⟨kt, kc, hk⟩ := keyTypeFor_mapped keyCode character h
    refine ⟨kt, kc, _, rfl, ?_, ?_, ?_⟩
    · simp only [keyEvent, hg, hk]
      by_cases hu : upDown = 1
      · rw [if_pos hu, if_pos hu]
      · rw [if_neg hu, if_neg hu]
    · simp only [keyEvent, hg, hk]
      by_cases hu : upDown = 1
      · rw [if_pos hu, if_pos hu]; exact runOnServoThread_tasks this _ w
      · rw [if_neg hu, if_neg hu]; exact runOnServoThread_tasks this _ w
    · intro v
      by_cases hu : upDown = 1
      · rw [if_pos hu, if_pos hu]
        show (engineCall env _ _).engineLog = _
        rw [engineCall_engineLog]
      · rw [if_neg hu, if_neg hu]
        show (engineCall env _ _).engineLog = _
        rw [engineCall_engineLog]

/-- Instance of amended C15: key up of keypad 7 on window 0 of the running sample
process, and the ignored code `F13`. -/
theorem keyEvent_ignores_unmapped_codes_witness :
    UnmappedKeyCode ServoUnityKeyCode_F13 ∧
    keyEvent 0 1 ServoUnityKeyCode_F13 0 runningWorld = runningWorld ∧
    ¬ UnmappedKeyCode ServoUnityKeyCode_Keypad7 ∧ runningWorld.s_servo ≠ none ∧
    ((keyEvent 0 0 ServoUnityKeyCode_Keypad7 0 runningWorld).windows 0).m_servoTasks =
      [ServoTask.key_up 55 CKeyType.kCharacter] ∧
    ∃ kt kc task,
      task = (if (0 : Int) = 1 then ServoTask.key_down kc kt else ServoTask.key_up kc kt) ∧
      keyEvent 0 0 ServoUnityKeyCode_Keypad7 0 runningWorld =
        runOnServoThread 0 task runningWorld ∧
      ((keyEvent 0 0 ServoUnityKeyCode_Keypad7 0 runningWorld).windows 0).m_servoTasks =
        (runningWorld.windows 0).m_servoTasks ++ [task] ∧
      ∀ v, (runTask silentEnv 0 task v).engineLog =
        v.engineLog ++
          [if (0 : Int) = 1 then EngineCall.key_down kc kt else EngineCall.key_up kc kt] :=
  ⟨by decide,
    (keyEvent_ignores_unmapped_codes silentEnv 0 runningWorld 1 ServoUnityKeyCode_F13 0).1
      (by decide),
    by decide, by decide, by decide,
    (keyEvent_ignores_unmapped_codes silentEnv 0 runningWorld 0 ServoUnityKeyCode_Keypad7 0).2
      (by decide) (by decide)⟩

/-- C16. The navigate resolution heuristic. With the guard non-null `navigate(s)`
enqueues one task; whenever that task is called, in a state `v`, it makes at most one
`load_uri` call, decided with the predicate `is_uri_valid` as follows. If `s` is valid
it loads `s`. Otherwise the candidate is `"https://" + s` when `s` contains a `.` that
precedes its first `/` (or has no `/`) and `"https://" + s` is valid, and
`SearchURI + s` in every other case; the candidate is loaded if it is valid and
nothing is loaded if it is not. So every URI passed to `load_uri` is valid. -/
theorem navigate_resolves_by_heuristic (env : Env) (this : Nat) (s : String) (v : World) :
    (∀ w : World, w.s_servo ≠ none →
      navigate this s w = runOnServoThread this (ServoTask.navigate s) w) ∧
    (env.is_uri_valid s = true →
      (runTask env this (ServoTask.navigate s) v).engineLog =
        v.engineLog ++ [EngineCall.load_uri s]) ∧
    (env.is_uri_valid s = false →
      DotBeforeFirstSlash s ∧ env.is_uri_valid ("https://" ++ s) = true →
      (runTask env this (ServoTask.navigate s) v).engineLog =
        v.engineLog ++ [EngineCall.load_uri ("https://" ++ s)]) ∧
    (env.is_uri_valid s = false →
      ¬ (DotBeforeFirstSlash s ∧ env.is_uri_valid ("https://" ++ s) = true) →
      env.is_uri_valid (v.s_param_SearchURI ++ s) = true →
      (runTask env this (ServoTask.navigate s) v).engineLog =
        v.engineLog ++ [EngineCall.load_uri (v.s_param_SearchURI ++ s)]) ∧
    (env.is_uri_valid s = false →
      ¬ (DotBeforeFirstSlash s ∧ env.is_uri_valid ("https://" ++ s) = true) →
      env.is_uri_valid (v.s_param_SearchURI ++ s) = false →
      (runTask env this (ServoTask.navigate s) v).engineLog = v.engineLog) ∧
    (∃ calls, (runTask env this (ServoTask.navigate s) v).engineLog = v.engineLog ++ calls ∧
      calls.length ≤ 1 ∧
      ∀ c ∈ calls, ∃ uri, c = EngineCall.load_uri uri ∧ env.is_uri_valid uri = true) := by
  have hlog : (runTask env this (ServoTask.navigate s) v).engineLog =
      v.engineLog ++
        (if env.is_uri_valid s = true then [EngineCall.load_uri s]
        else if env.is_uri_valid (navigateCandidate env v.s_param_SearchURI s) = true then
          [EngineCall.load_uri (navigateCandidate env v.s_param_SearchURI s)]
        else []) :=
    navigateTask_engineLog env s (markRan this (ServoTask.navigate s) v)
  obtain ⟨hc1, hc2⟩ := navigateCandidate_eq env v.s_param_SearchURI s
  refine ⟨?_, ?_, ?_, ?_, ?_, ?_⟩
  · intro w hw
    obtain ⟨g, hg⟩ := Option.ne_none_iff_exists'.mp hw
    simp only [navigate, hg]
  · intro h1
    rw [hlog, if_pos h1]
  · intro h1 hd
    rw [hlog, if_neg (by simp [h1]), hc1 hd, if_pos hd.2]
  · intro h1 hd h3
    rw [hlog, if_neg (by simp [h1]), hc2 hd, if_pos h3]
  · intro h1 hd h3
    rw [hlog, if_neg (by simp [h1]), hc2 hd, if_neg (by simp [h3])]
    simp
  · by_cases h1 : env.is_uri_valid s = true
    · refine ⟨[EngineCall.load_uri s], by rw [hlog, if_pos h1], by simp, ?_⟩
      intro c hc
      simp only [List.mem_singleton] at hc
      exact ⟨s, hc, h1⟩
    · by_cases h2 : env.is_uri_valid (navigateCandidate env v.s_param_SearchURI s) = true
      · refine ⟨[EngineCall.load_uri (navigateCandidate env v.s_param_SearchURI s)],
          by rw [hlog, if_neg h1, if_pos h2], by simp, ?_⟩
        intro c hc
        simp only [List.mem_singleton] at hc
        exact ⟨_, hc, h2⟩
      · exact ⟨[], by rw [hlog, if_neg h1, if_neg h2], by simp, by simp⟩

/-- Instance of C16, the example of the statement: `example.com` is not a valid URI,
has a `.` and no `/`, and `https://example.com` is valid, so that is what is loaded. -/
theorem navigate_resolves_by_heuristic_witness :
    exampleEnv.is_uri_valid "example.com" = false ∧
    (DotBeforeFirstSlash "example.com" ∧
      exampleEnv.is_uri_valid ("https://" ++ "example.com") = true) ∧
    (runTask exampleEnv 0 (ServoTask.navigate "example.com") runningWorld).engineLog =
      runningWorld.engineLog ++ [EngineCall.load_uri ("https://" ++ "example.com")] :=
  ⟨by decide,
    ⟨⟨['e', 'x', 'a', 'm', 'p', 'l', 'e'], ['c', 'o', 'm'], by decide, by decide⟩, by decide⟩,
    (navigate_resolves_by_heuristic exampleEnv 0 "example.com" runningWorld).2.2.1 (by decide)
      ⟨⟨['e', 'x', 'a', 'm', 'p', 'l', 'e'], ['c', 'o', 'm'], by decide, by decide⟩,
        by decide⟩⟩

/-- C17. Texture format normalisation is closed and never guesses. For every
`DXGI_FORMAT` value, `getServoUnityTextureFormatForDXGIFormat` returns one of the ten
`ServoUnityTextureFormat` codes 0 to 9: `RGBA32` for the four `R8G8B8A8` formats of
the switch, `BGRA32` for the three `B8G8R8A8` formats, `RGBA4444` for
`B4G4R4A4_UNORM`, `RGB565` for `B5G6R5_UNORM`, `RGBA5551` for `B5G5R5A1_UNORM`, and
`ServoUnityTextureFormat_Invalid` (0) for every other value. -/
theorem texture_format_normalisation_is_closed (format : Nat) :
    (0 ≤ getServoUnityTextureFormatForDXGIFormat format ∧
      getServoUnityTextureFormatForDXGIFormat format ≤ 9) ∧
    getServoUnityTextureFormatForDXGIFormat format ∈
      [ServoUnityTextureFormat_Invalid, ServoUnityTextureFormat_RGBA32,
        ServoUnityTextureFormat_BGRA32, ServoUnityTextureFormat_ARGB32,
        ServoUnityTextureFormat_ABGR32, ServoUnityTextureFormat_RGB24,
        ServoUnityTextureFormat_BGR24, ServoUnityTextureFormat_RGBA4444,
        ServoUnityTextureFormat_RGBA5551, ServoUnityTextureFormat_RGB565] ∧
    (format ∈ [DXGI_FORMAT_R8G8B8A8_TYPELESS, DXGI_FORMAT_R8G8B8A8_UNORM,
        DXGI_FORMAT_R8G8B8A8_UNORM_SRGB, DXGI_FORMAT_R8G8B8A8_UINT] →
      getServoUnityTextureFormatForDXGIFormat format = ServoUnityTextureFormat_RGBA32) ∧
    (format ∈ [DXGI_FORMAT_B8G8R8A8_UNORM, DXGI_FORMAT_B8G8R8A8_UNORM_SRGB,
        DXGI_FORMAT_B8G8R8A8_TYPELESS] →
      getServoUnityTextureFormatForDXGIFormat format = ServoUnityTextureFormat_BGRA32) ∧
    (format = DXGI_FORMAT_B4G4R4A4_UNORM →
      getServoUnityTextureFormatForDXGIFormat format = ServoUnityTextureFormat_RGBA4444) ∧
    (format = DXGI_FORMAT_B5G6R5_UNORM →
      getServoUnityTextureFormatForDXGIFormat format = ServoUnityTextureFormat_RGB565) ∧
    (format = DXGI_FORMAT_B5G5R5A1_UNORM →
      getServoUnityTextureFormatForDXGIFormat format = ServoUnityTextureFormat_RGBA5551) ∧
    (format ∉ [DXGI_FORMAT_R8G8B8A8_TYPELESS, DXGI_FORMAT_R8G8B8A8_UNORM,
        DXGI_FORMAT_R8G8B8A8_UNORM_SRGB, DXGI_FORMAT_R8G8B8A8_UINT, DXGI_FORMAT_B8G8R8A8_UNORM,
        DXGI_FORMAT_B8G8R8A8_UNORM_SRGB, DXGI_FORMAT_B8G8R8A8_TYPELESS,
        DXGI_FORMAT_B4G4R4A4_UNORM, DXGI_FORMAT_B5G6R5_UNORM, DXGI_FORMAT_B5G5R5A1_UNORM] →
      getServoUnityTextureFormatForDXGIFormat format = ServoUnityTextureFormat_Invalid) := by
  simp only [getServoUnityTextureFormatForDXGIFormat, DXGI_FORMAT_R8G8B8A8_TYPELESS,
    DXGI_FORMAT_R8G8B8A8_UNORM, DXGI_FORMAT_R8G8B8A8_UNORM_SRGB, DXGI_FORMAT_R8G8B8A8_UINT,
    DXGI_FORMAT_B8G8R8A8_UNORM, DXGI_FORMAT_B8G8R8A8_UNORM_SRGB, DXGI_FORMAT_B8G8R8A8_TYPELESS,
    DXGI_FORMAT_B4G4R4A4_UNORM, DXGI_FORMAT_B5G6R5_UNORM, DXGI_FORMAT_B5G5R5A1_UNORM,
    ServoUnityTextureFormat_Invalid, ServoUnityTextureFormat_RGBA32,
    ServoUnityTextureFormat_BGRA32, ServoUnityTextureFormat_ARGB32,
    ServoUnityTextureFormat_ABGR32, ServoUnityTextureFormat_RGB24,
    ServoUnityTextureFormat_BGR24, ServoUnityTextureFormat_RGBA4444,
    ServoUnityTextureFormat_RGBA5551, ServoUnityTextureFormat_RGB565,
    List.mem_cons, List.mem_singleton, List.not_mem_nil, or_false]
  split_ifs <;> simp <;> omega

/-- Instance of C17: the format `R8G8B8A8_SNORM` (31), which the switch does not
name, is surfaced as `Invalid`, and `B8G8R8A8_TYPELESS` as `BGRA32`. -/
theorem texture_format_normalisation_is_closed_witness :
    getServoUnityTextureFormatForDXGIFormat 31 = ServoUnityTextureFormat_Invalid ∧
    getServoUnityTextureFormatForDXGIFormat DXGI_FORMAT_B8G8R8A8_TYPELESS =
      ServoUnityTextureFormat_BGRA32 :=
  ⟨(texture_format_normalisation_is_closed 31).2.2.2.2.2.2.2 (by decide),
    (texture_format_normalisation_is_closed DXGI_FORMAT_B8G8R8A8_TYPELESS).2.2.2.1
      (by decide)⟩

/-- C18. One copy per tick for matching textures. When the base update of
`ServoUnityWindowDX11::requestUpdate` returns the state `w'`, the method returns with
that base state and the added members unchanged, and after the base update: if both
texture pointers are bound and the two descriptions have equal width and equal height,
the Direct3D calls made are the two `GetDesc` and exactly one `CopyResource` from the
engine texture into the host texture, and no error is logged; if either pointer is
null, no Direct3D call is made at all (no copy, no texture inspected). -/
theorem dx11_requestUpdate_copies_once_when_sizes_match (env : Env) (d3d : D3DEnv)
    (fuel this : Nat) (st : DX11World) (w' : World)
    (hbase : requestUpdate env fuel this st.base = some w') :
    ∃ st', ServoUnityWindowDX11.requestUpdate env d3d fuel this st = some st' ∧
      st'.base = w' ∧ st'.dx = st.dx ∧
      (∀ servoTex unityTex, (st.dx this).m_servoTexPtr = some servoTex →
        (st.dx this).m_unityTexPtr = some unityTex →
        (d3d.desc servoTex).Width = (d3d.desc unityTex).Width →
        (d3d.desc servoTex).Height = (d3d.desc unityTex).Height →
        st'.d3dLog = st.d3dLog ++
          [D3DCall.GetImmediateContext, D3DCall.GetDesc servoTex, D3DCall.GetDesc unityTex,
            D3DCall.CopyResource unityTex servoTex, D3DCall.Release] ∧
        st'.errorLog = st.errorLog) ∧
      ((st.dx this).m_servoTexPtr = none ∨ (st.dx this).m_unityTexPtr = none →
        st'.d3dLog = st.d3dLog ∧ st'.errorLog = st.errorLog) := by
  refine ⟨ServoUnityWindowDX11.copyFrame d3d this { st with base := w' }, ?_, ?_, ?_, ?_, ?_⟩
  · simp only [ServoUnityWindowDX11.requestUpdate, hbase]
  · unfold ServoUnityWindowDX11.copyFrame
    simp only
    split
    · split <;> rfl
    · rfl
  · unfold ServoUnityWindowDX11.copyFrame
    simp only
    split
    · split <;> rfl
    · rfl
  · intro servoTex unityTex hs hu hw hh
    unfold ServoUnityWindowDX11.copyFrame
    simp only [hs, hu, hw, ne_eq, not_true_eq_false, or_self, if_false]
    simp
  · intro hnull
    unfold ServoUnityWindowDX11.copyFrame
    simp only
    split
    · rename_i s u hs hu
      rcases hnull with h | h
      · rw [h] at hs; exact absurd hs (by simp)
      · rw [h] at hu; exact absurd hu (by simp)
    · exact ⟨rfl, rfl⟩

/-- Instance of C18: engine texture 1 and host texture 2, both 800 x 600, on window 0
of the running sample process. -/
theorem dx11_requestUpdate_copies_once_when_sizes_match_witness :
    requestUpdate silentEnv 1 0 (dxWorld (some 1) (some 2) none none).base =
      some runningWorld ∧
    (ServoUnityWindowDX11.requestUpdate silentEnv sampleD3D 1 0
      (dxWorld (some 1) (some 2) none none)).map (fun st' => (st'.d3dLog, st'.errorLog)) =
      some ([D3DCall.GetImmediateContext, D3DCall.GetDesc 1, D3DCall.GetDesc 2,
        D3DCall.CopyResource 2 1, D3DCall.Release], []) ∧
    ∃ st', ServoUnityWindowDX11.requestUpdate silentEnv sampleD3D 1 0
        (dxWorld (some 1) (some 2) none none) = some st' ∧
      st'.base = runningWorld ∧ st'.dx = (dxWorld (some 1) (some 2) none none).dx ∧
      (∀ servoTex unityTex,
        ((dxWorld (some 1) (some 2) none none).dx 0).m_servoTexPtr = some servoTex →
        ((dxWorld (some 1) (some 2) none none).dx 0).m_unityTexPtr = some unityTex →
        (sampleD3D.desc servoTex).Width = (sampleD3D.desc unityTex).Width →
        (sampleD3D.desc servoTex).Height = (sampleD3D.desc unityTex).Height →
        st'.d3dLog = (dxWorld (some 1) (some 2) none none).d3dLog ++
          [D3DCall.GetImmediateContext, D3DCall.GetDesc servoTex, D3DCall.GetDesc unityTex,
            D3DCall.CopyResource unityTex servoTex, D3DCall.Release] ∧
        st'.errorLog = (dxWorld (some 1) (some 2) none none).errorLog) ∧
      (((dxWorld (some 1) (some 2) none none).dx 0).m_servoTexPtr = none ∨
          ((dxWorld (some 1) (some 2) none none).dx 0).m_unityTexPtr = none →
        st'.d3dLog = (dxWorld (some 1) (some 2) none none).d3dLog ∧
          st'.errorLog = (dxWorld (some 1) (some 2) none none).errorLog) :=
  ⟨rfl, by decide,
    dx11_requestUpdate_copies_once_when_sizes_match silentEnv sampleD3D 1 0
      (dxWorld (some 1) (some 2) none none) runningWorld rfl⟩

/-- C21 fails as stated on a window without a browser-event callback. Window 0 holds
the guard and was constructed without callbacks; the engine reports `on_load_started`,
which queues `(7, LoadStateChanged, 1, 0)`; `serviceWindowEvents` then leaves the
queue empty and has called nothing: the event is neither delivered nor still queued. -/
theorem serviceWindowEvents_drops_events_without_callback :
    runningWorld.s_servo = some 0 ∧
    (runningWorld.windows 0).m_browserEventCallback = none ∧
    ((on_load_started runningWorld).windows 0).m_browserEventCallbackTasks =
      [⟨7, ServoUnityBrowserEvent_LoadStateChanged, 1, 0⟩] ∧
    (serviceWindowEvents 0 (on_load_started runningWorld)).hostLog = [] ∧
    ((serviceWindowEvents 0 (on_load_started runningWorld)).windows 0
      ).m_browserEventCallbackTasks = [] := by
  decide

/-- C21, amended. On a window whose browser-event callback is the registered pointer
`fn`, over any history of pushes and `serviceWindowEvents` calls: the host trace grows
only by calls of `fn` on events, and the events handed to `fn`, followed by the events
still queued, are exactly the events queued at the start followed by the events
pushed, in order; so an event leaves the queue only by being delivered, and every
event pushed is delivered or still queued. On a window with no browser-event callback
registered, `serviceWindowEvents` empties the queue and calls nothing. -/
theorem serviceWindowEvents_delivers_what_it_removes (this fn : Nat) (w : World)
    (ops : List EventOp)
    (hcb : (w.windows this).m_browserEventCallback = some fn) :
    (∃ delivered : List BROWSEREVENTCALLBACKTASK,
      (runEventOps this ops w).hostLog =
        w.hostLog ++ delivered.map
          (fun e => HostCall.browserEvent fn e.uidExt e.eventType e.eventData1 e.eventData2) ∧
      delivered ++ ((runEventOps this ops w).windows this).m_browserEventCallbackTasks =
        (w.windows this).m_browserEventCallbackTasks ++ pushedEvents ops) ∧
    (∀ v : World, (v.windows this).m_browserEventCallback = none →
      (serviceWindowEvents this v).hostLog = v.hostLog ∧
      ((serviceWindowEvents this v).windows this).m_browserEventCallbackTasks = []) := by
  refine ⟨?_, ?_⟩
  · obtain ⟨d, h1, h2, -⟩ := runEventOps_registered this fn ops w hcb
    exact ⟨d, h1, h2⟩
  · intro v hv
    obtain ⟨h1, h2, -⟩ := serviceLoop_unregistered this _ v hv rfl
    exact ⟨h1, h2⟩

/-- Instance of amended C21: window 0 with callback pointer 5; one event is pushed and
serviced, a second one is pushed and stays queued. -/
theorem serviceWindowEvents_delivers_what_it_removes_witness :
    (listeningWorld.windows 0).m_browserEventCallback = some 5 ∧
    (runEventOps 0 [EventOp.push ⟨7, 2, 1, 0⟩, EventOp.service, EventOp.push ⟨7, 6, 0, 0⟩]
      listeningWorld).hostLog = [HostCall.browserEvent 5 7 2 1 0] ∧
    ((runEventOps 0 [EventOp.push ⟨7, 2, 1, 0⟩, EventOp.service, EventOp.push ⟨7, 6, 0, 0⟩]
      listeningWorld).windows 0).m_browserEventCallbackTasks = [⟨7, 6, 0, 0⟩] ∧
    ∃ delivered : List BROWSEREVENTCALLBACKTASK,
      (runEventOps 0 [EventOp.push ⟨7, 2, 1, 0⟩, EventOp.service, EventOp.push ⟨7, 6, 0, 0⟩]
        listeningWorld).hostLog =
        listeningWorld.hostLog ++ delivered.map
          (fun e => HostCall.browserEvent 5 e.uidExt e.eventType e.eventData1 e.eventData2) ∧
      delivered ++
        ((runEventOps 0 [EventOp.push ⟨7, 2, 1, 0⟩, EventOp.service, EventOp.push ⟨7, 6, 0, 0⟩]
          listeningWorld).windows 0).m_browserEventCallbackTasks =
        (listeningWorld.windows 0).m_browserEventCallbackTasks ++
          pushedEvents [EventOp.push ⟨7, 2, 1, 0⟩, EventOp.service, EventOp.push ⟨7, 6, 0, 0⟩] :=
  ⟨by decide, by decide, by decide,
    (serviceWindowEvents_delivers_what_it_removes 0 5 listeningWorld
      [EventOp.push ⟨7, 2, 1, 0⟩, EventOp.service, EventOp.push ⟨7, 6, 0, 0⟩] (by decide)).1⟩

/-- C22. Event payload encoding. With the guard pointing to window `s`, each engine
notification appends exactly one event to the event queue of `s` and leaves every
other event queue alone; the event carries the `uidExt` of `s` and:
`on_load_started` gives `(LoadStateChanged, 1, 0)`, `on_load_ended`
`(LoadStateChanged, 0, 0)`, `on_ime_show` `(IMEStateChanged, 1, 0)`, `on_ime_hide`
`(IMEStateChanged, 0, 0)`, `on_history_changed(b, f)` gives `HistoryChanged` with 1
or 0 for `b` and for `f`, `on_title_changed(t)` gives `(TitleChanged, 0, 0)` and
afterwards `windowTitle()` returns `t`, `on_url_changed(u)` gives `(URLChanged, 0, 0)`
and afterwards `windowURL()` returns `u`. The event codes are 2, 4, 5, 6, 7. -/
theorem engine_notifications_push_documented_events (w : World) (s : Nat)
    (hguard : w.s_servo = some s) :
    PushesOneEvent w (on_load_started w) s
      ⟨(w.windows s).m_uidExt, ServoUnityBrowserEvent_LoadStateChanged, 1, 0⟩ ∧
    PushesOneEvent w (on_load_ended w) s
      ⟨(w.windows s).m_uidExt, ServoUnityBrowserEvent_LoadStateChanged, 0, 0⟩ ∧
    PushesOneEvent w (on_ime_show w) s
      ⟨(w.windows s).m_uidExt, ServoUnityBrowserEvent_IMEStateChanged, 1, 0⟩ ∧
    PushesOneEvent w (on_ime_hide w) s
      ⟨(w.windows s).m_uidExt, ServoUnityBrowserEvent_IMEStateChanged, 0, 0⟩ ∧
    (∀ b f : Bool, PushesOneEvent w (on_history_changed b f w) s
      ⟨(w.windows s).m_uidExt, ServoUnityBrowserEvent_HistoryChanged,
        if b then 1 else 0, if f then 1 else 0⟩) ∧
    (∀ t : String,
      PushesOneEvent w (on_title_changed t w) s
        ⟨(w.windows s).m_uidExt, ServoUnityBrowserEvent_TitleChanged, 0, 0⟩ ∧
      windowTitle s (on_title_changed t w) = t) ∧
    (∀ u : String,
      PushesOneEvent w (on_url_changed u w) s
        ⟨(w.windows s).m_uidExt, ServoUnityBrowserEvent_URLChanged, 0, 0⟩ ∧
      windowURL s (on_url_changed u w) = u) ∧
    (ServoUnityBrowserEvent_LoadStateChanged = 2 ∧ ServoUnityBrowserEvent_IMEStateChanged = 4 ∧
      ServoUnityBrowserEvent_HistoryChanged = 5 ∧ ServoUnityBrowserEvent_TitleChanged = 6 ∧
      ServoUnityBrowserEvent_URLChanged = 7) := by
  refine ⟨?_, ?_, ?_, ?_, ?_, ?_, ?_, ⟨rfl, rfl, rfl, rfl, rfl⟩⟩
  · refine ⟨by simp [on_load_started, hguard, queueBrowserEventCallbackTask], ?_⟩
    intro p hp
    simp [on_load_started, hguard, queueBrowserEventCallbackTask, hp]
  · refine ⟨by simp [on_load_ended, hguard, queueBrowserEventCallbackTask], ?_⟩
    intro p hp
    simp [on_load_ended, hguard, queueBrowserEventCallbackTask, hp]
  · refine ⟨by simp [on_ime_show, hguard, queueBrowserEventCallbackTask], ?_⟩
    intro p hp
    simp [on_ime_show, hguard, queueBrowserEventCallbackTask, hp]
  · refine ⟨by simp [on_ime_hide, hguard, queueBrowserEventCallbackTask], ?_⟩
    intro p hp
    simp [on_ime_hide, hguard, queueBrowserEventCallbackTask, hp]
  · intro b f
    refine ⟨by simp [on_history_changed, hguard, queueBrowserEventCallbackTask], ?_⟩
    intro p hp
    simp [on_history_changed, hguard, queueBrowserEventCallbackTask, hp]
  · intro t
    refine ⟨⟨by simp [on_title_changed, hguard, queueBrowserEventCallbackTask], ?_⟩, ?_⟩
    · intro p hp
      simp [on_title_changed, hguard, queueBrowserEventCallbackTask, hp]
    · simp [windowTitle, on_title_changed, hguard, queueBrowserEventCallbackTask]
  · intro u
    refine ⟨⟨by simp [on_url_changed, hguard, queueBrowserEventCallbackTask], ?_⟩, ?_⟩
    · intro p hp
      simp [on_url_changed, hguard, queueBrowserEventCallbackTask, hp]
    · simp [windowURL, on_url_changed, hguard, queueBrowserEventCallbackTask]

/-- Instance of C22: the guard points to window 0, whose `uidExt` is 7; the engine
reports a history change and a new title. -/
theorem engine_notifications_push_documented_events_witness :
    runningWorld.s_servo = some 0 ∧
    ((on_history_changed true false runningWorld).windows 0).m_browserEventCallbackTasks =
      [⟨7, 5, 1, 0⟩] ∧
    PushesOneEvent runningWorld (on_history_changed true false runningWorld) 0
      ⟨(runningWorld.windows 0).m_uidExt, ServoUnityBrowserEvent_HistoryChanged,
        if true then 1 else 0, if false then 1 else 0⟩ ∧
    PushesOneEvent runningWorld (on_title_changed "Servo" runningWorld) 0
      ⟨(runningWorld.windows 0).m_uidExt, ServoUnityBrowserEvent_TitleChanged, 0, 0⟩ ∧
    windowTitle 0 (on_title_changed "Servo" runningWorld) = "Servo" :=
  ⟨by decide, by decide,
    (engine_notifications_push_documented_events runningWorld 0 (by decide)).2.2.2.2.1
      true false,
    (engine_notifications_push_documented_events runningWorld 0 (by decide)).2.2.2.2.2.1
      "Servo"⟩

/-- C23. Tasks enqueued during a drain run in the same pass. Let the task queue of
window `this` hold `q` when `requestUpdate` is called, and let the chain of enqueues
be finite: generation `k` of `q` is empty. Then `requestUpdate` (with more fuel than
tasks to call) returns with the task queue empty, and the tasks it called are the
generations of `q` one after the other: first every task of `q` in queue order, then
the tasks those enqueued through `runOnServoThread`, in the order they were enqueued,
and so on. Each task is called after the block that holds `m_servoTasksLock` is left,
so the drain that keeps track of the lock ends the same way and never blocks. -/
theorem requestUpdate_runs_nested_tasks_in_same_pass (env : Env) (this : Nat) (w : World)
    (k fuel : Nat)
    (hfinite : generation env k (w.windows this).m_servoTasks = [])
    (hfuel : (drainSchedule env k (w.windows this).m_servoTasks).length < fuel) :
    ∃ w', requestUpdate env fuel this w = some w' ∧
      w'.ranTasks = w.ranTasks ++
        (drainSchedule env k (w.windows this).m_servoTasks).map (fun t => (this, t)) ∧
      (∃ later, drainSchedule env k (w.windows this).m_servoTasks =
        (w.windows this).m_servoTasks ++
          (w.windows this).m_servoTasks.flatMap (ServoTask.enqueues env) ++ later) ∧
      (w'.windows this).m_servoTasks = [] ∧
      lockedDrainTasks env fuel this (pumpIfRequested env this (bootIfNeeded env this w)) =
        DrainResult.finished w' := by
  have hf := (bootIfNeeded_queueFrame env this w).qf_trans
    (pumpIfRequested_queueFrame env this (bootIfNeeded env this w))
  obtain ⟨w', hw', hran, hempty⟩ := drainTasks_schedule env this k
    (w.windows this).m_servoTasks (pumpIfRequested env this (bootIfNeeded env this w)) fuel
    (hf.tasks this) hfinite hfuel
  refine ⟨w', hw', ?_, drainSchedule_starts env k _ hfinite, hempty, ?_⟩
  · rw [hran, hf.ranTasks]
  · rw [lockedDrainTasks_eq, hw']

/-- Instance of C23: closure 0 and `go_back` are queued; closure 0 enqueues `refresh`
and closure 1, which enqueues a click. One `requestUpdate` calls all five, the two
queued tasks first. -/
theorem requestUpdate_runs_nested_tasks_in_same_pass_witness :
    generation nestingEnv 3 (nestingWorld.windows 0).m_servoTasks = [] ∧
    (drainSchedule nestingEnv 3 (nestingWorld.windows 0).m_servoTasks).length < 6 ∧
    drainSchedule nestingEnv 3 (nestingWorld.windows 0).m_servoTasks =
      [ServoTask.closure 0, ServoTask.go_back, ServoTask.refresh, ServoTask.closure 1,
        ServoTask.click 1 2] ∧
    ∃ w', requestUpdate nestingEnv 6 0 nestingWorld = some w' ∧
      w'.ranTasks = nestingWorld.ranTasks ++
        (drainSchedule nestingEnv 3 (nestingWorld.windows 0).m_servoTasks).map
          (fun t => (0, t)) ∧
      (∃ later, drainSchedule nestingEnv 3 (nestingWorld.windows 0).m_servoTasks =
        (nestingWorld.windows 0).m_servoTasks ++
          (nestingWorld.windows 0).m_servoTasks.flatMap (ServoTask.enqueues nestingEnv) ++
            later) ∧
      (w'.windows 0).m_servoTasks = [] ∧
      lockedDrainTasks nestingEnv 6 0
        (pumpIfRequested nestingEnv 0 (bootIfNeeded nestingEnv 0 nestingWorld)) =
        DrainResult.finished w' :=
  ⟨by decide, by decide, by decide,
    requestUpdate_runs_nested_tasks_in_same_pass nestingEnv 0 nestingWorld 3 6 (by decide)
      (by decide)⟩

/-- C24. Shutdown acknowledgement is routed to the guard holder, not the caller.
`on_shutdown_complete` clears `m_waitingForShutdown` of the window the guard points to
and touches no other window. So when `cleanupRenderer` is called on window `this`
while the guard points to another window `s`, whatever the engine answers: the flag of
`this` is still true on return; the loop has pumped exactly `k` times, `k` being the
number of clock readings of at most 2000 ms before the first reading past 2000 ms, so
it ended by the timeout; and teardown has proceeded all the same: `deinit` is the last
engine call, the guard is null, the `Shutdown` event with the `uidExt` of `this` is
appended to the event queue of `this`, and no `Shutdown` event is added to the queue
of `s`. -/
theorem shutdown_acknowledgement_goes_to_guard_holder (env : Env) (this s : Nat) (w : World)
    (k fuel : Nat) (hguard : w.s_servo = some s) (hother : s ≠ this)
    (hbelow : ∀ i, i < k → env.clock (w.clockReads + 1 + i) - env.clock w.clockReads ≤ 2000)
    (hclock : 2000 < env.clock (w.clockReads + 1 + k) - env.clock w.clockReads)
    (hfuel : k < fuel) :
    (∀ v : World, v.s_servo = some s →
      ((on_shutdown_complete v).windows s).m_waitingForShutdown = false ∧
      ∀ p, p ≠ s → (on_shutdown_complete v).windows p = v.windows p) ∧
    ∃ w', cleanupRenderer env fuel this w = some w' ∧
      (w'.windows this).m_waitingForShutdown = true ∧
      w'.engineLog = w.engineLog ++
        (EngineCall.request_shutdown ::
          (List.replicate k EngineCall.perform_updates ++ [EngineCall.deinit])) ∧
      w'.clockReads = w.clockReads + k + 2 ∧
      w'.s_servo = none ∧
      (w'.windows this).m_browserEventCallbackTasks =
        (w.windows this).m_browserEventCallbackTasks ++
          [⟨(w.windows this).m_uidExt, ServoUnityBrowserEvent_Shutdown, 0, 0⟩] ∧
      shutdownEvents (w'.windows s).m_browserEventCallbackTasks =
        shutdownEvents (w.windows s).m_browserEventCallbackTasks := by
  refine ⟨?_, ?_⟩
  · intro v hv
    refine ⟨by simp [on_shutdown_complete, hv], ?_⟩
    intro p hp
    simp [on_shutdown_complete, hv, hp]
  · obtain ⟨w', hw', hlog, hclk, hwin⟩ :=
      cleanupRenderer_foreign env this s w k fuel hguard hother hbelow hclock hfuel
    obtain ⟨w'', pumps, hw'', -, ho⟩ :=
      cleanupRenderer_spec env this w k (by rw [hguard]; simp) hclock fuel hfuel
    have e : w'' = w' := by
      rw [hw'] at hw''; exact (Option.some.inj hw'').symm
    subst e
    refine ⟨w'', hw', by rw [hwin], hlog, hclk, ho.s_servo, by rw [hwin], ?_⟩
    obtain ⟨extra, hex, hnone⟩ := ho.eventsOther s hother
    rw [hex, shutdownEvents_append_other _ _ hnone]

/-- Instance of C24: the guard points to window 0 and `cleanupRenderer` is called on
window 1. The engine answers the first pump with `on_shutdown_complete`; the flag of
window 1 stays set and the loop leaves at the reading of 3000 ms. -/
theorem shutdown_acknowledgement_goes_to_guard_holder_witness :
    runningWorld.s_servo = some 0 ∧ (0 : Nat) ≠ 1 ∧
    (∀ i, i < 1 →
      promptEnv.clock (runningWorld.clockReads + 1 + i) -
        promptEnv.clock runningWorld.clockReads ≤ 2000) ∧
    2000 < promptEnv.clock (runningWorld.clockReads + 1 + 1) -
      promptEnv.clock runningWorld.clockReads ∧
    firedShutdownComplete promptEnv runningWorld.engineLog (shutdownCalls 1) = true ∧
    ∃ w', cleanupRenderer promptEnv 2 1 runningWorld = some w' ∧
      (w'.windows 1).m_waitingForShutdown = true ∧
      w'.engineLog = runningWorld.engineLog ++
        (EngineCall.request_shutdown ::
          (List.replicate 1 EngineCall.perform_updates ++ [EngineCall.deinit])) ∧
      w'.clockReads = runningWorld.clockReads + 1 + 2 ∧
      w'.s_servo = none ∧
      (w'.windows 1).m_browserEventCallbackTasks =
        (runningWorld.windows 1).m_browserEventCallbackTasks ++
          [⟨(runningWorld.windows 1).m_uidExt, ServoUnityBrowserEvent_Shutdown, 0, 0⟩] ∧
      shutdownEvents (w'.windows 0).m_browserEventCallbackTasks =
        shutdownEvents (runningWorld.windows 0).m_browserEventCallbackTasks :=
  ⟨by decide, by decide, by decide, by decide, by decide,
    (shutdown_acknowledgement_goes_to_guard_holder promptEnv 1 0 runningWorld 1 2
      (by decide) (by decide) (by decide) (by decide) (by decide)).2⟩

/-- C25 fails through the callback members that `ServoUnityWindowDX11.h` declares
again. After `init` has registered host pointer 6 as window-resized callback on
window 0 (size 800 x 600, `uidExt` 7), `setSize(1024 x 768)` leaves the size at
800 x 600 and calls nothing, because it tests the member of the subclass, which
nothing assigns; with a stray value 77 in that member it calls 77, not 6, with the
size held before the call. -/
theorem dx11_setSize_ignores_registered_callback :
    (ServoUnityWindowDX11.init sampleD3D 0 none (some 6) none
      (dxWorld none none none none)).1 = false ∧
    (resizableWorld.base.windows 0).m_windowResizedCallback = some 6 ∧
    (resizableWorld.dx 0).m_windowResizedCallback = none ∧
    ServoUnityWindowDX11.size 0 resizableWorld = ⟨800, 600⟩ ∧
    resizableWorld.base.hostLog = [] ∧
    ServoUnityWindowDX11.size 0 (ServoUnityWindowDX11.setSize 0 ⟨1024, 768⟩ resizableWorld) =
      ⟨800, 600⟩ ∧
    (ServoUnityWindowDX11.setSize 0 ⟨1024, 768⟩ resizableWorld).base.hostLog = [] ∧
    (ServoUnityWindowDX11.setSize 0 ⟨1024, 768⟩
      (resizableWorld.setDx 0
        { resizableWorld.dx 0 with m_windowResizedCallback := some 77 })).base.hostLog =
      [HostCall.windowResized 77 7 800 600] := by
  decide

end ServoUnity
